import Mathlib

/-!
# RTGL1 frame-resource core: Framebuffers and RasterizedDataCollector

A shallow embedding of `Source/Framebuffers.cpp` and
`Source/RasterizedDataCollector.cpp`.

Conventions of the embedding:

* C++ unsigned integers are natural numbers; where the source computes in a
  fixed width the reduction modulo `2 ^ 32` or `2 ^ 64` is written out.
* A pointer is an `Option`: `none` is `nullptr`.
* A call ends in one of four ways (`Exit`): it returns, it throws an
  `RgException`, an `assert` fails (only when assertions are compiled in), or it
  runs into undefined behaviour (an out-of-bounds read, a copy from `nullptr`).
  Stateful functions return the object state at the moment the call ended next
  to the `Exit`.
* The bytes of the staging buffers and of the images are not part of the state;
  the cursors, the draw buckets and the buffer sizes are.
* The times of `EffectSimple` (EffectSimple.h) are `float` in the source. The
  embedding of `Setup` is generic in the time type; `IntegralFloat` is the
  instance with the rounded subtraction of `float` on integer values.
-/

namespace RTGL1

/-! ## How a call ends -/

/-- Error codes carried by `RgException`; the collector throws only this one. -/
inductive RgResult where
  | RG_CANT_UPLOAD_RASTERIZED_GEOMETRY
deriving DecidableEq, Repr

/-- The way a call of a C++ function ends. -/
inductive Exit (α : Type) where
  | returned (a : α)
  | thrown (code : RgResult)
  | assertFailed
  | undefinedBehaviour
deriving DecidableEq, Repr

/-- The call ends the same way, with `f` applied to the value it returns. -/
def Exit.map {α β : Type} (f : α → β) : Exit α → Exit β
  | .returned a => .returned (f a)
  | .thrown code => .thrown code
  | .assertFailed => .assertFailed
  | .undefinedBehaviour => .undefinedBehaviour

/-! ## Framebuffers -/

/-- The constant FRAMEBUFFERS_HISTORY_LENGTH of `Framebuffers.h`. -/
def FRAMEBUFFERS_HISTORY_LENGTH : Nat := 2

/-- The generated tables of `Generated/ShaderCommonCFramebuf.h`, which is not
among the sources: they are parameters of the embedding. -/
structure ShFramebuffers where
  ShFramebuffers_Count : Nat
  ShFramebuffers_Bindings : List Nat
  ShFramebuffers_BindingsSwapped : List Nat
deriving DecidableEq, Repr

/-- The slot count is a 32-bit number and the tables have one entry per slot. -/
def ShFramebuffers.WellFormed (t : ShFramebuffers) : Prop :=
  t.ShFramebuffers_Count < 2 ^ 32 ∧
  t.ShFramebuffers_Bindings.length = t.ShFramebuffers_Count ∧
  t.ShFramebuffers_BindingsSwapped.length = t.ShFramebuffers_Count

instance (t : ShFramebuffers) : Decidable t.WellFormed := by
  unfold ShFramebuffers.WellFormed; infer_instance

/-- The function `Framebuffers::FrameIndexToFBIndex` (Framebuffers.cpp, lines 31-44).
`assertsEnabled` says whether `assert` is compiled in. The sum
`framebufferImageIndex + frameIndex` is computed in 32 bits. -/
def FrameIndexToFBIndex (assertsEnabled : Bool) (t : ShFramebuffers)
    (framebufferImageIndex frameIndex : Nat) : Exit Nat :=
  if assertsEnabled && !(decide (frameIndex < FRAMEBUFFERS_HISTORY_LENGTH)) then
    .assertFailed
  else if assertsEnabled && !(decide (framebufferImageIndex < t.ShFramebuffers_Count)) then
    .assertFailed
  else
    match t.ShFramebuffers_Bindings[framebufferImageIndex]?,
          t.ShFramebuffers_BindingsSwapped[framebufferImageIndex]? with
    | some b, some s =>
      if b ≠ s then
        .returned ((framebufferImageIndex + frameIndex) % 2 ^ 32)
      else
        .returned framebufferImageIndex
    | _, _ => .undefinedBehaviour

/-- The function `Framebuffers::GetImageView` (Framebuffers.cpp, lines 200-204) over the
vector `imageViews`; a view handle is a number. -/
def GetImageView (assertsEnabled : Bool) (t : ShFramebuffers) (imageViews : List Nat)
    (framebufferImageIndex frameIndex : Nat) : Exit Nat :=
  match FrameIndexToFBIndex assertsEnabled t framebufferImageIndex frameIndex with
  | .returned i =>
    match imageViews[i]? with
    | some v => .returned v
    | none => .undefinedBehaviour
  | .thrown code => .thrown code
  | .assertFailed => .assertFailed
  | .undefinedBehaviour => .undefinedBehaviour

/-- Slot `S` does not swap: its two binding numbers agree. -/
def nonSwapping (t : ShFramebuffers) (S : Nat) : Prop :=
  t.ShFramebuffers_Bindings[S]? = t.ShFramebuffers_BindingsSwapped[S]?

instance (t : ShFramebuffers) (S : Nat) : Decidable (nonSwapping t S) := by
  unfold nonSwapping; infer_instance

/-- Slots `n` (current) and `n + 1` (previous) form a swap pair. -/
def swapPair (t : ShFramebuffers) (n : Nat) : Prop :=
  n + 1 < t.ShFramebuffers_Count ∧
  t.ShFramebuffers_Bindings[n]? = t.ShFramebuffers_BindingsSwapped[n + 1]? ∧
  t.ShFramebuffers_Bindings[n + 1]? = t.ShFramebuffers_BindingsSwapped[n]? ∧
  t.ShFramebuffers_Bindings[n]? ≠ t.ShFramebuffers_Bindings[n + 1]?

instance (t : ShFramebuffers) (n : Nat) : Decidable (swapPair t n) := by
  unfold swapPair; infer_instance

/-- A three-slot table: slot 0 does not swap, slots 1 and 2 are a swap pair. -/
def sampleTables : ShFramebuffers :=
  { ShFramebuffers_Count := 3
    ShFramebuffers_Bindings := [0, 1, 2]
    ShFramebuffers_BindingsSwapped := [0, 2, 1] }

/-! ## RasterizedDataCollector: data -/

/-- The enum RgRasterizedGeometryRenderType of the public header. -/
inductive RgRasterizedGeometryRenderType where
  | RG_RASTERIZED_GEOMETRY_RENDER_TYPE_DEFAULT
  | RG_RASTERIZED_GEOMETRY_RENDER_TYPE_SWAPCHAIN
  | RG_RASTERIZED_GEOMETRY_RENDER_TYPE_SKY
deriving DecidableEq, Repr

open RgRasterizedGeometryRenderType

/-- The struct RgViewport; a float is represented by its 32 bits. -/
structure RgViewport where
  x : Nat
  y : Nat
  width : Nat
  height : Nat
  minDepth : Nat
  maxDepth : Nat
deriving DecidableEq, Repr

/-- The struct behind `info.pArrays`: three data pointers (`none` is `nullptr`,
`some a` is the address `a`) and their strides in bytes. -/
structure RgRasterizedGeometryVertexArrays where
  pVertexData : Option Nat
  pTexCoordData : Option Nat
  pColorData : Option Nat
  vertexStride : Nat
  texCoordStride : Nat
  colorStride : Nat
deriving DecidableEq, Repr

/-- The fields of RgRasterizedGeometryUploadInfo that `AddGeometry` reads.
Counts, flags and the material handle are unsigned numbers; `transform` and
`color` are the float payloads that are copied verbatim. -/
structure RgRasterizedGeometryUploadInfo where
  renderType : RgRasterizedGeometryRenderType
  vertexCount : Nat
  pStructs : Option Nat
  pArrays : Option RgRasterizedGeometryVertexArrays
  indexCount : Nat
  pIndexData : Option Nat
  transform : List Nat
  color : List Nat
  material : Nat
  pipelineState : Nat
  blendFuncSrc : Nat
  blendFuncDst : Nat
deriving DecidableEq, Repr

/-- The struct `RasterizedDataCollector::DrawInfo`: the fields that `AddGeometry`
assigns. -/
structure DrawInfo where
  isDefaultViewport : Bool
  isDefaultViewProjMatrix : Bool
  transform : List Nat
  pipelineState : Nat
  blendFuncSrc : Nat
  blendFuncDst : Nat
  viewport : RgViewport
  viewProj : List Nat
  color : List Nat
  textureIndex : Nat
  vertexCount : Nat
  firstVertex : Nat
  indexCount : Nat
  firstIndex : Nat
deriving DecidableEq, Repr

/-- What `AddGeometry` uses and the sources do not contain: whether `assert` is
compiled in, the two depth flag bits of the public header, the value of a
`DrawInfo` right after `emplace_back()` (the struct is declared in
RasterizedDataCollector.h), and the texture index the texture manager gives for
a material (`GetMaterialTextures(material).indices[0]`, or EMPTY_TEXTURE_INDEX
when the manager is gone). -/
structure Externals where
  assertsEnabled : Bool
  RG_RASTERIZED_GEOMETRY_STATE_DEPTH_TEST : Nat
  RG_RASTERIZED_GEOMETRY_STATE_DEPTH_WRITE : Nat
  emplaced : DrawInfo
  textureIndex : Nat → Nat

/-- The draw buckets of the two subclasses: RasterizedDataCollectorGeneral owns
`rasterDrawInfos` and `swapchainDrawInfos`, RasterizedDataCollectorSky owns
`skyDrawInfos`. -/
inductive DrawBuckets where
  | General (rasterDrawInfos swapchainDrawInfos : List DrawInfo)
  | Sky (skyDrawInfos : List DrawInfo)
deriving DecidableEq, Repr

/-- Modelled from the spec: the class AutoBuffer is not among the sources. The
staging region is a fixed-capacity buffer: all that is kept of it is the size in
bytes it was created with. -/
structure AutoBuffer where
  size : Nat
deriving DecidableEq, Repr

/-- Modelled from the spec: `AutoBuffer::Create(size, ...)` makes a buffer of
`size` bytes (a 64-bit VkDeviceSize). -/
def AutoBuffer.Create (size : Nat) : AutoBuffer :=
  { size := size % 2 ^ 64 }

/-- Modelled from the spec: `AutoBuffer::GetSize()` reports the size the buffer
was created with. -/
def AutoBuffer.GetSize (b : AutoBuffer) : Nat :=
  b.size

/-- The state of a collector object: the two buffers, the two cursors and the
buckets of the subclass. -/
structure RasterizedDataCollector where
  vertexBuffer : AutoBuffer
  indexBuffer : AutoBuffer
  curVertexCount : Nat
  curIndexCount : Nat
  buckets : DrawBuckets
deriving DecidableEq, Repr

/-- The result of `GetRasterDrawInfos()`. -/
def RasterizedDataCollector.rasterDrawInfos (c : RasterizedDataCollector) : List DrawInfo :=
  match c.buckets with
  | .General r _ => r
  | .Sky _ => []

/-- The result of `GetSwapchainDrawInfos()`. -/
def RasterizedDataCollector.swapchainDrawInfos (c : RasterizedDataCollector) : List DrawInfo :=
  match c.buckets with
  | .General _ s => s
  | .Sky _ => []

/-- The result of `GetSkyDrawInfos()`. -/
def RasterizedDataCollector.skyDrawInfos (c : RasterizedDataCollector) : List DrawInfo :=
  match c.buckets with
  | .General _ _ => []
  | .Sky k => k

/-- The size of the struct RasterizerVertex: three floats, one 32-bit colour,
two floats. -/
def sizeofRasterizerVertex : Nat := 24

/-- The size of `uint32_t`. -/
def sizeofUint32 : Nat := 4

/-- The size of `float`. -/
def sizeofFloat : Nat := 4

/-! ## RasterizedDataCollector: operations -/

/-- The constructor `RasterizedDataCollector::RasterizedDataCollector`
(RasterizedDataCollector.cpp, lines 62-81): both maxima are raised to at least
64, and both buffers are created with `count * sizeof(RasterizerVertex)` bytes
(a `size_t` product, 64 bits). -/
def RasterizedDataCollector.construct (_maxVertexCount _maxIndexCount : Nat)
    (buckets : DrawBuckets) : RasterizedDataCollector :=
  let maxVertexCount := max _maxVertexCount 64
  let maxIndexCount := max _maxIndexCount 64
  { vertexBuffer := AutoBuffer.Create ((maxVertexCount * sizeofRasterizerVertex) % 2 ^ 64)
    indexBuffer := AutoBuffer.Create ((maxIndexCount * sizeofRasterizerVertex) % 2 ^ 64)
    curVertexCount := 0
    curIndexCount := 0
    buckets := buckets }

/-- The constructor of RasterizedDataCollectorGeneral (lines 293-297). -/
def RasterizedDataCollectorGeneral (maxVertexCount maxIndexCount : Nat) :
    RasterizedDataCollector :=
  RasterizedDataCollector.construct maxVertexCount maxIndexCount (.General [] [])

/-- The constructor of RasterizedDataCollectorSky (lines 349-353). -/
def RasterizedDataCollectorSky (maxVertexCount maxIndexCount : Nat) :
    RasterizedDataCollector :=
  RasterizedDataCollector.construct maxVertexCount maxIndexCount (.Sky [])

/-- The bucket whose last element a `DrawInfo *` returned by `PushInfo` points to. -/
inductive BucketRef where
  | raster
  | swapchain
  | sky
deriving DecidableEq, Repr

/-- The virtual `PushInfo` (lines 330-345 for the general collector, lines
379-392 for the sky collector): `emplace_back()` on the bucket of the render
type and a pointer to the new last element; for a render type the collector
does not handle, `assert(0)` and then `nullptr`. -/
def PushInfo (x : Externals) (b : DrawBuckets) (renderType : RgRasterizedGeometryRenderType) :
    Exit (Option BucketRef) × DrawBuckets :=
  match b with
  | .General r s =>
    if renderType = RG_RASTERIZED_GEOMETRY_RENDER_TYPE_DEFAULT then
      (.returned (some .raster), .General (r ++ [x.emplaced]) s)
    else if renderType = RG_RASTERIZED_GEOMETRY_RENDER_TYPE_SWAPCHAIN then
      (.returned (some .swapchain), .General r (s ++ [x.emplaced]))
    else if x.assertsEnabled then (.assertFailed, b)
    else (.returned none, b)
  | .Sky k =>
    if renderType = RG_RASTERIZED_GEOMETRY_RENDER_TYPE_SKY then
      (.returned (some .sky), .Sky (k ++ [x.emplaced]))
    else if x.assertsEnabled then (.assertFailed, b)
    else (.returned none, b)

/-- Apply `f` to the last element of a vector. -/
def modifyLast (f : DrawInfo → DrawInfo) (l : List DrawInfo) : List DrawInfo :=
  match l.getLast? with
  | some d => l.dropLast ++ [f d]
  | none => l

/-- A write through the `DrawInfo &` obtained from `PushInfo`: `f` is applied to
the last element of the bucket the pointer refers to. -/
def modifyBack (b : DrawBuckets) (ref : BucketRef) (f : DrawInfo → DrawInfo) : DrawBuckets :=
  match b, ref with
  | .General r s, .raster => .General (modifyLast f r) s
  | .General r s, .swapchain => .General r (modifyLast f s)
  | .Sky k, .sky => .Sky (modifyLast f k)
  | b, _ => b

/-- The function `CopyFromSeparateArrays` (lines 229-255): it writes staging memory only. -/
def CopyFromSeparateArrays (x : Externals) (info : RgRasterizedGeometryUploadInfo) : Exit Unit :=
  if x.assertsEnabled && info.pArrays.isNone then .assertFailed
  else if info.pArrays.isNone then .undefinedBehaviour
  else .returned ()

/-- The function `CopyFromArrayOfStructs` (lines 257-267): one `memcpy` from `info.pStructs`
into staging memory; with a null source the copy is undefined. -/
def CopyFromArrayOfStructs (x : Externals) (info : RgRasterizedGeometryUploadInfo) : Exit Unit :=
  if x.assertsEnabled && info.pStructs.isNone then .assertFailed
  else if info.pStructs.isNone then .undefinedBehaviour
  else .returned ()

/-- The header fields written at lines 154-189. -/
def fillHeader (x : Externals) (info : RgRasterizedGeometryUploadInfo)
    (pViewProjection : Option (List Nat)) (pViewport : Option RgViewport)
    (drawInfo : DrawInfo) : DrawInfo :=
  let d1 : DrawInfo :=
    { drawInfo with
      isDefaultViewport := pViewport.isNone
      isDefaultViewProjMatrix := pViewProjection.isNone
      transform := info.transform
      pipelineState := info.pipelineState
      blendFuncSrc := info.blendFuncSrc
      blendFuncDst := info.blendFuncDst }
  let d2 : DrawInfo :=
    match pViewport with
    | some v => { d1 with viewport := v }
    | none => d1
  let d3 : DrawInfo :=
    match pViewProjection with
    | some m => { d2 with viewProj := m }
    | none => d2
  { d3 with color := info.color, textureIndex := x.textureIndex info.material }

/-- The function `RasterizedDataCollector::AddGeometry` (lines 86-227). The capacity
comparisons add in 64 bits, the cursor updates add in 32 bits. -/
def AddGeometry (x : Externals) (c : RasterizedDataCollector)
    (info : RgRasterizedGeometryUploadInfo)
    (pViewProjection : Option (List Nat)) (pViewport : Option RgViewport) :
    Exit Unit × RasterizedDataCollector :=
  -- lines 90-93
  if x.assertsEnabled && !(decide (info.vertexCount > 0)) then (.assertFailed, c)
  else if x.assertsEnabled &&
      !((info.pStructs.isSome && info.pArrays.isNone) ||
        (info.pStructs.isNone && info.pArrays.isSome)) then (.assertFailed, c)
  else
  let renderToSwapchain : Bool :=
    info.renderType = RG_RASTERIZED_GEOMETRY_RENDER_TYPE_SWAPCHAIN
  let renderToSky : Bool :=
    info.renderType = RG_RASTERIZED_GEOMETRY_RENDER_TYPE_SKY
  -- lines 99-103
  if renderToSwapchain && x.assertsEnabled &&
      (info.pipelineState &&& x.RG_RASTERIZED_GEOMETRY_STATE_DEPTH_TEST != 0) then
    (.assertFailed, c)
  else if renderToSwapchain && x.assertsEnabled &&
      (info.pipelineState &&& x.RG_RASTERIZED_GEOMETRY_STATE_DEPTH_WRITE != 0) then
    (.assertFailed, c)
  -- lines 107-110
  else if renderToSky && (pViewProjection.isSome || pViewport.isSome) then
    (.thrown .RG_CANT_UPLOAD_RASTERIZED_GEOMETRY, c)
  -- lines 112-130
  else if info.pArrays.any (fun a => a.pVertexData.isNone) then
    (.thrown .RG_CANT_UPLOAD_RASTERIZED_GEOMETRY, c)
  else if info.pArrays.any (fun a =>
      decide (a.vertexStride < 3 * sizeofFloat) || decide (a.texCoordStride < 2 * sizeofFloat)) then
    (.thrown .RG_CANT_UPLOAD_RASTERIZED_GEOMETRY, c)
  else if info.pArrays.any (fun a =>
      a.pColorData.isSome && decide (a.colorStride < sizeofUint32)) then
    (.thrown .RG_CANT_UPLOAD_RASTERIZED_GEOMETRY, c)
  -- lines 132-136
  else if (c.curVertexCount + info.vertexCount) % 2 ^ 64 ≥
      c.vertexBuffer.GetSize / sizeofRasterizerVertex then
    (if x.assertsEnabled then .assertFailed else .returned (), c)
  -- lines 138-142
  else if (c.curIndexCount + info.indexCount) % 2 ^ 64 ≥
      c.indexBuffer.GetSize / sizeofUint32 then
    (if x.assertsEnabled then .assertFailed else .returned (), c)
  else
  -- lines 145-150
  match PushInfo x c.buckets info.renderType with
  | (.returned (some ref), pushed) =>
    -- lines 152-189
    let b1 := modifyBack pushed ref (fillHeader x info pViewProjection pViewport)
    -- lines 192-202
    let copied : Exit Unit :=
      if info.pArrays.isSome then CopyFromSeparateArrays x info
      else CopyFromArrayOfStructs x info
    match copied with
    | .returned () =>
      -- lines 204-206
      let b2 := modifyBack b1 ref (fun d =>
        { d with vertexCount := info.vertexCount, firstVertex := c.curVertexCount })
      let c2 : RasterizedDataCollector :=
        { c with
          curVertexCount := (c.curVertexCount + info.vertexCount) % 2 ^ 32
          buckets := b2 }
      -- lines 210-226
      let useIndices : Bool := decide (info.indexCount ≠ 0) && info.pIndexData.isSome
      if useIndices then
        if (c2.curIndexCount + info.indexCount) % 2 ^ 64 ≥
            c2.indexBuffer.GetSize / sizeofUint32 then
          (if x.assertsEnabled then .assertFailed else .returned (), c2)
        else
          let b3 := modifyBack b2 ref (fun d =>
            { d with indexCount := info.indexCount, firstIndex := c2.curIndexCount })
          (.returned (),
            { c2 with
              curIndexCount := (c2.curIndexCount + info.indexCount) % 2 ^ 32
              buckets := b3 })
      else (.returned (), c2)
    | .thrown code => (.thrown code, { c with buckets := b1 })
    | .assertFailed => (.assertFailed, { c with buckets := b1 })
    | .undefinedBehaviour => (.undefinedBehaviour, { c with buckets := b1 })
  | (.returned none, pushed) => (.returned (), { c with buckets := pushed })
  | (.thrown code, pushed) => (.thrown code, { c with buckets := pushed })
  | (.assertFailed, pushed) => (.assertFailed, { c with buckets := pushed })
  | (.undefinedBehaviour, pushed) => (.undefinedBehaviour, { c with buckets := pushed })

/-- The function `RasterizedDataCollectorGeneral::TryAddGeometry` (lines 299-310). -/
def RasterizedDataCollectorGeneral.TryAddGeometry (x : Externals) (c : RasterizedDataCollector)
    (info : RgRasterizedGeometryUploadInfo)
    (viewProjection : Option (List Nat)) (viewport : Option RgViewport) :
    Exit Bool × RasterizedDataCollector :=
  if info.renderType = RG_RASTERIZED_GEOMETRY_RENDER_TYPE_DEFAULT ∨
      info.renderType = RG_RASTERIZED_GEOMETRY_RENDER_TYPE_SWAPCHAIN then
    let r := AddGeometry x c info viewProjection viewport
    (r.1.map (fun _ => true), r.2)
  else (.returned false, c)

/-- The function `RasterizedDataCollectorSky::TryAddGeometry` (lines 355-365). -/
def RasterizedDataCollectorSky.TryAddGeometry (x : Externals) (c : RasterizedDataCollector)
    (info : RgRasterizedGeometryUploadInfo)
    (viewProjection : Option (List Nat)) (viewport : Option RgViewport) :
    Exit Bool × RasterizedDataCollector :=
  if info.renderType = RG_RASTERIZED_GEOMETRY_RENDER_TYPE_SKY then
    let r := AddGeometry x c info viewProjection viewport
    (r.1.map (fun _ => true), r.2)
  else (.returned false, c)

/-- The call `TryAddGeometry` on a collector object: the function of the
subclass the object belongs to. -/
def TryAddGeometry (x : Externals) (c : RasterizedDataCollector)
    (info : RgRasterizedGeometryUploadInfo)
    (viewProjection : Option (List Nat)) (viewport : Option RgViewport) :
    Exit Bool × RasterizedDataCollector :=
  match c.buckets with
  | .General _ _ => RasterizedDataCollectorGeneral.TryAddGeometry x c info viewProjection viewport
  | .Sky _ => RasterizedDataCollectorSky.TryAddGeometry x c info viewProjection viewport

/-- The virtual `Clear` (lines 269-273, 312-318 and 367-372): the buckets of the
subclass are emptied and both cursors are set to zero. -/
def Clear (c : RasterizedDataCollector) : RasterizedDataCollector :=
  match c.buckets with
  | .General _ _ => { c with buckets := .General [] [], curVertexCount := 0, curIndexCount := 0 }
  | .Sky _ => { c with buckets := .Sky [], curVertexCount := 0, curIndexCount := 0 }

/-! ## Predicates used in the statements -/

/-- The assertions of lines 90-93 hold: at least one vertex and exactly one of
the two source layouts. -/
def layoutAssertsHold (info : RgRasterizedGeometryUploadInfo) : Prop :=
  0 < info.vertexCount ∧
  ((info.pStructs.isSome = true ∧ info.pArrays.isNone = true) ∨
   (info.pStructs.isNone = true ∧ info.pArrays.isSome = true))

instance (info : RgRasterizedGeometryUploadInfo) : Decidable (layoutAssertsHold info) := by
  unfold layoutAssertsHold; infer_instance

/-- The assertions of lines 99-103 hold: a submission to the swapchain has
neither depth flag. -/
def depthAssertsHold (x : Externals) (info : RgRasterizedGeometryUploadInfo) : Prop :=
  info.renderType = RG_RASTERIZED_GEOMETRY_RENDER_TYPE_SWAPCHAIN →
    info.pipelineState &&& x.RG_RASTERIZED_GEOMETRY_STATE_DEPTH_TEST = 0 ∧
    info.pipelineState &&& x.RG_RASTERIZED_GEOMETRY_STATE_DEPTH_WRITE = 0

instance (x : Externals) (info : RgRasterizedGeometryUploadInfo) :
    Decidable (depthAssertsHold x info) := by
  unfold depthAssertsHold; infer_instance

/-- The check of line 107 passes: sky geometry comes without overrides. -/
def skyCheckPasses (info : RgRasterizedGeometryUploadInfo)
    (pViewProjection : Option (List Nat)) (pViewport : Option RgViewport) : Prop :=
  info.renderType = RG_RASTERIZED_GEOMETRY_RENDER_TYPE_SKY →
    pViewProjection = none ∧ pViewport = none

instance (info : RgRasterizedGeometryUploadInfo)
    (pViewProjection : Option (List Nat)) (pViewport : Option RgViewport) :
    Decidable (skyCheckPasses info pViewProjection pViewport) := by
  unfold skyCheckPasses; infer_instance

/-- The checks of lines 112-130 pass: with `pArrays` given, the vertex data
is not null and the strides are large enough. -/
def arraysChecksPass (info : RgRasterizedGeometryUploadInfo) : Prop :=
  ∀ a, info.pArrays = some a →
    a.pVertexData.isSome = true ∧
    3 * sizeofFloat ≤ a.vertexStride ∧ 2 * sizeofFloat ≤ a.texCoordStride ∧
    (a.pColorData.isSome = true → sizeofUint32 ≤ a.colorStride)

instance (info : RgRasterizedGeometryUploadInfo) : Decidable (arraysChecksPass info) := by
  unfold arraysChecksPass
  cases info.pArrays with
  | none => exact isTrue (fun a h => by cases h)
  | some b =>
    exact decidable_of_iff
      (b.pVertexData.isSome = true ∧
        3 * sizeofFloat ≤ b.vertexStride ∧ 2 * sizeofFloat ≤ b.texCoordStride ∧
        (b.pColorData.isSome = true → sizeofUint32 ≤ b.colorStride))
      ⟨fun h a ha => by cases ha; exact h, fun h => h b rfl⟩

/-- The comparison of line 132 drops the submission. -/
def vertexCheckFails (c : RasterizedDataCollector) (info : RgRasterizedGeometryUploadInfo) : Prop :=
  (c.curVertexCount + info.vertexCount) % 2 ^ 64 ≥ c.vertexBuffer.GetSize / sizeofRasterizerVertex

instance (c : RasterizedDataCollector) (info : RgRasterizedGeometryUploadInfo) :
    Decidable (vertexCheckFails c info) := by
  unfold vertexCheckFails; infer_instance

/-- The comparison of line 138 drops the submission. -/
def indexCheckFails (c : RasterizedDataCollector) (info : RgRasterizedGeometryUploadInfo) : Prop :=
  (c.curIndexCount + info.indexCount) % 2 ^ 64 ≥ c.indexBuffer.GetSize / sizeofUint32

instance (c : RasterizedDataCollector) (info : RgRasterizedGeometryUploadInfo) :
    Decidable (indexCheckFails c info) := by
  unfold indexCheckFails; infer_instance

/-- The collector handles the render type: `PushInfo` of its subclass has a
bucket for it. -/
def handles (c : RasterizedDataCollector) (renderType : RgRasterizedGeometryRenderType) : Prop :=
  match c.buckets with
  | .General _ _ => renderType ≠ RG_RASTERIZED_GEOMETRY_RENDER_TYPE_SKY
  | .Sky _ => renderType = RG_RASTERIZED_GEOMETRY_RENDER_TYPE_SKY

instance (c : RasterizedDataCollector) (renderType : RgRasterizedGeometryRenderType) :
    Decidable (handles c renderType) := by
  unfold handles; cases c.buckets <;> infer_instance

/-- The bucket of a render type: DEFAULT is `rasterDrawInfos`, SWAPCHAIN is
`swapchainDrawInfos`, SKY is `skyDrawInfos`. -/
def bucketOf (c : RasterizedDataCollector) (renderType : RgRasterizedGeometryRenderType) :
    List DrawInfo :=
  match renderType with
  | RG_RASTERIZED_GEOMETRY_RENDER_TYPE_DEFAULT => c.rasterDrawInfos
  | RG_RASTERIZED_GEOMETRY_RENDER_TYPE_SWAPCHAIN => c.swapchainDrawInfos
  | RG_RASTERIZED_GEOMETRY_RENDER_TYPE_SKY => c.skyDrawInfos

/-- The submission uses indices (line 210). -/
def useIndices (info : RgRasterizedGeometryUploadInfo) : Prop :=
  info.indexCount ≠ 0 ∧ info.pIndexData.isSome = true

instance (info : RgRasterizedGeometryUploadInfo) : Decidable (useIndices info) := by
  unfold useIndices; infer_instance

/-- The element an accepted submission leaves at the end of its bucket: the
emplaced `DrawInfo` after the writes of lines 154-189, 204-205 and, with
indices, 222-223. -/
def acceptedDrawInfo (x : Externals) (c : RasterizedDataCollector)
    (info : RgRasterizedGeometryUploadInfo)
    (pViewProjection : Option (List Nat)) (pViewport : Option RgViewport) : DrawInfo :=
  let d : DrawInfo :=
    { fillHeader x info pViewProjection pViewport x.emplaced with
      vertexCount := info.vertexCount
      firstVertex := c.curVertexCount }
  if useIndices info then
    { d with indexCount := info.indexCount, firstIndex := c.curIndexCount }
  else d

/-- Append `d` to the bucket of the render type. -/
def appendTo (b : DrawBuckets) (renderType : RgRasterizedGeometryRenderType) (d : DrawInfo) :
    DrawBuckets :=
  match b, renderType with
  | .General r s, RG_RASTERIZED_GEOMETRY_RENDER_TYPE_DEFAULT => .General (r ++ [d]) s
  | .General r s, RG_RASTERIZED_GEOMETRY_RENDER_TYPE_SWAPCHAIN => .General r (s ++ [d])
  | .Sky k, RG_RASTERIZED_GEOMETRY_RENDER_TYPE_SKY => .Sky (k ++ [d])
  | b, _ => b

/-- The state after an accepted submission. -/
def acceptedState (x : Externals) (c : RasterizedDataCollector)
    (info : RgRasterizedGeometryUploadInfo)
    (pViewProjection : Option (List Nat)) (pViewport : Option RgViewport) :
    RasterizedDataCollector :=
  { c with
    curVertexCount := (c.curVertexCount + info.vertexCount) % 2 ^ 32
    curIndexCount :=
      if useIndices info then (c.curIndexCount + info.indexCount) % 2 ^ 32
      else c.curIndexCount
    buckets := appendTo c.buckets info.renderType
      (acceptedDrawInfo x c info pViewProjection pViewport) }

/-- The submission gets past every check of `AddGeometry`: the assertions (when
compiled in), the sky check, the `pArrays` checks, both capacity comparisons,
`PushInfo`, and a non-null source for the vertex copy. -/
def passesAllChecks (x : Externals) (c : RasterizedDataCollector)
    (info : RgRasterizedGeometryUploadInfo)
    (pViewProjection : Option (List Nat)) (pViewport : Option RgViewport) : Prop :=
  (x.assertsEnabled = true → layoutAssertsHold info ∧ depthAssertsHold x info) ∧
  skyCheckPasses info pViewProjection pViewport ∧
  arraysChecksPass info ∧
  ¬ vertexCheckFails c info ∧
  ¬ indexCheckFails c info ∧
  handles c info.renderType ∧
  (info.pArrays.isSome = true ∨ info.pStructs.isSome = true)

instance (x : Externals) (c : RasterizedDataCollector)
    (info : RgRasterizedGeometryUploadInfo)
    (pViewProjection : Option (List Nat)) (pViewport : Option RgViewport) :
    Decidable (passesAllChecks x c info pViewProjection pViewport) := by
  unfold passesAllChecks; infer_instance

/-! ## Sample values -/

/-- A `DrawInfo` with every field zero. -/
def zeroDrawInfo : DrawInfo :=
  { isDefaultViewport := false
    isDefaultViewProjMatrix := false
    transform := []
    pipelineState := 0
    blendFuncSrc := 0
    blendFuncDst := 0
    viewport := ⟨0, 0, 0, 0, 0, 0⟩
    viewProj := []
    color := []
    textureIndex := 0
    vertexCount := 0
    firstVertex := 0
    indexCount := 0
    firstIndex := 0 }

/-- Sample externals: depth test is bit 4, depth write is bit 8, `emplace_back()`
gives a zeroed `DrawInfo`, and the texture index of a material is its handle. -/
def sampleExternals (assertsEnabled : Bool) : Externals :=
  { assertsEnabled := assertsEnabled
    RG_RASTERIZED_GEOMETRY_STATE_DEPTH_TEST := 4
    RG_RASTERIZED_GEOMETRY_STATE_DEPTH_WRITE := 8
    emplaced := zeroDrawInfo
    textureIndex := fun m => m }

/-- A sample submission from an array of vertex structs at address 4096, with
index data at address 8192. -/
def sampleInfo (renderType : RgRasterizedGeometryRenderType) (vertexCount indexCount : Nat)
    (pipelineState : Nat) : RgRasterizedGeometryUploadInfo :=
  { renderType := renderType
    vertexCount := vertexCount
    pStructs := some 4096
    pArrays := none
    indexCount := indexCount
    pIndexData := some 8192
    transform := []
    color := []
    material := 7
    pipelineState := pipelineState
    blendFuncSrc := 0
    blendFuncDst := 0 }

/-- A well-formed `pArrays` struct. -/
def sampleArrays : RgRasterizedGeometryVertexArrays :=
  { pVertexData := some 12288
    pTexCoordData := none
    pColorData := none
    vertexStride := 12
    texCoordStride := 8
    colorStride := 4 }

/-- The sample submission with both source layouts given. -/
def bothLayoutsInfo : RgRasterizedGeometryUploadInfo :=
  { sampleInfo RG_RASTERIZED_GEOMETRY_RENDER_TYPE_DEFAULT 3 0 0 with
    pArrays := some sampleArrays }

/-- The sample submission with neither source layout given. -/
def noLayoutInfo : RgRasterizedGeometryUploadInfo :=
  { sampleInfo RG_RASTERIZED_GEOMETRY_RENDER_TYPE_DEFAULT 3 0 0 with
    pStructs := none }

/-- A sample viewport. -/
def sampleViewport : RgViewport := ⟨0, 0, 640, 480, 0, 1⟩

/-! ## Framebuffers: image sizes, descriptors and barriers -/

/-- The size flags of the generated header, which is not among the sources:
the two bits are parameters of the embedding. -/
structure FramebufferImageFlagBits where
  FB_IMAGE_FLAGS_FRAMEBUF_FLAGS_FORCE_SIZE_HALF : Nat
  FB_IMAGE_FLAGS_FRAMEBUF_FLAGS_FORCE_SIZE_THIRD : Nat
deriving DecidableEq, Repr

/-- The extent computed in the loop body of `Framebuffers::CreateImages`
(Framebuffers.cpp, lines 217-234) for a slot with the given flags. Widths and
heights are 32-bit: the sums `width + 1` and `width + 2` wrap at `2 ^ 32`. -/
def CreateImages_extent (k : FramebufferImageFlagBits) (flags width height : Nat) :
    Nat × Nat :=
  let extent0 : Nat × Nat := (width, height)
  let extent1 : Nat × Nat :=
    if flags &&& k.FB_IMAGE_FLAGS_FRAMEBUF_FLAGS_FORCE_SIZE_HALF ≠ 0 then
      ((width + 1) % 2 ^ 32 / 2, (height + 1) % 2 ^ 32 / 2)
    else extent0
  let extent2 : Nat × Nat :=
    if flags &&& k.FB_IMAGE_FLAGS_FRAMEBUF_FLAGS_FORCE_SIZE_THIRD ≠ 0 then
      ((width + 2) % 2 ^ 32 / 3, (height + 2) % 2 ^ 32 / 3)
    else extent1
  (max 1 extent2.1, max 1 extent2.2)

/-- The extents of the images that `Framebuffers::CreateImages` creates, one
per slot of the table `ShFramebuffers_Flags`. -/
def CreateImages (k : FramebufferImageFlagBits) (ShFramebuffers_Flags : List Nat)
    (width height : Nat) : List (Nat × Nat) :=
  ShFramebuffers_Flags.map (fun flags => CreateImages_extent k flags width height)

/-- The sampler tables of the generated header, which is not among the
sources: parameters of the embedding. -/
structure ShFramebuffersSamplers where
  ShFramebuffers_Sampler_Bindings : List Nat
  ShFramebuffers_Sampler_BindingsSwapped : List Nat
  FB_SAMPLER_INVALID_BINDING : Nat
deriving DecidableEq, Repr

/-- The two descriptor types that `UpdateDescriptors` writes. -/
inductive VkDescriptorType where
  | VK_DESCRIPTOR_TYPE_STORAGE_IMAGE
  | VK_DESCRIPTOR_TYPE_COMBINED_IMAGE_SAMPLER
deriving DecidableEq, Repr

/-- The image layouts named in the sources. -/
inductive VkImageLayout where
  | VK_IMAGE_LAYOUT_UNDEFINED
  | VK_IMAGE_LAYOUT_GENERAL
deriving DecidableEq, Repr

/-- An element of `imageInfos`: `sampler` is `none` for VK_NULL_HANDLE. -/
structure VkDescriptorImageInfo where
  sampler : Option Nat
  imageView : Nat
  imageLayout : VkImageLayout
deriving DecidableEq, Repr

/-- An element of `writes`: `dstSet` is the index `k` of `descSets[k]`, and
`pImageInfo` is the index of the element of `imageInfos` it points to. -/
structure VkWriteDescriptorSet where
  dstSet : Nat
  dstBinding : Nat
  dstArrayElement : Nat
  descriptorCount : Nat
  descriptorType : VkDescriptorType
  pImageInfo : Nat
deriving DecidableEq, Repr

/-- The storage-image write of `UpdateDescriptors` for set `k` and slot `i`
(lines 334-349). -/
def storageWrite (t : ShFramebuffers) (k i : Nat) : VkWriteDescriptorSet :=
  { dstSet := k
    dstBinding :=
      if k = 0 then t.ShFramebuffers_Bindings.getD i 0
      else t.ShFramebuffers_BindingsSwapped.getD i 0
    dstArrayElement := 0
    descriptorCount := 1
    descriptorType := .VK_DESCRIPTOR_TYPE_STORAGE_IMAGE
    pImageInfo := i }

/-- The binding number read at lines 356-358 for set `k` and slot `i`. -/
def samplerBinding (u : ShFramebuffersSamplers) (k i : Nat) : Nat :=
  if k = 0 then u.ShFramebuffers_Sampler_Bindings.getD i 0
  else u.ShFramebuffers_Sampler_BindingsSwapped.getD i 0

/-- The sampler write of `UpdateDescriptors` for set `k` and slot `i` (lines
352-374): none when the binding is FB_SAMPLER_INVALID_BINDING. -/
def samplerWrite (t : ShFramebuffers) (u : ShFramebuffersSamplers) (k i : Nat) :
    Option VkWriteDescriptorSet :=
  if samplerBinding u k i = u.FB_SAMPLER_INVALID_BINDING then none
  else some
    { dstSet := k
      dstBinding := samplerBinding u k i
      dstArrayElement := 0
      descriptorCount := 1
      descriptorType := .VK_DESCRIPTOR_TYPE_COMBINED_IMAGE_SAMPLER
      pImageInfo := t.ShFramebuffers_Count + i }

/-- The function `Framebuffers::UpdateDescriptors` (Framebuffers.cpp, lines
303-378): the array `imageInfos` and the `wrtCount` writes handed to
`vkUpdateDescriptorSets`, in order. The tables have ShFramebuffers_Count
entries, so the reads inside the loops are in bounds. -/
def UpdateDescriptors (t : ShFramebuffers) (u : ShFramebuffersSamplers)
    (imageViews : List Nat) (nearestSampler : Nat) :
    List VkDescriptorImageInfo × List VkWriteDescriptorSet :=
  let slots := List.range t.ShFramebuffers_Count
  let imageInfos : List VkDescriptorImageInfo :=
    slots.map (fun i =>
      { sampler := none
        imageView := imageViews.getD i 0
        imageLayout := .VK_IMAGE_LAYOUT_GENERAL }) ++
    slots.map (fun i =>
      { sampler := some nearestSampler
        imageView := imageViews.getD i 0
        imageLayout := .VK_IMAGE_LAYOUT_GENERAL })
  let writes : List VkWriteDescriptorSet :=
    (List.range FRAMEBUFFERS_HISTORY_LENGTH).flatMap (fun k =>
      slots.map (fun i => storageWrite t k i) ++
      slots.filterMap (fun i => samplerWrite t u k i))
  (imageInfos, writes)

/-- The enum `Framebuffers::BarrierType` of Framebuffers.h. -/
inductive BarrierType where
  | All
  | Storage
  | ColorAttachment
  | Transfer
deriving DecidableEq, Repr

/-- The access and stage bits of the Vulkan headers that `BarrierMultiple`
names; the Vulkan headers are not among the sources, so the bits are
parameters of the embedding. -/
structure VkBarrierBits where
  VK_ACCESS_2_SHADER_READ_BIT_KHR : Nat
  VK_ACCESS_2_SHADER_WRITE_BIT_KHR : Nat
  VK_ACCESS_2_COLOR_ATTACHMENT_READ_BIT_KHR : Nat
  VK_ACCESS_2_COLOR_ATTACHMENT_WRITE_BIT_KHR : Nat
  VK_ACCESS_2_TRANSFER_READ_BIT_KHR : Nat
  VK_ACCESS_2_TRANSFER_WRITE_BIT_KHR : Nat
  VK_PIPELINE_STAGE_2_ALL_GRAPHICS_BIT_KHR : Nat
  VK_PIPELINE_STAGE_2_RAY_TRACING_SHADER_BIT_KHR : Nat
  VK_PIPELINE_STAGE_2_COMPUTE_SHADER_BIT_KHR : Nat
  VK_PIPELINE_STAGE_2_ALL_TRANSFER_BIT_KHR : Nat
deriving DecidableEq, Repr

/-- The source access mask chosen by the switch of `BarrierMultiple`
(Framebuffers.h, lines 137-165). -/
def srcAccess (v : VkBarrierBits) : BarrierType → Nat
  | .All =>
    v.VK_ACCESS_2_SHADER_WRITE_BIT_KHR ||| v.VK_ACCESS_2_COLOR_ATTACHMENT_WRITE_BIT_KHR |||
      v.VK_ACCESS_2_TRANSFER_WRITE_BIT_KHR
  | .Storage => v.VK_ACCESS_2_SHADER_WRITE_BIT_KHR
  | .ColorAttachment => v.VK_ACCESS_2_COLOR_ATTACHMENT_WRITE_BIT_KHR
  | .Transfer => v.VK_ACCESS_2_TRANSFER_WRITE_BIT_KHR

/-- The source stage mask chosen by the switch of `BarrierMultiple`
(Framebuffers.h, lines 137-165). -/
def srcStage (v : VkBarrierBits) : BarrierType → Nat
  | .All =>
    v.VK_PIPELINE_STAGE_2_ALL_GRAPHICS_BIT_KHR |||
      v.VK_PIPELINE_STAGE_2_RAY_TRACING_SHADER_BIT_KHR |||
      v.VK_PIPELINE_STAGE_2_COMPUTE_SHADER_BIT_KHR |||
      v.VK_PIPELINE_STAGE_2_ALL_TRANSFER_BIT_KHR
  | .Storage =>
    v.VK_PIPELINE_STAGE_2_ALL_GRAPHICS_BIT_KHR |||
      v.VK_PIPELINE_STAGE_2_RAY_TRACING_SHADER_BIT_KHR |||
      v.VK_PIPELINE_STAGE_2_COMPUTE_SHADER_BIT_KHR
  | .ColorAttachment => v.VK_PIPELINE_STAGE_2_ALL_GRAPHICS_BIT_KHR
  | .Transfer => v.VK_PIPELINE_STAGE_2_ALL_TRANSFER_BIT_KHR

/-- The destination access mask of `BarrierMultiple` (Framebuffers.h, lines
168-171). -/
def dstAccess (v : VkBarrierBits) : Nat :=
  v.VK_ACCESS_2_SHADER_WRITE_BIT_KHR ||| v.VK_ACCESS_2_SHADER_READ_BIT_KHR |||
    v.VK_ACCESS_2_COLOR_ATTACHMENT_WRITE_BIT_KHR |||
    v.VK_ACCESS_2_COLOR_ATTACHMENT_READ_BIT_KHR |||
    v.VK_ACCESS_2_TRANSFER_WRITE_BIT_KHR ||| v.VK_ACCESS_2_TRANSFER_READ_BIT_KHR

/-- The destination stage mask of `BarrierMultiple` (Framebuffers.h, lines
172-176). -/
def dstStage (v : VkBarrierBits) : Nat :=
  v.VK_PIPELINE_STAGE_2_ALL_GRAPHICS_BIT_KHR |||
    v.VK_PIPELINE_STAGE_2_RAY_TRACING_SHADER_BIT_KHR |||
    v.VK_PIPELINE_STAGE_2_COMPUTE_SHADER_BIT_KHR |||
    v.VK_PIPELINE_STAGE_2_ALL_TRANSFER_BIT_KHR

/-- The fields of VkImageMemoryBarrier2KHR that `BarrierMultiple` sets; the two
queue family indices are always VK_QUEUE_FAMILY_IGNORED and the subresource
range is always the colour aspect, mip level 0, layer 0, one of each. -/
structure VkImageMemoryBarrier2KHR where
  image : Nat
  srcAccessMask : Nat
  dstAccessMask : Nat
  srcStageMask : Nat
  dstStageMask : Nat
  oldLayout : VkImageLayout
  newLayout : VkImageLayout
deriving DecidableEq, Repr

/-- The loop of `BarrierMultiple` (Framebuffers.h, lines 179-205) over the
requested slots: one barrier per slot, on the image
`images[FrameIndexToFBIndex(slot, frameIndex)]`. -/
def BarrierMultiple_loop (assertsEnabled : Bool) (t : ShFramebuffers) (v : VkBarrierBits)
    (images : List Nat) (frameIndex : Nat) (barrierTypeFrom : BarrierType) :
    List Nat → Exit (List VkImageMemoryBarrier2KHR)
  | [] => .returned []
  | slot :: rest =>
    match FrameIndexToFBIndex assertsEnabled t slot frameIndex with
    | .returned fbIndex =>
      match images[fbIndex]? with
      | some img =>
        (BarrierMultiple_loop assertsEnabled t v images frameIndex barrierTypeFrom rest).map
          (fun bs =>
            { image := img
              srcAccessMask := srcAccess v barrierTypeFrom
              dstAccessMask := dstAccess v
              srcStageMask := srcStage v barrierTypeFrom
              dstStageMask := dstStage v
              oldLayout := .VK_IMAGE_LAYOUT_GENERAL
              newLayout := .VK_IMAGE_LAYOUT_GENERAL } :: bs)
      | none => .undefinedBehaviour
    | .thrown code => .thrown code
    | .assertFailed => .assertFailed
    | .undefinedBehaviour => .undefinedBehaviour

/-- The function `Framebuffers::BarrierMultiple` (Framebuffers.h, lines
129-213): the array `tmpBarriers` handed to `svkCmdPipelineBarrier2KHR`. -/
def BarrierMultiple (assertsEnabled : Bool) (t : ShFramebuffers) (v : VkBarrierBits)
    (images : List Nat) (frameIndex : Nat) (framebufImageIndices : List Nat)
    (barrierTypeFrom : BarrierType) : Exit (List VkImageMemoryBarrier2KHR) :=
  BarrierMultiple_loop assertsEnabled t v images frameIndex barrierTypeFrom
    framebufImageIndices

/-- The function `Framebuffers::BarrierOne` (Framebuffers.cpp, lines 168-172):
`BarrierMultiple` on the one slot, with the default `BarrierType::All`. -/
def BarrierOne (assertsEnabled : Bool) (t : ShFramebuffers) (v : VkBarrierBits)
    (images : List Nat) (frameIndex : Nat) (framebufferImageIndex : Nat) :
    Exit (List VkImageMemoryBarrier2KHR) :=
  BarrierMultiple assertsEnabled t v images frameIndex [framebufferImageIndex] .All

/-- Among `writes` there is a storage-image write that puts the element `i` of
`imageInfos` (the view of image `i`) at binding `b` of descriptor set `k`. -/
def receivesStorage (writes : List VkWriteDescriptorSet) (k i b : Nat) : Prop :=
  { dstSet := k
    dstBinding := b
    dstArrayElement := 0
    descriptorCount := 1
    descriptorType := VkDescriptorType.VK_DESCRIPTOR_TYPE_STORAGE_IMAGE
    pImageInfo := i } ∈ writes

instance (writes : List VkWriteDescriptorSet) (k i b : Nat) :
    Decidable (receivesStorage writes k i b) := by
  unfold receivesStorage; infer_instance

/-- Among `writes` there is a sampler write that puts the sampled element of
`imageInfos` for image `i` at binding `b` of descriptor set `k`. -/
def receivesSampler (t : ShFramebuffers) (writes : List VkWriteDescriptorSet)
    (k i b : Nat) : Prop :=
  { dstSet := k
    dstBinding := b
    dstArrayElement := 0
    descriptorCount := 1
    descriptorType := VkDescriptorType.VK_DESCRIPTOR_TYPE_COMBINED_IMAGE_SAMPLER
    pImageInfo := t.ShFramebuffers_Count + i } ∈ writes

instance (t : ShFramebuffers) (writes : List VkWriteDescriptorSet) (k i b : Nat) :
    Decidable (receivesSampler t writes k i b) := by
  unfold receivesSampler; infer_instance

/-- The quotient `d / k` rounded up, over the unbounded natural numbers. -/
def ceilDiv (d k : Nat) : Nat :=
  (d + k - 1) / k

/-- Sample flag bits: HALF is bit 2, THIRD is bit 4. -/
def sampleFlagBits : FramebufferImageFlagBits :=
  { FB_IMAGE_FLAGS_FRAMEBUF_FLAGS_FORCE_SIZE_HALF := 2
    FB_IMAGE_FLAGS_FRAMEBUF_FLAGS_FORCE_SIZE_THIRD := 4 }

/-- Sample sampler tables for the three-slot sample table: slot 0 has no
sampler, slots 1 and 2 swap. -/
def sampleSamplers : ShFramebuffersSamplers :=
  { ShFramebuffers_Sampler_Bindings := [255, 4, 5]
    ShFramebuffers_Sampler_BindingsSwapped := [255, 5, 4]
    FB_SAMPLER_INVALID_BINDING := 255 }

/-- The values of the barrier bits in the Vulkan headers. -/
def vulkanBarrierBits : VkBarrierBits :=
  { VK_ACCESS_2_SHADER_READ_BIT_KHR := 0x20
    VK_ACCESS_2_SHADER_WRITE_BIT_KHR := 0x40
    VK_ACCESS_2_COLOR_ATTACHMENT_READ_BIT_KHR := 0x80
    VK_ACCESS_2_COLOR_ATTACHMENT_WRITE_BIT_KHR := 0x100
    VK_ACCESS_2_TRANSFER_READ_BIT_KHR := 0x800
    VK_ACCESS_2_TRANSFER_WRITE_BIT_KHR := 0x1000
    VK_PIPELINE_STAGE_2_ALL_GRAPHICS_BIT_KHR := 0x8000
    VK_PIPELINE_STAGE_2_RAY_TRACING_SHADER_BIT_KHR := 0x200000
    VK_PIPELINE_STAGE_2_COMPUTE_SHADER_BIT_KHR := 0x800
    VK_PIPELINE_STAGE_2_ALL_TRANSFER_BIT_KHR := 0x1000 }

/-! ## EffectSimple -/

/-- The state of an `EffectSimple` that `Setup` reads and writes: the three
transition fields of `push` and `isCurrentlyActive` (EffectSimple.h, lines
116-125). The source keeps times in `float`; here a time is a value of a type
`T` with a subtraction and an order: exact numbers in the theorems on the
transition, the rounded numbers of `IntegralFloat` where the rounding of the
subtraction matters. The field `push.custom` is not touched by `Setup`. -/
structure EffectSimple (T : Type) where
  transitionType : Nat
  transitionBeginTime : T
  transitionDuration : T
  isCurrentlyActive : Bool
deriving DecidableEq, Repr

/-- The constructor of `EffectSimple` (EffectSimple.h, lines 31-49): `push` is
zero-initialised and `isCurrentlyActive` is false. -/
def EffectSimple.construct {T : Type} [Zero T] : EffectSimple T :=
  { transitionType := 0
    transitionBeginTime := 0
    transitionDuration := 0
    isCurrentlyActive := false }

/-- The function `EffectSimple::SetupNull` (EffectSimple.h, lines 52-56). -/
def EffectSimple.SetupNull {T : Type} (e : EffectSimple T) : Bool × EffectSimple T :=
  (false, { e with isCurrentlyActive := false })

/-- The function `EffectSimple::Setup` (EffectSimple.h, lines 58-81), with
`currentTime` for `args.currentTime`: the value it returns and the state it
leaves. -/
def EffectSimple.Setup {T : Type} [Sub T] [LE T] [DecidableRel (fun a b : T => a ≤ b)]
    (e : EffectSimple T) (currentTime : T) (isActive : Bool)
    (transitionDurationIn transitionDurationOut : T) : Bool × EffectSimple T :=
  let wasActivePreviously := e.isCurrentlyActive
  let e1 : EffectSimple T := { e with isCurrentlyActive := isActive }
  let e2 : EffectSimple T :=
    if !wasActivePreviously && e1.isCurrentlyActive then
      { e1 with
        transitionType := 0
        transitionBeginTime := currentTime
        transitionDuration := transitionDurationIn }
    else if wasActivePreviously && !e1.isCurrentlyActive then
      { e1 with
        transitionType := 1
        transitionBeginTime := currentTime
        transitionDuration := transitionDurationOut }
    else e1
  (e2.isCurrentlyActive ||
    (decide (e2.transitionType = 1) &&
      decide (currentTime - e2.transitionBeginTime ≤ e2.transitionDuration)),
   e2)

/-- The arguments of one `Setup` call. -/
structure SetupCall (T : Type) where
  currentTime : T
  isActive : Bool
  transitionDurationIn : T
  transitionDurationOut : T
deriving DecidableEq, Repr

/-- The state after a sequence of `Setup` calls, made in order. -/
def EffectSimple.runSetup {T : Type} [Sub T] [LE T] [DecidableRel (fun a b : T => a ≤ b)]
    (e : EffectSimple T) : List (SetupCall T) → EffectSimple T
  | [] => e
  | c :: rest =>
    EffectSimple.runSetup
      (e.Setup c.currentTime c.isActive c.transitionDurationIn c.transitionDurationOut).2 rest

/-- The calls `(now, isActive)` of a history, all made with the same two
durations. -/
def fixedCalls {T : Type} (durationIn durationOut : T) (history : List (T × Bool)) :
    List (SetupCall T) :=
  history.map (fun c =>
    { currentTime := c.1
      isActive := c.2
      transitionDurationIn := durationIn
      transitionDurationOut := durationOut })

/-- The activation flag and its most recent change after one more call
`(now, isActive)`: the flag changes when `isActive` differs from it, and the
change is recorded with its direction and time. -/
def trackStep {T : Type} (st : Bool × Option (Bool × T)) (c : T × Bool) :
    Bool × Option (Bool × T) :=
  if c.2 ≠ st.1 then (c.2, some (c.2, c.1)) else st

/-- The activation flag and its most recent change after a history of calls. -/
def trackChange {T : Type} (st : Bool × Option (Bool × T)) :
    List (T × Bool) → Bool × Option (Bool × T)
  | [] => st
  | c :: rest => trackChange (trackStep st c) rest

/-- The most recent change of the activation flag in a history of calls on a
freshly constructed effect: `some (true, t)` for an activation at time `t`,
`some (false, t)` for a deactivation at time `t`, `none` when the flag never
changed. -/
def lastChange {T : Type} (history : List (T × Bool)) : Option (Bool × T) :=
  (trackChange (false, none) history).2

/-- The state of an effect agrees with the tracked activation flag and its most
recent change, for calls made with the fade-out duration `durationOut`. -/
def agrees {T : Type} (durationOut : T) (e : EffectSimple T)
    (st : Bool × Option (Bool × T)) : Prop :=
  e.isCurrentlyActive = st.1 ∧
  match st.2 with
  | none => e.transitionType = 0 ∧ st.1 = false
  | some (true, _) => e.transitionType = 0 ∧ st.1 = true
  | some (false, t) =>
    e.transitionType = 1 ∧ e.transitionBeginTime = t ∧ e.transitionDuration = durationOut ∧
      st.1 = false

/-! ## RasterizedDataCollector: a frame -/

/-- The function `RasterizedDataCollector::CopyFromStaging` (lines 275-279): the
sizes in bytes of the two copies it requests, first from `vertexBuffer`, then
from `indexBuffer`; both are `size_t` products. -/
def CopyFromStaging (c : RasterizedDataCollector) : Nat × Nat :=
  ((sizeofRasterizerVertex * c.curVertexCount) % 2 ^ 64,
   (sizeofUint32 * c.curIndexCount) % 2 ^ 64)

/-- The arguments of one `AddGeometry` call. -/
structure Submission where
  info : RgRasterizedGeometryUploadInfo
  pViewProjection : Option (List Nat)
  pViewport : Option RgViewport
deriving DecidableEq, Repr

/-- What a run of submissions amounts to: the collector at its end, the sum of
`vertexCount` over the accepted submissions, and the sum of `indexCount` over
the accepted submissions that use indices. -/
structure FrameTotals where
  collector : RasterizedDataCollector
  vertexSum : Nat
  indexSum : Nat
deriving DecidableEq, Repr

/-- The submissions of a frame, made in order on the collector `c`. A call that
returns or throws hands the collector on to the next call; the run has no
result when a call stops at an assertion or runs into undefined behaviour. -/
def submitAll (x : Externals) (c : RasterizedDataCollector) :
    List Submission → Option FrameTotals
  | [] => some { collector := c, vertexSum := 0, indexSum := 0 }
  | s :: rest =>
    let accepted : Bool := decide (passesAllChecks x c s.info s.pViewProjection s.pViewport)
    let vertices : Nat := if accepted then s.info.vertexCount else 0
    let indices : Nat :=
      if accepted && decide (useIndices s.info) then s.info.indexCount else 0
    match AddGeometry x c s.info s.pViewProjection s.pViewport with
    | (.returned (), c1) =>
      (submitAll x c1 rest).map (fun t =>
        { t with vertexSum := vertices + t.vertexSum, indexSum := indices + t.indexSum })
    | (.thrown _, c1) =>
      (submitAll x c1 rest).map (fun t =>
        { t with vertexSum := vertices + t.vertexSum, indexSum := indices + t.indexSum })
    | (.assertFailed, _) => none
    | (.undefinedBehaviour, _) => none

/-- The two submissions of the wrap-around frame: 4294967280 indices, then 32. -/
def wrapFrame : List Submission :=
  [{ info := sampleInfo RG_RASTERIZED_GEOMETRY_RENDER_TYPE_DEFAULT 1 4294967280 0
     pViewProjection := none
     pViewport := none },
   { info := sampleInfo RG_RASTERIZED_GEOMETRY_RENDER_TYPE_DEFAULT 1 32 0
     pViewProjection := none
     pViewport := none }]

/-! ## RasterizedDataCollector: staging writes and reachable states -/

/-- The bytes of the mapped staging buffers that an accepted `AddGeometry` call
writes: the half-open byte range of the vertex buffer, and the half-open byte
range of the index buffer when indices are copied. -/
structure StagingWrites where
  vertexBegin : Nat
  vertexEnd : Nat
  indexRange : Option (Nat × Nat)
deriving DecidableEq, Repr

/-- The writes of lines 192-226 of `AddGeometry`. The vertex copy starts at
`dstVerts = mapped + curVertexCount` and writes `vertexCount` records of
`sizeof(RasterizerVertex)` bytes (one `memcpy` of
`sizeof(RasterizerVertex) * vertexCount` bytes at line 266, or one record per
loop round at line 253); the index copy, made when indices are used, starts at
`dstIndices = mapped + curIndexCount` and is one `memcpy` of
`indexCount * sizeof(uint32_t)` bytes (line 220). The byte counts are `size_t`
products. -/
def stagingWrites (c : RasterizedDataCollector) (info : RgRasterizedGeometryUploadInfo) :
    StagingWrites :=
  { vertexBegin := sizeofRasterizerVertex * c.curVertexCount
    vertexEnd := sizeofRasterizerVertex * c.curVertexCount +
      (sizeofRasterizerVertex * info.vertexCount) % 2 ^ 64
    indexRange :=
      if useIndices info then
        some (sizeofUint32 * c.curIndexCount,
          sizeofUint32 * c.curIndexCount + (info.indexCount * sizeofUint32) % 2 ^ 64)
      else none }

/-- The states of a collector that can be reached: a collector as one of the
two constructors leaves it (32-bit maxima), and from a reachable state the
state after `Clear` and the state after an `AddGeometry` call with 32-bit
counts that did not run into undefined behaviour. -/
inductive Reachable (x : Externals) : RasterizedDataCollector → Prop where
  | general (maxVertexCount maxIndexCount : Nat)
      (hv : maxVertexCount < 2 ^ 32) (hi : maxIndexCount < 2 ^ 32) :
      Reachable x (RasterizedDataCollectorGeneral maxVertexCount maxIndexCount)
  | sky (maxVertexCount maxIndexCount : Nat)
      (hv : maxVertexCount < 2 ^ 32) (hi : maxIndexCount < 2 ^ 32) :
      Reachable x (RasterizedDataCollectorSky maxVertexCount maxIndexCount)
  | clear (c : RasterizedDataCollector) (h : Reachable x c) : Reachable x (Clear c)
  | add (c : RasterizedDataCollector) (h : Reachable x c)
      (info : RgRasterizedGeometryUploadInfo)
      (pViewProjection : Option (List Nat)) (pViewport : Option RgViewport)
      (hvc : info.vertexCount < 2 ^ 32) (hic : info.indexCount < 2 ^ 32)
      (hexit : (AddGeometry x c info pViewProjection pViewport).1 ≠ .undefinedBehaviour) :
      Reachable x (AddGeometry x c info pViewProjection pViewport).2

/-- Both cursors are 32-bit values and the bytes below them lie inside the
buffers. -/
def cursorsInside (c : RasterizedDataCollector) : Prop :=
  c.curVertexCount < 2 ^ 32 ∧ c.curIndexCount < 2 ^ 32 ∧
  c.curVertexCount * sizeofRasterizerVertex ≤ c.vertexBuffer.GetSize ∧
  c.curIndexCount * sizeofUint32 ≤ c.indexBuffer.GetSize

instance (c : RasterizedDataCollector) : Decidable (cursorsInside c) := by
  unfold cursorsInside; infer_instance

/-! ## EffectSimple: single-precision times -/

/-- The number of low bits of `m` that do not fit a significand of 24 bits:
the least `k` with `m / 2 ^ k < 2 ^ 24`, found by halving at most `fuel`
times. -/
def droppedBits : Nat → Nat → Nat
  | 0, _ => 0
  | fuel + 1, m => if m < 2 ^ 24 then 0 else droppedBits fuel (m / 2) + 1

/-- Rounding of a natural number to the nearest number with a significand of
24 bits, a tie going to the even significand: the rounding of the C type
`float` (IEEE 754 binary32, round to nearest even) on the integers, below the
overflow threshold `2 ^ 128`. -/
def roundSingle (m : Nat) : Nat :=
  let k := droppedBits m m
  let q := m / 2 ^ k
  let r := m % 2 ^ k
  if 2 * r > 2 ^ k ∨ (2 * r = 2 ^ k ∧ q % 2 = 1) then (q + 1) * 2 ^ k else q * 2 ^ k

/-- The values of the C type `float` that are integers, each given by the
integer it stands for. They are the times and durations of `Setup` that need
no fraction. -/
structure IntegralFloat where
  value : Int
deriving DecidableEq, Repr

/-- The value is a `float`: rounding leaves it as it is. -/
def IntegralFloat.representable (a : IntegralFloat) : Prop :=
  roundSingle a.value.natAbs = a.value.natAbs

instance (a : IntegralFloat) : Decidable a.representable := by
  unfold IntegralFloat.representable; infer_instance

instance : Zero IntegralFloat := ⟨⟨0⟩⟩

/-- The subtraction of `float`: the exact difference, rounded. -/
instance : Sub IntegralFloat :=
  ⟨fun a b => ⟨(a.value - b.value).sign * roundSingle (a.value - b.value).natAbs⟩⟩

/-- The order of `float` on these values is the order of the integers. -/
instance : Preorder IntegralFloat where
  le a b := a.value ≤ b.value
  le_refl a := Int.le_refl a.value
  le_trans _ _ _ h1 h2 := Int.le_trans h1 h2

instance : DecidableRel (fun a b : IntegralFloat => a ≤ b) :=
  fun a b => inferInstanceAs (Decidable (a.value ≤ b.value))

/-! ## Theorems: Framebuffers -/

theorem FrameIndexToFBIndex_eq (a : Bool) (t : ShFramebuffers) (hwf : t.WellFormed)
    (S p : Nat) (hS : S < t.ShFramebuffers_Count) (hp : p < 2) :
    FrameIndexToFBIndex a t S p =
      .returned (if nonSwapping t S then S else S + p) := by
  obtain ⟨h0, h1, h2⟩ := hwf
  have hb : S < t.ShFramebuffers_Bindings.length := by omega
  have hs : S < t.ShFramebuffers_BindingsSwapped.length := by omega
  have h232 : (S + p) % 2 ^ 32 = S + p := Nat.mod_eq_of_lt (by omega)
  unfold FrameIndexToFBIndex FRAMEBUFFERS_HISTORY_LENGTH nonSwapping
  simp only [List.getElem?_eq_getElem hb, List.getElem?_eq_getElem hs]
  by_cases hne : t.ShFramebuffers_Bindings[S] = t.ShFramebuffers_BindingsSwapped[S]
  · simp [hS, hp, hne]
  · simp [hS, hp, hne]
    omega

/-- C1: for every valid slot `S`, `FrameIndexToFBIndex(S,0)` equals
`FrameIndexToFBIndex(S,1)` exactly when `S` is non-swapping (its entries in
`ShFramebuffers_Bindings` and `ShFramebuffers_BindingsSwapped` agree); both
calls return, and `GetImageView(S,p)` returns the element of `imageViews` at
the index `FrameIndexToFBIndex(S,p)` returned. -/
theorem C1_resolve_same_iff_nonSwapping (a : Bool) (t : ShFramebuffers)
    (hwf : t.WellFormed) (S : Nat) (hS : S < t.ShFramebuffers_Count) :
    (FrameIndexToFBIndex a t S 0 = FrameIndexToFBIndex a t S 1 ↔ nonSwapping t S) ∧
    (∀ p, p < 2 → ∃ r, FrameIndexToFBIndex a t S p = .returned r) ∧
    (∀ (imageViews : List Nat) (p r v : Nat), p < 2 →
      FrameIndexToFBIndex a t S p = .returned r → imageViews[r]? = some v →
      GetImageView a t imageViews S p = .returned v) := by
  refine ⟨?_, ?_, ?_⟩
  · rw [FrameIndexToFBIndex_eq a t hwf S 0 hS (by omega),
      FrameIndexToFBIndex_eq a t hwf S 1 hS (by omega)]
    by_cases h : nonSwapping t S
    · simp [h]
    · simp [h]
  · intro p hp
    exact ⟨_, FrameIndexToFBIndex_eq a t hwf S p hS hp⟩
  · intro imageViews p r v _ hr hv
    simp [GetImageView, hr, hv]

/-- Witness for C1 on the three-slot sample table, at the swapping slot 1. -/
theorem C1_resolve_same_iff_nonSwapping_witness :
    sampleTables.WellFormed ∧ 1 < sampleTables.ShFramebuffers_Count ∧
    ¬ nonSwapping sampleTables 1 ∧
    FrameIndexToFBIndex true sampleTables 1 0 ≠ FrameIndexToFBIndex true sampleTables 1 1 := by
  have hwf : sampleTables.WellFormed := by decide
  have hS : 1 < sampleTables.ShFramebuffers_Count := by decide
  have hns : ¬ nonSwapping sampleTables 1 := by decide
  exact ⟨hwf, hS, hns, fun h =>
    hns ((C1_resolve_same_iff_nonSwapping true sampleTables hwf 1 hS).1.mp h)⟩

/-- C2 (the code at the failing input): in the sample table slots 1 and 2 are a
swap pair, and `FrameIndexToFBIndex(2, 1)` returns 3, which is neither member
of the pair and is not below `ShFramebuffers_Count`; `GetImageView(2, 1)` then
reads `imageViews` out of bounds. -/
theorem C2_previous_slot_leaves_pair :
    sampleTables.WellFormed ∧ swapPair sampleTables 1 ∧
    FrameIndexToFBIndex true sampleTables 2 1 = .returned 3 ∧
    FrameIndexToFBIndex false sampleTables 2 1 = .returned 3 ∧
    ¬ (3 < sampleTables.ShFramebuffers_Count) ∧
    GetImageView false sampleTables [10, 11, 12] 2 1 = .undefinedBehaviour := by
  decide

/-- In every table, the previous member `n + 1` of a swap pair resolves to
`n + 2` at frame index 1. -/
theorem FrameIndexToFBIndex_previous_slot (a : Bool) (t : ShFramebuffers)
    (hwf : t.WellFormed) (n : Nat) (hpair : swapPair t n) :
    FrameIndexToFBIndex a t (n + 1) 1 = .returned (n + 2) := by
  obtain ⟨hn, h1, h2, h3⟩ := hpair
  rw [FrameIndexToFBIndex_eq a t hwf (n + 1) 1 hn (by omega)]
  have : ¬ nonSwapping t (n + 1) := by
    unfold nonSwapping
    rw [← h1]
    exact fun h => h3 h.symm
  simp [this]

/-! ## Theorems: RasterizedDataCollector -/

theorem modifyLast_append_singleton (f : DrawInfo → DrawInfo) (l : List DrawInfo)
    (d : DrawInfo) : modifyLast f (l ++ [d]) = l ++ [f d] := by
  simp [modifyLast]

/-- The guards of lines 90-103 are not taken when the assertions hold or are
compiled out. -/
theorem assert_guards (x : Externals) (info : RgRasterizedGeometryUploadInfo)
    (hasserts : x.assertsEnabled = true → layoutAssertsHold info ∧ depthAssertsHold x info) :
    (x.assertsEnabled && !(decide (info.vertexCount > 0))) = false ∧
    (x.assertsEnabled &&
      !((info.pStructs.isSome && info.pArrays.isNone) ||
        (info.pStructs.isNone && info.pArrays.isSome))) = false ∧
    ((decide (info.renderType = RG_RASTERIZED_GEOMETRY_RENDER_TYPE_SWAPCHAIN)) &&
      x.assertsEnabled &&
      (info.pipelineState &&& x.RG_RASTERIZED_GEOMETRY_STATE_DEPTH_TEST != 0)) = false ∧
    ((decide (info.renderType = RG_RASTERIZED_GEOMETRY_RENDER_TYPE_SWAPCHAIN)) &&
      x.assertsEnabled &&
      (info.pipelineState &&& x.RG_RASTERIZED_GEOMETRY_STATE_DEPTH_WRITE != 0)) = false := by
  cases ha : x.assertsEnabled
  · simp
  · obtain ⟨⟨hpos, hlay⟩, hdepth⟩ := hasserts ha
    refine ⟨by simp [hpos], ?_, ?_, ?_⟩
    · rcases hlay with ⟨h1, h2⟩ | ⟨h1, h2⟩ <;> simp [h1, h2]
    · by_cases hr : info.renderType = RG_RASTERIZED_GEOMETRY_RENDER_TYPE_SWAPCHAIN
      · simp [(hdepth hr).1]
      · simp [hr]
    · by_cases hr : info.renderType = RG_RASTERIZED_GEOMETRY_RENDER_TYPE_SWAPCHAIN
      · simp [(hdepth hr).2]
      · simp [hr]

/-- The guard of line 107 is not taken when the sky check passes. -/
theorem sky_guard (info : RgRasterizedGeometryUploadInfo)
    (pViewProjection : Option (List Nat)) (pViewport : Option RgViewport)
    (hsky : skyCheckPasses info pViewProjection pViewport) :
    ((decide (info.renderType = RG_RASTERIZED_GEOMETRY_RENDER_TYPE_SKY)) &&
      (pViewProjection.isSome || pViewport.isSome)) = false := by
  by_cases hr : info.renderType = RG_RASTERIZED_GEOMETRY_RENDER_TYPE_SKY
  · obtain ⟨h1, h2⟩ := hsky hr
    simp [h1, h2]
  · simp [hr]

/-- The guards of lines 112-130 are not taken when the `pArrays` checks pass. -/
theorem arrays_guards (info : RgRasterizedGeometryUploadInfo) (harr : arraysChecksPass info) :
    info.pArrays.any (fun a => a.pVertexData.isNone) = false ∧
    info.pArrays.any (fun a =>
      decide (a.vertexStride < 3 * sizeofFloat) ||
        decide (a.texCoordStride < 2 * sizeofFloat)) = false ∧
    info.pArrays.any (fun a =>
      a.pColorData.isSome && decide (a.colorStride < sizeofUint32)) = false := by
  cases hp : info.pArrays with
  | none => exact ⟨rfl, rfl, rfl⟩
  | some a =>
    obtain ⟨h0, h1, h2, h3⟩ := harr a hp
    refine ⟨?_, ?_, ?_⟩
    · cases hq : a.pVertexData <;> simp_all
    · simp only [Option.any_some, Bool.or_eq_false_iff, decide_eq_false_iff_not]
      omega
    · cases hq : a.pColorData with
      | none => simp [hq]
      | some q =>
        have := h3 (by simp [hq])
        simp only [Option.any_some, hq, Option.isSome_some, Bool.true_and,
          decide_eq_false_iff_not]
        omega

/-- Past every check the call returns with the state of an accepted
submission. -/
theorem AddGeometry_accepted (x : Externals) (c : RasterizedDataCollector)
    (info : RgRasterizedGeometryUploadInfo)
    (pViewProjection : Option (List Nat)) (pViewport : Option RgViewport)
    (h : passesAllChecks x c info pViewProjection pViewport) :
    AddGeometry x c info pViewProjection pViewport =
      (.returned (), acceptedState x c info pViewProjection pViewport) := by
  obtain ⟨hasserts, hsky, harr, hv, hi, hh, hsrc⟩ := h
  obtain ⟨e1, e2, e3, e4⟩ := assert_guards x info hasserts
  have e5 := sky_guard info pViewProjection pViewport hsky
  obtain ⟨e6, e7, e8⟩ := arrays_guards info harr
  have e9 : ¬ ((c.curVertexCount + info.vertexCount) % 2 ^ 64 ≥
      c.vertexBuffer.GetSize / sizeofRasterizerVertex) := hv
  have e10 : ¬ ((c.curIndexCount + info.indexCount) % 2 ^ 64 ≥
      c.indexBuffer.GetSize / sizeofUint32) := hi
  unfold AddGeometry
  simp only [e1, e2, e3, e4, e5, e6, e7, e8, e9, e10, if_false, Bool.false_eq_true]
  have hcopy : (if info.pArrays.isSome = true then CopyFromSeparateArrays x info
      else CopyFromArrayOfStructs x info) = .returned () := by
    cases hp : info.pArrays with
    | some a => simp [CopyFromSeparateArrays, hp]
    | none =>
      have hs : info.pStructs.isSome = true := by
        rcases hsrc with h | h
        · simp [hp] at h
        · exact h
      cases hq : info.pStructs with
      | none => simp [hq] at hs
      | some q => simp [CopyFromArrayOfStructs, hq]
  rw [hcopy]
  unfold handles at hh
  unfold acceptedState acceptedDrawInfo useIndices
  rcases hb : c.buckets with ⟨r, s⟩ | k <;> rw [hb] at hh <;>
    rcases hr : info.renderType <;>
    first
    | (exfalso; simp [hr] at hh; done)
    | (by_cases hu : info.indexCount ≠ 0 ∧ info.pIndexData.isSome = true
       · have hu2 : (decide (info.indexCount ≠ 0) && info.pIndexData.isSome) = true := by
           simp [hu.1, hu.2]
         simp [PushInfo, modifyBack, modifyLast_append_singleton, appendTo, hu, hu2]
       · have hu2 : ¬ ((decide (info.indexCount ≠ 0) && info.pIndexData.isSome) = true) := by
           simpa using hu
         simp [PushInfo, modifyBack, modifyLast_append_singleton, appendTo, hu, hu2])

/-- With assertions compiled in, a submission that violates one of the
assertions of lines 90-103 stops there, before any write. -/
theorem AddGeometry_assertFailed (x : Externals) (c : RasterizedDataCollector)
    (info : RgRasterizedGeometryUploadInfo)
    (pViewProjection : Option (List Nat)) (pViewport : Option RgViewport)
    (ha : x.assertsEnabled = true)
    (h : ¬ (layoutAssertsHold info ∧ depthAssertsHold x info)) :
    AddGeometry x c info pViewProjection pViewport = (.assertFailed, c) := by
  by_cases hpos : 0 < info.vertexCount
  · by_cases hlay : ((info.pStructs.isSome && info.pArrays.isNone) ||
        (info.pStructs.isNone && info.pArrays.isSome)) = true
    · have hlay2 : layoutAssertsHold info := by
        refine ⟨hpos, ?_⟩
        simpa using hlay
      have hd : ¬ depthAssertsHold x info := fun hd => h ⟨hlay2, hd⟩
      unfold depthAssertsHold at hd
      push_neg at hd
      obtain ⟨hr, hflag⟩ := hd
      by_cases ht : info.pipelineState &&& x.RG_RASTERIZED_GEOMETRY_STATE_DEPTH_TEST = 0
      · have hw := hflag ht
        unfold AddGeometry
        simp [ha, hpos, hlay, hr, ht, hw]
      · unfold AddGeometry
        simp [ha, hpos, hlay, hr, ht]
    · unfold AddGeometry
      simp only [Bool.not_eq_true] at hlay
      simp [ha, hpos, hlay]
  · unfold AddGeometry
    simp [ha, hpos]

/-- Sky geometry with an override is rejected by the exception of line 109. -/
theorem AddGeometry_sky_thrown (x : Externals) (c : RasterizedDataCollector)
    (info : RgRasterizedGeometryUploadInfo)
    (pViewProjection : Option (List Nat)) (pViewport : Option RgViewport)
    (hasserts : x.assertsEnabled = true → layoutAssertsHold info ∧ depthAssertsHold x info)
    (hsky : ¬ skyCheckPasses info pViewProjection pViewport) :
    AddGeometry x c info pViewProjection pViewport =
      (.thrown .RG_CANT_UPLOAD_RASTERIZED_GEOMETRY, c) := by
  obtain ⟨e1, e2, e3, e4⟩ := assert_guards x info hasserts
  unfold skyCheckPasses at hsky
  push_neg at hsky
  obtain ⟨hr, hover⟩ := hsky
  have e5 : ((decide (info.renderType = RG_RASTERIZED_GEOMETRY_RENDER_TYPE_SKY)) &&
      (pViewProjection.isSome || pViewport.isSome)) = true := by
    cases hp : pViewProjection with
    | some m => simp [hr]
    | none =>
      cases hq : pViewport with
      | some v => simp [hr]
      | none => exact absurd hq (hover hp)
  unfold AddGeometry
  simp only [e1, e2, e3, e4, e5, if_false, if_true, Bool.false_eq_true]

/-- A `pArrays` struct that fails a check of lines 112-130 is rejected by an
exception. -/
theorem AddGeometry_arrays_thrown (x : Externals) (c : RasterizedDataCollector)
    (info : RgRasterizedGeometryUploadInfo)
    (pViewProjection : Option (List Nat)) (pViewport : Option RgViewport)
    (hasserts : x.assertsEnabled = true → layoutAssertsHold info ∧ depthAssertsHold x info)
    (hsky : skyCheckPasses info pViewProjection pViewport)
    (harr : ¬ arraysChecksPass info) :
    AddGeometry x c info pViewProjection pViewport =
      (.thrown .RG_CANT_UPLOAD_RASTERIZED_GEOMETRY, c) := by
  obtain ⟨e1, e2, e3, e4⟩ := assert_guards x info hasserts
  have e5 := sky_guard info pViewProjection pViewport hsky
  unfold arraysChecksPass at harr
  push_neg at harr
  obtain ⟨a, hp, hbad⟩ := harr
  unfold AddGeometry
  simp only [e1, e2, e3, e4, e5, if_false, Bool.false_eq_true]
  simp only [hp, Option.any_some]
  by_cases g6 : a.pVertexData.isNone = true
  · simp [g6]
  · have h0 : a.pVertexData.isSome = true := by
      cases hq : a.pVertexData <;> simp_all
    by_cases g7 : (decide (a.vertexStride < 3 * sizeofFloat) ||
        decide (a.texCoordStride < 2 * sizeofFloat)) = true
    · simp [g6, g7]
    · have g7b : 3 * sizeofFloat ≤ a.vertexStride ∧ 2 * sizeofFloat ≤ a.texCoordStride := by
        simp only [Bool.or_eq_true, decide_eq_true_eq, not_or, not_lt] at g7
        exact g7
      obtain ⟨hc, hlt⟩ := hbad h0 g7b.1 g7b.2
      have g8 : (a.pColorData.isSome && decide (a.colorStride < sizeofUint32)) = true := by
        simp [hc, hlt]
      simp only [Bool.not_eq_true] at g6 g7
      simp only [g6, g7, g8, if_false, if_true, Bool.false_eq_true]

/-- A submission that fails a capacity comparison is dropped: the state is as
before, and the call returns normally unless `assert(0)` is compiled in. -/
theorem AddGeometry_capacity (x : Externals) (c : RasterizedDataCollector)
    (info : RgRasterizedGeometryUploadInfo)
    (pViewProjection : Option (List Nat)) (pViewport : Option RgViewport)
    (hasserts : x.assertsEnabled = true → layoutAssertsHold info ∧ depthAssertsHold x info)
    (hsky : skyCheckPasses info pViewProjection pViewport)
    (harr : arraysChecksPass info)
    (hcap : vertexCheckFails c info ∨ indexCheckFails c info) :
    AddGeometry x c info pViewProjection pViewport =
      (if x.assertsEnabled then .assertFailed else .returned (), c) := by
  obtain ⟨e1, e2, e3, e4⟩ := assert_guards x info hasserts
  have e5 := sky_guard info pViewProjection pViewport hsky
  obtain ⟨e6, e7, e8⟩ := arrays_guards info harr
  unfold AddGeometry
  simp only [e1, e2, e3, e4, e5, e6, e7, e8, if_false, Bool.false_eq_true]
  by_cases hv : vertexCheckFails c info
  · unfold vertexCheckFails at hv
    rw [if_pos hv]
  · have hi : indexCheckFails c info := hcap.resolve_left hv
    unfold vertexCheckFails at hv
    unfold indexCheckFails at hi
    rw [if_neg hv, if_pos hi]

/-- A render type the collector has no bucket for gets `nullptr` from
`PushInfo`: nothing is written. -/
theorem AddGeometry_unhandled (x : Externals) (c : RasterizedDataCollector)
    (info : RgRasterizedGeometryUploadInfo)
    (pViewProjection : Option (List Nat)) (pViewport : Option RgViewport)
    (hasserts : x.assertsEnabled = true → layoutAssertsHold info ∧ depthAssertsHold x info)
    (hsky : skyCheckPasses info pViewProjection pViewport)
    (harr : arraysChecksPass info)
    (hv : ¬ vertexCheckFails c info) (hi : ¬ indexCheckFails c info)
    (hh : ¬ handles c info.renderType) :
    AddGeometry x c info pViewProjection pViewport =
      (if x.assertsEnabled then .assertFailed else .returned (), c) := by
  obtain ⟨e1, e2, e3, e4⟩ := assert_guards x info hasserts
  have e5 := sky_guard info pViewProjection pViewport hsky
  obtain ⟨e6, e7, e8⟩ := arrays_guards info harr
  unfold vertexCheckFails at hv
  unfold indexCheckFails at hi
  unfold AddGeometry
  simp only [e1, e2, e3, e4, e5, e6, e7, e8, hv, hi, if_false, Bool.false_eq_true]
  unfold handles at hh
  rcases c with ⟨vbs, ibs, cv, ci, b⟩
  rcases b with ⟨r, s⟩ | k <;> rcases hr : info.renderType <;>
    simp only [hr] at hh <;>
    first
    | exact absurd rfl hh
    | exact absurd (by decide) hh
    | (cases ha : x.assertsEnabled <;> simp [PushInfo, ha])

/-- With assertions compiled out and both source pointers null, the vertex
copy reads from `nullptr`. -/
theorem AddGeometry_null_source (x : Externals) (c : RasterizedDataCollector)
    (info : RgRasterizedGeometryUploadInfo)
    (pViewProjection : Option (List Nat)) (pViewport : Option RgViewport)
    (hasserts : x.assertsEnabled = true → layoutAssertsHold info ∧ depthAssertsHold x info)
    (hsky : skyCheckPasses info pViewProjection pViewport)
    (harr : arraysChecksPass info)
    (hv : ¬ vertexCheckFails c info) (hi : ¬ indexCheckFails c info)
    (hh : handles c info.renderType)
    (hsrc : ¬ (info.pArrays.isSome = true ∨ info.pStructs.isSome = true)) :
    (AddGeometry x c info pViewProjection pViewport).1 = .undefinedBehaviour := by
  obtain ⟨e1, e2, e3, e4⟩ := assert_guards x info hasserts
  have e5 := sky_guard info pViewProjection pViewport hsky
  obtain ⟨e6, e7, e8⟩ := arrays_guards info harr
  push_neg at hsrc
  obtain ⟨hp, hq⟩ := hsrc
  have ha : x.assertsEnabled = false := by
    cases hx : x.assertsEnabled
    · rfl
    · obtain ⟨⟨-, hlay⟩, -⟩ := hasserts hx
      rcases hlay with ⟨h1, -⟩ | ⟨-, h2⟩
      · exact absurd h1 hq
      · exact absurd h2 hp
  unfold vertexCheckFails at hv
  unfold indexCheckFails at hi
  unfold AddGeometry
  simp only [e1, e2, e3, e4, e5, e6, e7, e8, hv, hi, if_false, Bool.false_eq_true]
  have hcopy : (if info.pArrays.isSome = true then CopyFromSeparateArrays x info
      else CopyFromArrayOfStructs x info) = .undefinedBehaviour := by
    have hq2 : info.pStructs.isNone = true := by
      cases hs : info.pStructs <;> simp_all
    simp [hp, CopyFromArrayOfStructs, ha, hq2]
  rw [hcopy]
  unfold handles at hh
  rcases hb : c.buckets with ⟨r, s⟩ | k <;> rw [hb] at hh <;>
    rcases hr : info.renderType <;>
    first
    | (exfalso; simp [hr] at hh; done)
    | simp [PushInfo]

/-- Every call of `AddGeometry` ends in one of three ways: the state is as
before the call, or the vertex copy read from `nullptr`, or the call returned
with the state of an accepted submission. -/
theorem AddGeometry_trichotomy (x : Externals) (c : RasterizedDataCollector)
    (info : RgRasterizedGeometryUploadInfo)
    (pViewProjection : Option (List Nat)) (pViewport : Option RgViewport) :
    (AddGeometry x c info pViewProjection pViewport).2 = c ∨
    (AddGeometry x c info pViewProjection pViewport).1 = .undefinedBehaviour ∨
    (passesAllChecks x c info pViewProjection pViewport ∧
      AddGeometry x c info pViewProjection pViewport =
        (.returned (), acceptedState x c info pViewProjection pViewport)) := by
  by_cases hA : x.assertsEnabled = true → layoutAssertsHold info ∧ depthAssertsHold x info
  · by_cases hS : skyCheckPasses info pViewProjection pViewport
    · by_cases hR : arraysChecksPass info
      · by_cases hcap : vertexCheckFails c info ∨ indexCheckFails c info
        · left
          rw [AddGeometry_capacity x c info pViewProjection pViewport hA hS hR hcap]
        · push_neg at hcap
          obtain ⟨hv, hi⟩ := hcap
          by_cases hh : handles c info.renderType
          · by_cases hsrc : info.pArrays.isSome = true ∨ info.pStructs.isSome = true
            · right; right
              have hall : passesAllChecks x c info pViewProjection pViewport :=
                ⟨hA, hS, hR, hv, hi, hh, hsrc⟩
              exact ⟨hall, AddGeometry_accepted x c info pViewProjection pViewport hall⟩
            · right; left
              exact AddGeometry_null_source x c info pViewProjection pViewport
                hA hS hR hv hi hh hsrc
          · left
            rw [AddGeometry_unhandled x c info pViewProjection pViewport hA hS hR hv hi hh]
      · left
        rw [AddGeometry_arrays_thrown x c info pViewProjection pViewport hA hS hR]
    · left
      rw [AddGeometry_sky_thrown x c info pViewProjection pViewport hA hS]
  · push_neg at hA
    obtain ⟨ha, hnot⟩ := hA
    left
    rw [AddGeometry_assertFailed x c info pViewProjection pViewport ha
      (fun h => hnot h.1 h.2)]

/-- A submission that fails a capacity comparison does not pass all checks. -/
theorem not_passesAllChecks_of_capacity (x : Externals) (c : RasterizedDataCollector)
    (info : RgRasterizedGeometryUploadInfo)
    (pViewProjection : Option (List Nat)) (pViewport : Option RgViewport)
    (hcap : vertexCheckFails c info ∨ indexCheckFails c info) :
    ¬ passesAllChecks x c info pViewProjection pViewport := by
  rintro ⟨-, -, -, hv, hi, -, -⟩
  rcases hcap with h | h
  · exact hv h
  · exact hi h

/-- The bucket of a handled render type after an accepted submission. -/
theorem bucketOf_acceptedState (x : Externals) (c : RasterizedDataCollector)
    (info : RgRasterizedGeometryUploadInfo)
    (pViewProjection : Option (List Nat)) (pViewport : Option RgViewport)
    (hh : handles c info.renderType) :
    bucketOf (acceptedState x c info pViewProjection pViewport) info.renderType =
      bucketOf c info.renderType ++ [acceptedDrawInfo x c info pViewProjection pViewport] := by
  unfold handles at hh
  rcases hb : c.buckets with ⟨r, s⟩ | k <;> rw [hb] at hh <;>
    rcases hr : info.renderType <;>
    first
    | (exfalso; simp [hr] at hh; done)
    | simp [bucketOf, acceptedState, appendTo, hb, hr, RasterizedDataCollector.rasterDrawInfos,
        RasterizedDataCollector.swapchainDrawInfos, RasterizedDataCollector.skyDrawInfos]

/-- The buckets of the other render types after an accepted submission. -/
theorem bucketOf_acceptedState_other (x : Externals) (c : RasterizedDataCollector)
    (info : RgRasterizedGeometryUploadInfo)
    (pViewProjection : Option (List Nat)) (pViewport : Option RgViewport)
    (renderType : RgRasterizedGeometryRenderType) (hne : renderType ≠ info.renderType) :
    bucketOf (acceptedState x c info pViewProjection pViewport) renderType =
      bucketOf c renderType := by
  rcases hb : c.buckets with ⟨r, s⟩ | k <;>
    rcases hr : info.renderType <;> rcases renderType <;>
    first
    | (exfalso; simp [hr] at hne; done)
    | simp [bucketOf, acceptedState, appendTo, hb, hr, RasterizedDataCollector.rasterDrawInfos,
        RasterizedDataCollector.swapchainDrawInfos, RasterizedDataCollector.skyDrawInfos]

/-- C3: a submission that does not fit is dropped atomically. Whenever
`curVertexCount + vertexCount` or `curIndexCount + indexCount` fails the
capacity comparison, the collector (both cursors and every draw bucket, entry
by entry) is exactly as before the call. And no call stops half way: a call
either leaves the state as it was, or reads from a null source, or returns with
the complete state of an accepted submission, so the second index comparison
of line 213 never drops a submission after line 206 moved the vertex cursor. -/
theorem C3_overflow_dropped_atomically (x : Externals) (c : RasterizedDataCollector)
    (info : RgRasterizedGeometryUploadInfo)
    (pViewProjection : Option (List Nat)) (pViewport : Option RgViewport) :
    ((vertexCheckFails c info ∨ indexCheckFails c info) →
      (AddGeometry x c info pViewProjection pViewport).2 = c) ∧
    ((AddGeometry x c info pViewProjection pViewport).2 = c ∨
      (AddGeometry x c info pViewProjection pViewport).1 = .undefinedBehaviour ∨
      AddGeometry x c info pViewProjection pViewport =
        (.returned (), acceptedState x c info pViewProjection pViewport)) := by
  have htri := AddGeometry_trichotomy x c info pViewProjection pViewport
  refine ⟨?_, ?_⟩
  · intro hcap
    rcases htri with h | h | ⟨hall, -⟩
    · exact h
    · by_cases hA : x.assertsEnabled = true → layoutAssertsHold info ∧ depthAssertsHold x info
      · by_cases hS : skyCheckPasses info pViewProjection pViewport
        · by_cases hR : arraysChecksPass info
          · rw [AddGeometry_capacity x c info pViewProjection pViewport hA hS hR hcap]
          · rw [AddGeometry_arrays_thrown x c info pViewProjection pViewport hA hS hR]
        · rw [AddGeometry_sky_thrown x c info pViewProjection pViewport hA hS]
      · push_neg at hA
        obtain ⟨ha, hnot⟩ := hA
        rw [AddGeometry_assertFailed x c info pViewProjection pViewport ha
          (fun h => hnot h.1 h.2)]
    · exact absurd hall (not_passesAllChecks_of_capacity x c info _ _ hcap)
  · rcases htri with h | h | ⟨-, h⟩
    · exact Or.inl h
    · exact Or.inr (Or.inl h)
    · exact Or.inr (Or.inr h)

/-- Witness for C3: after one accepted triangle, a submission of 100 vertices
to a collector of capacity 64 leaves the collector (cursor 3, one draw) as it
was. -/
theorem C3_overflow_dropped_atomically_witness :
    vertexCheckFails
      (AddGeometry (sampleExternals false) (RasterizedDataCollectorGeneral 64 64)
        (sampleInfo RG_RASTERIZED_GEOMETRY_RENDER_TYPE_DEFAULT 3 3 0) none none).2
      (sampleInfo RG_RASTERIZED_GEOMETRY_RENDER_TYPE_DEFAULT 100 0 0) ∧
    (AddGeometry (sampleExternals false)
      (AddGeometry (sampleExternals false) (RasterizedDataCollectorGeneral 64 64)
        (sampleInfo RG_RASTERIZED_GEOMETRY_RENDER_TYPE_DEFAULT 3 3 0) none none).2
      (sampleInfo RG_RASTERIZED_GEOMETRY_RENDER_TYPE_DEFAULT 100 0 0) none none).2 =
    (AddGeometry (sampleExternals false) (RasterizedDataCollectorGeneral 64 64)
        (sampleInfo RG_RASTERIZED_GEOMETRY_RENDER_TYPE_DEFAULT 3 3 0) none none).2 := by
  have hcap : vertexCheckFails
      (AddGeometry (sampleExternals false) (RasterizedDataCollectorGeneral 64 64)
        (sampleInfo RG_RASTERIZED_GEOMETRY_RENDER_TYPE_DEFAULT 3 3 0) none none).2
      (sampleInfo RG_RASTERIZED_GEOMETRY_RENDER_TYPE_DEFAULT 100 0 0) := by decide
  exact ⟨hcap, (C3_overflow_dropped_atomically (sampleExternals false) _
    (sampleInfo RG_RASTERIZED_GEOMETRY_RENDER_TYPE_DEFAULT 100 0 0) none none).1 (Or.inl hcap)⟩

/-- The general collector passes a handled submission on to `AddGeometry`. -/
theorem General_TryAddGeometry_eq (x : Externals) (c : RasterizedDataCollector)
    (info : RgRasterizedGeometryUploadInfo)
    (viewProjection : Option (List Nat)) (viewport : Option RgViewport)
    (hr : info.renderType ≠ RG_RASTERIZED_GEOMETRY_RENDER_TYPE_SKY)
    (e : Exit Unit) (c1 : RasterizedDataCollector)
    (h : AddGeometry x c info viewProjection viewport = (e, c1)) :
    RasterizedDataCollectorGeneral.TryAddGeometry x c info viewProjection viewport =
      (e.map (fun _ => true), c1) := by
  have hd : info.renderType = RG_RASTERIZED_GEOMETRY_RENDER_TYPE_DEFAULT ∨
      info.renderType = RG_RASTERIZED_GEOMETRY_RENDER_TYPE_SWAPCHAIN := by
    cases hrt : info.renderType <;> simp_all
  unfold RasterizedDataCollectorGeneral.TryAddGeometry
  rw [if_pos hd, h]

/-- The sky collector passes a sky submission on to `AddGeometry`. -/
theorem Sky_TryAddGeometry_eq (x : Externals) (c : RasterizedDataCollector)
    (info : RgRasterizedGeometryUploadInfo)
    (viewProjection : Option (List Nat)) (viewport : Option RgViewport)
    (hr : info.renderType = RG_RASTERIZED_GEOMETRY_RENDER_TYPE_SKY)
    (e : Exit Unit) (c1 : RasterizedDataCollector)
    (h : AddGeometry x c info viewProjection viewport = (e, c1)) :
    RasterizedDataCollectorSky.TryAddGeometry x c info viewProjection viewport =
      (e.map (fun _ => true), c1) := by
  unfold RasterizedDataCollectorSky.TryAddGeometry
  rw [if_pos hr, h]

/-- The virtual call reaches `AddGeometry` for a handled render type. -/
theorem TryAddGeometry_eq (x : Externals) (c : RasterizedDataCollector)
    (info : RgRasterizedGeometryUploadInfo)
    (viewProjection : Option (List Nat)) (viewport : Option RgViewport)
    (hh : handles c info.renderType)
    (e : Exit Unit) (c1 : RasterizedDataCollector)
    (h : AddGeometry x c info viewProjection viewport = (e, c1)) :
    TryAddGeometry x c info viewProjection viewport =
      (e.map (fun _ => true), c1) := by
  unfold handles at hh
  unfold TryAddGeometry
  rcases hb : c.buckets with ⟨r, s⟩ | k <;> rw [hb] at hh
  · exact General_TryAddGeometry_eq x c info viewProjection viewport hh e c1 h
  · exact Sky_TryAddGeometry_eq x c info viewProjection viewport hh e c1 h

/-- C4 (counterexample): with assertions compiled out, a submission of 100
vertices to a fresh general collector of vertex capacity 64 fails the capacity
comparison, and `TryAddGeometry` returns `true` with the state unchanged; a
fitting submission of 3 vertices returns the same `true`. With assertions
compiled in the overflowing call stops at `assert(0)`. No error value reaches
the caller in either build. -/
theorem C4_overflow_not_reported :
    vertexCheckFails (RasterizedDataCollectorGeneral 64 64)
      (sampleInfo RG_RASTERIZED_GEOMETRY_RENDER_TYPE_DEFAULT 100 0 0) ∧
    TryAddGeometry (sampleExternals false) (RasterizedDataCollectorGeneral 64 64)
      (sampleInfo RG_RASTERIZED_GEOMETRY_RENDER_TYPE_DEFAULT 100 0 0) none none =
      (.returned true, RasterizedDataCollectorGeneral 64 64) ∧
    (TryAddGeometry (sampleExternals false) (RasterizedDataCollectorGeneral 64 64)
      (sampleInfo RG_RASTERIZED_GEOMETRY_RENDER_TYPE_DEFAULT 3 0 0) none none).1 =
      .returned true ∧
    (TryAddGeometry (sampleExternals false) (RasterizedDataCollectorGeneral 64 64)
      (sampleInfo RG_RASTERIZED_GEOMETRY_RENDER_TYPE_DEFAULT 3 0 0) none none).2.curVertexCount
      = 3 ∧
    TryAddGeometry (sampleExternals true) (RasterizedDataCollectorGeneral 64 64)
      (sampleInfo RG_RASTERIZED_GEOMETRY_RENDER_TYPE_DEFAULT 100 0 0) none none =
      (.assertFailed, RasterizedDataCollectorGeneral 64 64) := by
  decide

/-- C4 (amended): capacity exhaustion is not reported as an error value. A
submission of a render type the collector handles that gets past the checks
of lines 90-130 and fails a capacity comparison is dropped with the collector
unchanged: with assertions compiled out `AddGeometry` returns normally and
`TryAddGeometry` returns `true`, as for an accepted submission; with
assertions compiled in the call stops at `assert(0)`. -/
theorem C4_overflow_dropped_without_error (x : Externals) (c : RasterizedDataCollector)
    (info : RgRasterizedGeometryUploadInfo)
    (pViewProjection : Option (List Nat)) (pViewport : Option RgViewport)
    (hasserts : x.assertsEnabled = true → layoutAssertsHold info ∧ depthAssertsHold x info)
    (hsky : skyCheckPasses info pViewProjection pViewport)
    (harr : arraysChecksPass info)
    (hh : handles c info.renderType)
    (hcap : vertexCheckFails c info ∨ indexCheckFails c info) :
    AddGeometry x c info pViewProjection pViewport =
      (if x.assertsEnabled then .assertFailed else .returned (), c) ∧
    TryAddGeometry x c info pViewProjection pViewport =
      (if x.assertsEnabled then .assertFailed else .returned true, c) := by
  have h := AddGeometry_capacity x c info pViewProjection pViewport hasserts hsky harr hcap
  refine ⟨h, ?_⟩
  rw [TryAddGeometry_eq x c info pViewProjection pViewport hh _ _ h]
  cases x.assertsEnabled <;> rfl

/-- Witness for the amended C4: 100 vertices into a fresh collector of
capacity 64, assertions compiled out. -/
theorem C4_overflow_dropped_without_error_witness :
    TryAddGeometry (sampleExternals false) (RasterizedDataCollectorGeneral 64 64)
      (sampleInfo RG_RASTERIZED_GEOMETRY_RENDER_TYPE_DEFAULT 100 0 0) none none =
      (.returned true, RasterizedDataCollectorGeneral 64 64) :=
  (C4_overflow_dropped_without_error (sampleExternals false)
    (RasterizedDataCollectorGeneral 64 64)
    (sampleInfo RG_RASTERIZED_GEOMETRY_RENDER_TYPE_DEFAULT 100 0 0) none none
    (by decide) (by decide) (by decide) (by decide) (by decide)).2

/-- C5 (counterexample): with assertions compiled out, a SWAPCHAIN submission
with the depth-write bit set is accepted: `TryAddGeometry` returns `true`, one
`DrawInfo` with that pipeline state is in `swapchainDrawInfos`, and the vertex
cursor moved from 0 to 3. With assertions compiled in the call ends in a failed
assertion, not in an error value. -/
theorem C5_depth_flags_accepted_without_asserts :
    (TryAddGeometry (sampleExternals false) (RasterizedDataCollectorGeneral 64 64)
      (sampleInfo RG_RASTERIZED_GEOMETRY_RENDER_TYPE_SWAPCHAIN 3 0 8) none none).1 =
      .returned true ∧
    ((TryAddGeometry (sampleExternals false) (RasterizedDataCollectorGeneral 64 64)
      (sampleInfo RG_RASTERIZED_GEOMETRY_RENDER_TYPE_SWAPCHAIN 3 0 8) none none).2
      |>.swapchainDrawInfos.map (fun d => d.pipelineState)) = [8] ∧
    (TryAddGeometry (sampleExternals false) (RasterizedDataCollectorGeneral 64 64)
      (sampleInfo RG_RASTERIZED_GEOMETRY_RENDER_TYPE_SWAPCHAIN 3 0 8) none none).2.curVertexCount
      = 3 ∧
    (TryAddGeometry (sampleExternals true) (RasterizedDataCollectorGeneral 64 64)
      (sampleInfo RG_RASTERIZED_GEOMETRY_RENDER_TYPE_SWAPCHAIN 3 0 8) none none).1 =
      .assertFailed := by
  decide

/-- C5 (amended): with assertions compiled in, for every collector state and
every submission with render type SWAPCHAIN whose pipeline state has the
depth-write or the depth-test flag, the call stops at a failed assertion, with
no `DrawInfo` appended and both cursors unchanged. -/
theorem C5_depth_flags_assert (x : Externals) (c : RasterizedDataCollector)
    (info : RgRasterizedGeometryUploadInfo)
    (pViewProjection : Option (List Nat)) (pViewport : Option RgViewport)
    (ha : x.assertsEnabled = true)
    (hr : info.renderType = RG_RASTERIZED_GEOMETRY_RENDER_TYPE_SWAPCHAIN)
    (hflag : info.pipelineState &&& x.RG_RASTERIZED_GEOMETRY_STATE_DEPTH_WRITE ≠ 0 ∨
      info.pipelineState &&& x.RG_RASTERIZED_GEOMETRY_STATE_DEPTH_TEST ≠ 0) :
    AddGeometry x c info pViewProjection pViewport = (.assertFailed, c) ∧
    RasterizedDataCollectorGeneral.TryAddGeometry x c info pViewProjection pViewport =
      (.assertFailed, c) := by
  have h : AddGeometry x c info pViewProjection pViewport = (.assertFailed, c) := by
    apply AddGeometry_assertFailed x c info pViewProjection pViewport ha
    rintro ⟨-, hd⟩
    obtain ⟨ht, hw⟩ := hd hr
    rcases hflag with h | h
    · exact h hw
    · exact h ht
  refine ⟨h, ?_⟩
  rw [General_TryAddGeometry_eq x c info pViewProjection pViewport (by simp [hr]) _ _ h]
  rfl

/-- Witness for the amended C5: the depth-write bit on a SWAPCHAIN submission,
assertions compiled in. -/
theorem C5_depth_flags_assert_witness :
    RasterizedDataCollectorGeneral.TryAddGeometry (sampleExternals true)
      (RasterizedDataCollectorGeneral 64 64)
      (sampleInfo RG_RASTERIZED_GEOMETRY_RENDER_TYPE_SWAPCHAIN 3 0 8) none none =
      (.assertFailed, RasterizedDataCollectorGeneral 64 64) :=
  (C5_depth_flags_assert (sampleExternals true) (RasterizedDataCollectorGeneral 64 64)
    (sampleInfo RG_RASTERIZED_GEOMETRY_RENDER_TYPE_SWAPCHAIN 3 0 8) none none
    rfl rfl (Or.inl (by decide))).2

/-- C7 (counterexample): with assertions compiled out, a submission that gives
both `pArrays` and `pStructs` is accepted (the call returns, one `DrawInfo` is
appended, the vertex cursor moves to 3), and a submission that gives neither
reaches the copy from the null `pStructs`. With assertions compiled in both
calls end in a failed assertion, not in an error value. -/
theorem C7_layouts_unchecked_without_asserts :
    (AddGeometry (sampleExternals false) (RasterizedDataCollectorGeneral 64 64)
      bothLayoutsInfo none none).1 = .returned () ∧
    (AddGeometry (sampleExternals false) (RasterizedDataCollectorGeneral 64 64)
      bothLayoutsInfo none none).2.rasterDrawInfos.length = 1 ∧
    (AddGeometry (sampleExternals false) (RasterizedDataCollectorGeneral 64 64)
      bothLayoutsInfo none none).2.curVertexCount = 3 ∧
    (AddGeometry (sampleExternals false) (RasterizedDataCollectorGeneral 64 64)
      noLayoutInfo none none).1 = .undefinedBehaviour ∧
    (AddGeometry (sampleExternals true) (RasterizedDataCollectorGeneral 64 64)
      bothLayoutsInfo none none).1 = .assertFailed ∧
    (AddGeometry (sampleExternals true) (RasterizedDataCollectorGeneral 64 64)
      noLayoutInfo none none).1 = .assertFailed := by
  decide

/-- C7 (amended): with assertions compiled in, for every submission in which
both `pArrays` and `pStructs` are non-null, or both are null, `AddGeometry`
stops at a failed assertion and leaves the cursors and the draw buckets
unchanged. -/
theorem C7_layouts_assert (x : Externals) (c : RasterizedDataCollector)
    (info : RgRasterizedGeometryUploadInfo)
    (pViewProjection : Option (List Nat)) (pViewport : Option RgViewport)
    (ha : x.assertsEnabled = true)
    (hbad : (info.pArrays ≠ none ∧ info.pStructs ≠ none) ∨
      (info.pArrays = none ∧ info.pStructs = none)) :
    AddGeometry x c info pViewProjection pViewport = (.assertFailed, c) := by
  apply AddGeometry_assertFailed x c info pViewProjection pViewport ha
  rintro ⟨⟨-, hlay⟩, -⟩
  rcases hbad with ⟨h1, h2⟩ | ⟨h1, h2⟩
  · rcases hlay with ⟨-, h⟩ | ⟨h, -⟩
    · exact h1 (by simpa using h)
    · exact h2 (by simpa using h)
  · rcases hlay with ⟨h, -⟩ | ⟨-, h⟩
    · rw [h2] at h; simp at h
    · rw [h1] at h; simp at h

/-- Witness for the amended C7: both layouts given, assertions compiled in. -/
theorem C7_layouts_assert_witness :
    AddGeometry (sampleExternals true) (RasterizedDataCollectorGeneral 64 64)
      bothLayoutsInfo none none = (.assertFailed, RasterizedDataCollectorGeneral 64 64) :=
  C7_layouts_assert (sampleExternals true) (RasterizedDataCollectorGeneral 64 64)
    bothLayoutsInfo none none rfl (Or.inl ⟨by decide, by decide⟩)

/-- What an accepted submission leaves behind: one new entry at the end of the
bucket of its render type, the other buckets as they were, the vertex range in
the entry and the vertex cursor advanced by `vertexCount` (32-bit cursor and
count, a vertex buffer of at most `2 ^ 32` vertices), and with indices the index
range in the entry and the index cursor advanced by `indexCount` modulo
`2 ^ 32`. -/
theorem AddGeometry_postcondition (x : Externals) (c : RasterizedDataCollector)
    (info : RgRasterizedGeometryUploadInfo)
    (pViewProjection : Option (List Nat)) (pViewport : Option RgViewport)
    (h : passesAllChecks x c info pViewProjection pViewport)
    (hcv : c.curVertexCount < 2 ^ 32) (hvc : info.vertexCount < 2 ^ 32)
    (hsize : c.vertexBuffer.GetSize / sizeofRasterizerVertex ≤ 2 ^ 32) :
    (AddGeometry x c info pViewProjection pViewport).1 = .returned () ∧
    (∃ d, bucketOf (AddGeometry x c info pViewProjection pViewport).2 info.renderType =
        bucketOf c info.renderType ++ [d] ∧
      d.firstVertex = c.curVertexCount ∧ d.vertexCount = info.vertexCount ∧
      (useIndices info → d.firstIndex = c.curIndexCount ∧ d.indexCount = info.indexCount)) ∧
    (∀ renderType, renderType ≠ info.renderType →
      bucketOf (AddGeometry x c info pViewProjection pViewport).2 renderType =
        bucketOf c renderType) ∧
    (AddGeometry x c info pViewProjection pViewport).2.curVertexCount =
      c.curVertexCount + info.vertexCount ∧
    (useIndices info →
      (AddGeometry x c info pViewProjection pViewport).2.curIndexCount =
        (c.curIndexCount + info.indexCount) % 2 ^ 32) ∧
    (¬ useIndices info →
      (AddGeometry x c info pViewProjection pViewport).2.curIndexCount = c.curIndexCount) := by
  have hacc := AddGeometry_accepted x c info pViewProjection pViewport h
  obtain ⟨-, -, -, hv, -, hh, -⟩ := h
  rw [hacc]
  refine ⟨rfl, ⟨acceptedDrawInfo x c info pViewProjection pViewport,
    bucketOf_acceptedState x c info pViewProjection pViewport hh, ?_, ?_, ?_⟩,
    fun rt hne => bucketOf_acceptedState_other x c info pViewProjection pViewport rt hne,
    ?_, ?_, ?_⟩
  · unfold acceptedDrawInfo
    split_ifs <;> rfl
  · unfold acceptedDrawInfo
    split_ifs <;> rfl
  · intro hu
    unfold acceptedDrawInfo
    rw [if_pos hu]
    exact ⟨rfl, rfl⟩
  · show (c.curVertexCount + info.vertexCount) % 2 ^ 32 = c.curVertexCount + info.vertexCount
    unfold vertexCheckFails at hv
    have h64 : (c.curVertexCount + info.vertexCount) % 2 ^ 64 =
        c.curVertexCount + info.vertexCount := Nat.mod_eq_of_lt (by omega)
    rw [h64] at hv
    exact Nat.mod_eq_of_lt (by omega)
  · intro hu
    show (if useIndices info then (c.curIndexCount + info.indexCount) % 2 ^ 32
      else c.curIndexCount) = _
    rw [if_pos hu]
  · intro hu
    show (if useIndices info then (c.curIndexCount + info.indexCount) % 2 ^ 32
      else c.curIndexCount) = _
    rw [if_neg hu]

/-- C8 (the code at the failing input): a general collector constructed with
maximum index count 4294967295 accepts a submission of 4294967280 indices
(index cursor 4294967280) and then a submission of 32 indices, which passes
every check; the new entry has `firstIndex` 4294967280 and `indexCount` 32,
but the 32-bit index cursor ends at 16 instead of growing by 32. -/
theorem C8_index_cursor_wraps :
    passesAllChecks (sampleExternals true) (RasterizedDataCollectorGeneral 64 4294967295)
      (sampleInfo RG_RASTERIZED_GEOMETRY_RENDER_TYPE_DEFAULT 1 4294967280 0) none none ∧
    (AddGeometry (sampleExternals true) (RasterizedDataCollectorGeneral 64 4294967295)
      (sampleInfo RG_RASTERIZED_GEOMETRY_RENDER_TYPE_DEFAULT 1 4294967280 0) none none
      ).2.curIndexCount = 4294967280 ∧
    passesAllChecks (sampleExternals true)
      (AddGeometry (sampleExternals true) (RasterizedDataCollectorGeneral 64 4294967295)
        (sampleInfo RG_RASTERIZED_GEOMETRY_RENDER_TYPE_DEFAULT 1 4294967280 0) none none).2
      (sampleInfo RG_RASTERIZED_GEOMETRY_RENDER_TYPE_DEFAULT 1 32 0) none none ∧
    (AddGeometry (sampleExternals true)
      (AddGeometry (sampleExternals true) (RasterizedDataCollectorGeneral 64 4294967295)
        (sampleInfo RG_RASTERIZED_GEOMETRY_RENDER_TYPE_DEFAULT 1 4294967280 0) none none).2
      (sampleInfo RG_RASTERIZED_GEOMETRY_RENDER_TYPE_DEFAULT 1 32 0) none none).1 =
      .returned () ∧
    ((AddGeometry (sampleExternals true)
      (AddGeometry (sampleExternals true) (RasterizedDataCollectorGeneral 64 4294967295)
        (sampleInfo RG_RASTERIZED_GEOMETRY_RENDER_TYPE_DEFAULT 1 4294967280 0) none none).2
      (sampleInfo RG_RASTERIZED_GEOMETRY_RENDER_TYPE_DEFAULT 1 32 0) none none).2
      |>.rasterDrawInfos.map (fun d => (d.firstIndex, d.indexCount))) =
      [(0, 4294967280), (4294967280, 32)] ∧
    (AddGeometry (sampleExternals true)
      (AddGeometry (sampleExternals true) (RasterizedDataCollectorGeneral 64 4294967295)
        (sampleInfo RG_RASTERIZED_GEOMETRY_RENDER_TYPE_DEFAULT 1 4294967280 0) none none).2
      (sampleInfo RG_RASTERIZED_GEOMETRY_RENDER_TYPE_DEFAULT 1 32 0) none none).2.curIndexCount
      = 16 := by
  decide

/-- C9 (counterexample): a fresh general collector with maximum vertex count
64 has a vertex capacity of 64, and a submission of exactly 64 vertices
(0 + 64 <= 64, no indices) that passes every other check fails the comparison
of line 132, which is `>=`, and is dropped: with assertions compiled out the
call returns with the collector unchanged, with assertions compiled in it
stops at `assert(0)`. A submission of 63 vertices is accepted. -/
theorem C9_exact_fill_dropped :
    (RasterizedDataCollectorGeneral 64 64).vertexBuffer.GetSize / sizeofRasterizerVertex = 64 ∧
    (RasterizedDataCollectorGeneral 64 64).curVertexCount +
      (sampleInfo RG_RASTERIZED_GEOMETRY_RENDER_TYPE_DEFAULT 64 0 0).vertexCount ≤ 64 ∧
    (RasterizedDataCollectorGeneral 64 64).curIndexCount +
      (sampleInfo RG_RASTERIZED_GEOMETRY_RENDER_TYPE_DEFAULT 64 0 0).indexCount ≤
      (RasterizedDataCollectorGeneral 64 64).indexBuffer.GetSize / sizeofUint32 ∧
    layoutAssertsHold (sampleInfo RG_RASTERIZED_GEOMETRY_RENDER_TYPE_DEFAULT 64 0 0) ∧
    depthAssertsHold (sampleExternals true)
      (sampleInfo RG_RASTERIZED_GEOMETRY_RENDER_TYPE_DEFAULT 64 0 0) ∧
    skyCheckPasses (sampleInfo RG_RASTERIZED_GEOMETRY_RENDER_TYPE_DEFAULT 64 0 0) none none ∧
    arraysChecksPass (sampleInfo RG_RASTERIZED_GEOMETRY_RENDER_TYPE_DEFAULT 64 0 0) ∧
    handles (RasterizedDataCollectorGeneral 64 64) RG_RASTERIZED_GEOMETRY_RENDER_TYPE_DEFAULT ∧
    vertexCheckFails (RasterizedDataCollectorGeneral 64 64)
      (sampleInfo RG_RASTERIZED_GEOMETRY_RENDER_TYPE_DEFAULT 64 0 0) ∧
    AddGeometry (sampleExternals false) (RasterizedDataCollectorGeneral 64 64)
      (sampleInfo RG_RASTERIZED_GEOMETRY_RENDER_TYPE_DEFAULT 64 0 0) none none =
      (.returned (), RasterizedDataCollectorGeneral 64 64) ∧
    AddGeometry (sampleExternals true) (RasterizedDataCollectorGeneral 64 64)
      (sampleInfo RG_RASTERIZED_GEOMETRY_RENDER_TYPE_DEFAULT 64 0 0) none none =
      (.assertFailed, RasterizedDataCollectorGeneral 64 64) ∧
    (AddGeometry (sampleExternals false) (RasterizedDataCollectorGeneral 64 64)
      (sampleInfo RG_RASTERIZED_GEOMETRY_RENDER_TYPE_DEFAULT 63 0 0) none none
      ).2.rasterDrawInfos.length = 1 := by
  decide

/-- The index capacity of a constructed collector is six times the configured
maximum index count: the buffer has `sizeof(RasterizerVertex)` = 24 bytes per
index and the comparison divides by `sizeof(uint32_t)` = 4. -/
theorem index_capacity_of_construct (maxVertexCount maxIndexCount : Nat)
    (buckets : DrawBuckets) (h : maxIndexCount < 2 ^ 32) :
    (RasterizedDataCollector.construct maxVertexCount maxIndexCount buckets).indexBuffer.GetSize
      / sizeofUint32 = 6 * max maxIndexCount 64 := by
  have h1 : max maxIndexCount 64 < 2 ^ 32 := max_lt h (by norm_num)
  simp only [RasterizedDataCollector.construct, AutoBuffer.Create, AutoBuffer.GetSize,
    sizeofRasterizerVertex, sizeofUint32, Nat.mod_mod]
  rw [Nat.mod_eq_of_lt (by omega)]
  omega

/-- C10 (the code at the failing input): a general collector constructed with
maximum index count 64 compares index submissions against
`GetSize() / sizeof(uint32_t)` = 384, so a first submission of 100 indices is
accepted and the index cursor stands at 100, above `max 64 64`. -/
theorem C10_index_cursor_exceeds_configured_count :
    (RasterizedDataCollectorGeneral 64 64).indexBuffer.GetSize / sizeofUint32 = 384 ∧
    passesAllChecks (sampleExternals true) (RasterizedDataCollectorGeneral 64 64)
      (sampleInfo RG_RASTERIZED_GEOMETRY_RENDER_TYPE_DEFAULT 3 100 0) none none ∧
    (AddGeometry (sampleExternals true) (RasterizedDataCollectorGeneral 64 64)
      (sampleInfo RG_RASTERIZED_GEOMETRY_RENDER_TYPE_DEFAULT 3 100 0) none none).1 =
      .returned () ∧
    (AddGeometry (sampleExternals true) (RasterizedDataCollectorGeneral 64 64)
      (sampleInfo RG_RASTERIZED_GEOMETRY_RENDER_TYPE_DEFAULT 3 100 0) none none
      ).2.curIndexCount = 100 ∧
    ¬ (100 ≤ max 64 64) := by
  decide

/-! ## Theorems: frames of the collector -/

/-- What `Clear` leaves: both cursors zero, the buckets of the subclass empty,
the buffers as they were. -/
theorem Clear_eq (c : RasterizedDataCollector) :
    (Clear c).curVertexCount = 0 ∧ (Clear c).curIndexCount = 0 ∧
    (Clear c).rasterDrawInfos = [] ∧ (Clear c).swapchainDrawInfos = [] ∧
    (Clear c).skyDrawInfos = [] ∧
    (Clear c).vertexBuffer = c.vertexBuffer ∧ (Clear c).indexBuffer = c.indexBuffer ∧
    (Clear c).buckets =
      (match c.buckets with
        | .General _ _ => .General [] []
        | .Sky _ => .Sky []) := by
  unfold Clear
  rcases hb : c.buckets with ⟨r, s⟩ | k <;>
    simp [RasterizedDataCollector.rasterDrawInfos, RasterizedDataCollector.swapchainDrawInfos,
      RasterizedDataCollector.skyDrawInfos]

/-- C11: draw batches do not survive a frame boundary. For every collector
state, `Clear` sets `curVertexCount` and `curIndexCount` to 0 and empties every
bucket of the collector (raster and swapchain buckets of the general
collector, sky bucket of the sky collector); and after `Clear`, one accepted
DEFAULT submission returns and leaves exactly one entry in
`GetRasterDrawInfos()`, with `firstVertex` 0 and the submitted `vertexCount`. -/
theorem C11_clear_then_one_submission (x : Externals) (c : RasterizedDataCollector)
    (info : RgRasterizedGeometryUploadInfo)
    (pViewProjection : Option (List Nat)) (pViewport : Option RgViewport) :
    ((Clear c).curVertexCount = 0 ∧ (Clear c).curIndexCount = 0 ∧
      (Clear c).rasterDrawInfos = [] ∧ (Clear c).swapchainDrawInfos = [] ∧
      (Clear c).skyDrawInfos = [] ∧
      (Clear c).buckets =
        (match c.buckets with
          | .General _ _ => .General [] []
          | .Sky _ => .Sky [])) ∧
    (info.renderType = RG_RASTERIZED_GEOMETRY_RENDER_TYPE_DEFAULT →
      passesAllChecks x (Clear c) info pViewProjection pViewport →
      (AddGeometry x (Clear c) info pViewProjection pViewport).1 = .returned () ∧
      ∃ d, (AddGeometry x (Clear c) info pViewProjection pViewport).2.rasterDrawInfos = [d] ∧
        d.firstVertex = 0 ∧ d.vertexCount = info.vertexCount) := by
  obtain ⟨h1, h2, h3, h4, h5, -, -, h6⟩ := Clear_eq c
  refine ⟨⟨h1, h2, h3, h4, h5, h6⟩, ?_⟩
  intro hr hall
  have hacc := AddGeometry_accepted x (Clear c) info pViewProjection pViewport hall
  have hh : handles (Clear c) info.renderType := hall.2.2.2.2.2.1
  have hb := bucketOf_acceptedState x (Clear c) info pViewProjection pViewport hh
  rw [hr] at hb
  simp only [bucketOf] at hb
  rw [hacc]
  refine ⟨rfl, acceptedDrawInfo x (Clear c) info pViewProjection pViewport, ?_, ?_, ?_⟩
  · show (acceptedState x (Clear c) info pViewProjection pViewport).rasterDrawInfos = _
    rw [hb, h3]
    rfl
  · unfold acceptedDrawInfo
    split_ifs <;> exact h1
  · unfold acceptedDrawInfo
    split_ifs <;> rfl

/-- Witness for C11: a general collector that holds two draws of the previous
frame; after `Clear`, a triangle submitted as DEFAULT is the only raster draw and
starts at vertex 0. -/
theorem C11_clear_then_one_submission_witness :
    (AddGeometry (sampleExternals true)
      (AddGeometry (sampleExternals true) (RasterizedDataCollectorGeneral 64 64)
        (sampleInfo RG_RASTERIZED_GEOMETRY_RENDER_TYPE_DEFAULT 3 3 0) none none).2
      (sampleInfo RG_RASTERIZED_GEOMETRY_RENDER_TYPE_DEFAULT 3 3 0) none none
      ).2.rasterDrawInfos.length = 2 ∧
    ∃ d, (AddGeometry (sampleExternals true)
      (Clear (AddGeometry (sampleExternals true)
        (AddGeometry (sampleExternals true) (RasterizedDataCollectorGeneral 64 64)
          (sampleInfo RG_RASTERIZED_GEOMETRY_RENDER_TYPE_DEFAULT 3 3 0) none none).2
        (sampleInfo RG_RASTERIZED_GEOMETRY_RENDER_TYPE_DEFAULT 3 3 0) none none).2)
      (sampleInfo RG_RASTERIZED_GEOMETRY_RENDER_TYPE_DEFAULT 3 3 0) none none
      ).2.rasterDrawInfos = [d] ∧ d.firstVertex = 0 ∧ d.vertexCount = 3 :=
  ⟨by decide,
    ((C11_clear_then_one_submission (sampleExternals true)
      (AddGeometry (sampleExternals true)
        (AddGeometry (sampleExternals true) (RasterizedDataCollectorGeneral 64 64)
          (sampleInfo RG_RASTERIZED_GEOMETRY_RENDER_TYPE_DEFAULT 3 3 0) none none).2
        (sampleInfo RG_RASTERIZED_GEOMETRY_RENDER_TYPE_DEFAULT 3 3 0) none none).2
      (sampleInfo RG_RASTERIZED_GEOMETRY_RENDER_TYPE_DEFAULT 3 3 0) none none).2
      rfl (by decide)).2⟩

/-- One call that returns or throws: the buffers stay, the vertex cursor grows
by `vertexCount` when the submission is accepted, and the index cursor grows
modulo `2 ^ 32` by `indexCount` when it is accepted and uses indices. -/
theorem AddGeometry_step (x : Externals) (c : RasterizedDataCollector)
    (info : RgRasterizedGeometryUploadInfo)
    (pViewProjection : Option (List Nat)) (pViewport : Option RgViewport)
    (hcv : c.curVertexCount < 2 ^ 32) (hci : c.curIndexCount < 2 ^ 32)
    (hsize : c.vertexBuffer.GetSize / sizeofRasterizerVertex ≤ 2 ^ 32)
    (hvc : info.vertexCount < 2 ^ 32)
    (hexit : (AddGeometry x c info pViewProjection pViewport).1 ≠ .undefinedBehaviour) :
    (AddGeometry x c info pViewProjection pViewport).2.vertexBuffer = c.vertexBuffer ∧
    (AddGeometry x c info pViewProjection pViewport).2.indexBuffer = c.indexBuffer ∧
    (AddGeometry x c info pViewProjection pViewport).2.curVertexCount =
      c.curVertexCount +
        (if passesAllChecks x c info pViewProjection pViewport then info.vertexCount else 0) ∧
    (AddGeometry x c info pViewProjection pViewport).2.curVertexCount < 2 ^ 32 ∧
    (AddGeometry x c info pViewProjection pViewport).2.curIndexCount =
      (c.curIndexCount +
        (if passesAllChecks x c info pViewProjection pViewport ∧ useIndices info
          then info.indexCount else 0)) % 2 ^ 32 := by
  by_cases hall : passesAllChecks x c info pViewProjection pViewport
  · obtain ⟨-, -, -, hcur, hidx, hnidx⟩ :=
      AddGeometry_postcondition x c info pViewProjection pViewport hall hcv hvc hsize
    have hacc := AddGeometry_accepted x c info pViewProjection pViewport hall
    have hv : ¬ vertexCheckFails c info := hall.2.2.2.1
    refine ⟨by rw [hacc]; rfl, by rw [hacc]; rfl, by rw [hcur, if_pos hall], ?_, ?_⟩
    · rw [hcur]
      unfold vertexCheckFails at hv
      have h64 : (c.curVertexCount + info.vertexCount) % 2 ^ 64 =
          c.curVertexCount + info.vertexCount := Nat.mod_eq_of_lt (by omega)
      rw [h64] at hv
      omega
    · by_cases hu : useIndices info
      · rw [hidx hu, if_pos ⟨hall, hu⟩]
      · rw [hnidx hu, if_neg (fun h => hu h.2), Nat.add_zero, Nat.mod_eq_of_lt hci]
  · have hsame : (AddGeometry x c info pViewProjection pViewport).2 = c := by
      rcases AddGeometry_trichotomy x c info pViewProjection pViewport with h | h | ⟨h, -⟩
      · exact h
      · exact absurd h hexit
      · exact absurd h hall
    rw [hsame, if_neg hall, if_neg (fun h => hall h.1), Nat.add_zero, Nat.add_zero,
      Nat.mod_eq_of_lt hci]
    exact ⟨rfl, rfl, rfl, hcv, rfl⟩

/-- The cursors at the end of a run of submissions: the vertex cursor has grown
by the sum of the accepted vertex counts, the index cursor by the sum of the
accepted index counts modulo `2 ^ 32`. -/
theorem submitAll_cursors (x : Externals) (calls : List Submission) :
    ∀ (c : RasterizedDataCollector) (t : FrameTotals),
    c.curVertexCount < 2 ^ 32 → c.curIndexCount < 2 ^ 32 →
    c.vertexBuffer.GetSize / sizeofRasterizerVertex ≤ 2 ^ 32 →
    (∀ s ∈ calls, s.info.vertexCount < 2 ^ 32) →
    submitAll x c calls = some t →
    t.collector.curVertexCount = c.curVertexCount + t.vertexSum ∧
    t.collector.curIndexCount = (c.curIndexCount + t.indexSum) % 2 ^ 32 ∧
    t.collector.curVertexCount < 2 ^ 32 := by
  induction calls with
  | nil =>
    intro c t hcv hci _ _ h
    simp only [submitAll, Option.some.injEq] at h
    subst h
    exact ⟨rfl, (Nat.mod_eq_of_lt hci).symm, hcv⟩
  | cons s rest ih =>
    intro c t hcv hci hsize hcalls h
    have hvc : s.info.vertexCount < 2 ^ 32 := hcalls s (List.mem_cons_self _ _)
    have hrest : ∀ s' ∈ rest, s'.info.vertexCount < 2 ^ 32 :=
      fun s' hs' => hcalls s' (List.mem_cons_of_mem _ hs')
    have hstep := AddGeometry_step x c s.info s.pViewProjection s.pViewport hcv hci hsize hvc
    have hlt : ∀ n : Nat, n % 2 ^ 32 < 2 ^ 32 := fun n => Nat.mod_lt _ (by norm_num)
    unfold submitAll at h
    rcases hr : AddGeometry x c s.info s.pViewProjection s.pViewport with ⟨e, c1⟩
    rw [hr] at h hstep
    have hcont : ∀ t1, submitAll x c1 rest = some t1 → e ≠ .undefinedBehaviour →
        t = { t1 with
          vertexSum := (if passesAllChecks x c s.info s.pViewProjection s.pViewport
            then s.info.vertexCount else 0) + t1.vertexSum
          indexSum := (if passesAllChecks x c s.info s.pViewProjection s.pViewport ∧
            useIndices s.info then s.info.indexCount else 0) + t1.indexSum } →
        t.collector.curVertexCount = c.curVertexCount + t.vertexSum ∧
        t.collector.curIndexCount = (c.curIndexCount + t.indexSum) % 2 ^ 32 ∧
        t.collector.curVertexCount < 2 ^ 32 := by
      intro t1 ht1 he ht
      obtain ⟨hvb, -, hv1, hv1lt, hi1⟩ := hstep he
      have hsize1 : c1.vertexBuffer.GetSize / sizeofRasterizerVertex ≤ 2 ^ 32 := by
        simp only at hvb
        rw [hvb]; exact hsize
      have hi1lt : c1.curIndexCount < 2 ^ 32 := by
        simp only at hi1
        rw [hi1]; exact hlt _
      obtain ⟨ihv, ihi, ihlt⟩ := ih c1 t1 hv1lt hi1lt hsize1 hrest ht1
      simp only at hv1 hi1
      subst ht
      refine ⟨?_, ?_, ihlt⟩
      · show t1.collector.curVertexCount = _
        rw [ihv, hv1]
        simp only
        omega
      · show t1.collector.curIndexCount = _
        rw [ihi, hi1]
        simp only
        rw [Nat.mod_add_mod, Nat.add_assoc]
    cases e with
    | returned u =>
      cases u
      simp only [Option.map_eq_some'] at h
      obtain ⟨t1, ht1, ht⟩ := h
      apply hcont t1 ht1 (by simp)
      rw [← ht]
      by_cases hall : passesAllChecks x c s.info s.pViewProjection s.pViewport <;>
        by_cases hu : useIndices s.info <;> simp [hall, hu]
    | thrown code =>
      simp only [Option.map_eq_some'] at h
      obtain ⟨t1, ht1, ht⟩ := h
      apply hcont t1 ht1 (by simp)
      rw [← ht]
      by_cases hall : passesAllChecks x c s.info s.pViewProjection s.pViewport <;>
        by_cases hu : useIndices s.info <;> simp [hall, hu]
    | assertFailed => simp at h
    | undefinedBehaviour => simp at h

/-- The copies requested at the end of a frame that began with `Clear`: 24
bytes times the sum of the accepted vertex counts, and 4 bytes times the sum of
the accepted index counts taken modulo `2 ^ 32`; right after `Clear` both are
zero. -/
theorem CopyFromStaging_of_frame (x : Externals) (c : RasterizedDataCollector)
    (calls : List Submission) (t : FrameTotals)
    (hsize : c.vertexBuffer.GetSize / sizeofRasterizerVertex ≤ 2 ^ 32)
    (hcalls : ∀ s ∈ calls, s.info.vertexCount < 2 ^ 32)
    (h : submitAll x (Clear c) calls = some t) :
    CopyFromStaging (Clear c) = (0, 0) ∧
    CopyFromStaging t.collector = (24 * t.vertexSum, 4 * (t.indexSum % 2 ^ 32)) := by
  obtain ⟨h1, h2, -, -, -, h3, -, -⟩ := Clear_eq c
  have hs : (Clear c).vertexBuffer.GetSize / sizeofRasterizerVertex ≤ 2 ^ 32 := by
    rw [h3]; exact hsize
  obtain ⟨hv, hi, hlt⟩ := submitAll_cursors x calls (Clear c) t
    (by rw [h1]; norm_num) (by rw [h2]; norm_num) hs hcalls h
  rw [h1, Nat.zero_add] at hv
  rw [h2, Nat.zero_add] at hi
  have hilt : t.indexSum % 2 ^ 32 < 2 ^ 32 := Nat.mod_lt _ (by norm_num)
  refine ⟨?_, ?_⟩
  · simp [CopyFromStaging, h1, h2]
  · unfold CopyFromStaging sizeofRasterizerVertex sizeofUint32
    rw [hi, ← hv]
    rw [Nat.mod_eq_of_lt (by omega), Nat.mod_eq_of_lt (by omega)]

/-- C12 (the code at the failing input): on a general collector constructed
with maximum index count 4294967295, the frame `Clear`, 4294967280 indices, 32
indices has both submissions accepted (2 vertices, 4294967312 indices in
total); `CopyFromStaging` requests 48 bytes of vertices, which is 24 times 2,
but only 64 bytes of indices, which is not 4 times 4294967312. -/
theorem C12_index_copy_after_wrap :
    (submitAll (sampleExternals true) (Clear (RasterizedDataCollectorGeneral 64 4294967295))
      wrapFrame).map (fun t => (t.vertexSum, t.indexSum, CopyFromStaging t.collector)) =
      some (2, 4294967312, (48, 64)) ∧
    (48 : Nat) = 24 * 2 ∧ (64 : Nat) ≠ 4 * 4294967312 := by
  decide

/-! ## Theorems: image sizes -/

/-- C13: size derivation in `CreateImages`. For every 32-bit base size (W,H), a
slot with no size flag gets (max(1,W), max(1,H)), a slot with only the HALF
flag gets (max(1,(W+1)/2), max(1,(H+1)/2)) and a slot with only the THIRD flag
gets (max(1,(W+2)/3), max(1,(H+2)/3)), the sums and truncating divisions being
those of 32-bit unsigned integers; whenever W + 2 and H + 2 fit in 32 bits
these are the same expressions over the natural numbers. Every extent is at
least 1 in each axis, whatever the flags, and the THIRD rule on (100,100)
gives (34,34). -/
theorem C13_size_derivation (k : FramebufferImageFlagBits) (flags W H : Nat) :
    (flags &&& k.FB_IMAGE_FLAGS_FRAMEBUF_FLAGS_FORCE_SIZE_HALF = 0 →
      flags &&& k.FB_IMAGE_FLAGS_FRAMEBUF_FLAGS_FORCE_SIZE_THIRD = 0 →
      CreateImages_extent k flags W H = (max 1 W, max 1 H)) ∧
    (flags &&& k.FB_IMAGE_FLAGS_FRAMEBUF_FLAGS_FORCE_SIZE_HALF ≠ 0 →
      flags &&& k.FB_IMAGE_FLAGS_FRAMEBUF_FLAGS_FORCE_SIZE_THIRD = 0 →
      CreateImages_extent k flags W H =
        (max 1 ((W + 1) % 2 ^ 32 / 2), max 1 ((H + 1) % 2 ^ 32 / 2)) ∧
      (W + 2 < 2 ^ 32 → H + 2 < 2 ^ 32 →
        CreateImages_extent k flags W H = (max 1 ((W + 1) / 2), max 1 ((H + 1) / 2)))) ∧
    (flags &&& k.FB_IMAGE_FLAGS_FRAMEBUF_FLAGS_FORCE_SIZE_HALF = 0 →
      flags &&& k.FB_IMAGE_FLAGS_FRAMEBUF_FLAGS_FORCE_SIZE_THIRD ≠ 0 →
      CreateImages_extent k flags W H =
        (max 1 ((W + 2) % 2 ^ 32 / 3), max 1 ((H + 2) % 2 ^ 32 / 3)) ∧
      (W + 2 < 2 ^ 32 → H + 2 < 2 ^ 32 →
        CreateImages_extent k flags W H = (max 1 ((W + 2) / 3), max 1 ((H + 2) / 3)))) ∧
    1 ≤ (CreateImages_extent k flags W H).1 ∧ 1 ≤ (CreateImages_extent k flags W H).2 ∧
    (flags &&& k.FB_IMAGE_FLAGS_FRAMEBUF_FLAGS_FORCE_SIZE_HALF = 0 →
      flags &&& k.FB_IMAGE_FLAGS_FRAMEBUF_FLAGS_FORCE_SIZE_THIRD ≠ 0 →
      CreateImages_extent k flags 100 100 = (34, 34)) := by
  refine ⟨?_, ?_, ?_, ?_, ?_, ?_⟩
  · intro hh ht
    simp [CreateImages_extent, hh, ht]
  · intro hh ht
    refine ⟨by simp [CreateImages_extent, hh, ht], ?_⟩
    intro hW hH
    have h1 : (W + 1) % 2 ^ 32 = W + 1 := Nat.mod_eq_of_lt (by omega)
    have h2 : (H + 1) % 2 ^ 32 = H + 1 := Nat.mod_eq_of_lt (by omega)
    simp only [CreateImages_extent, hh, ht, ne_eq, not_false_eq_true, not_true_eq_false,
      if_true, if_false, h1, h2]
  · intro hh ht
    refine ⟨by simp [CreateImages_extent, hh, ht], ?_⟩
    intro hW hH
    have h1 : (W + 2) % 2 ^ 32 = W + 2 := Nat.mod_eq_of_lt hW
    have h2 : (H + 2) % 2 ^ 32 = H + 2 := Nat.mod_eq_of_lt hH
    simp only [CreateImages_extent, hh, ht, ne_eq, not_false_eq_true, not_true_eq_false,
      if_true, if_false, h1, h2]
  · exact le_max_left _ _
  · exact le_max_left _ _
  · intro hh ht
    simp [CreateImages_extent, hh, ht]

/-- Witness for C13: a slot with only the THIRD flag at base size (100,100). -/
theorem C13_size_derivation_witness :
    CreateImages_extent sampleFlagBits 4 100 100 = (34, 34) ∧
    CreateImages sampleFlagBits [0, 2, 4] 1920 1080 = [(1920, 1080), (960, 540), (640, 360)] :=
  ⟨(C13_size_derivation sampleFlagBits 4 100 100).2.2.2.2.2 (by decide) (by decide),
    by decide⟩

/-- The natural-number expression `ceilDiv` is the ceiling of the exact
quotient. -/
theorem ceilDiv_eq_ceil (d k : Nat) (hk : 0 < k) :
    ceilDiv d k = ⌈(d : ℚ) / (k : ℚ)⌉₊ := by
  have hkq : (0 : ℚ) < (k : ℚ) := by exact_mod_cast hk
  have hdm := Nat.div_add_mod (d + k - 1) k
  have hml := Nat.mod_lt (d + k - 1) hk
  unfold ceilDiv
  set q := (d + k - 1) / k with hq
  set r := (d + k - 1) % k with hr
  apply le_antisymm
  · rcases Nat.eq_zero_or_pos q with h0 | hpos
    · rw [h0]; exact Nat.zero_le _
    · have hlt : q - 1 < ⌈(d : ℚ) / (k : ℚ)⌉₊ := by
        rw [Nat.lt_ceil, lt_div_iff₀ hkq]
        have h1 : (q - 1) * k < d := by
          have h2 : (q - 1) * k + k = k * q := by
            have : q = (q - 1) + 1 := by omega
            conv_rhs => rw [this]
            ring
          omega
        exact_mod_cast h1
      omega
  · rw [Nat.ceil_le, div_le_iff₀ hkq]
    have h1 : d ≤ q * k := by
      have : q * k = k * q := Nat.mul_comm _ _
      omega
    exact_mod_cast h1

/-- C14 (counterexample): with only the HALF flag and base dimension
4294967295 the 32-bit sum `d + 1` wraps to 0 and the extent is 1, while the
dimension divided by 2 and rounded up is 2147483648; with only the THIRD flag
and base dimension 4294967294 the sum `d + 2` wraps to 0 and the extent is 1,
while the dimension divided by 3 and rounded up is 1431655765. -/
theorem C14_round_up_wraps :
    CreateImages_extent sampleFlagBits 2 4294967295 4294967295 = (1, 1) ∧
    max 1 (ceilDiv 4294967295 2) = 2147483648 ∧
    CreateImages_extent sampleFlagBits 4 4294967294 4294967294 = (1, 1) ∧
    max 1 (ceilDiv 4294967294 3) = 1431655765 := by
  decide

/-- C14 (amended): the half and third rules round up as long as the sum does
not wrap. For a slot with only the HALF flag and base dimensions up to
4294967294, and for a slot with only the THIRD flag and base dimensions up to
4294967293, the extent computed by `CreateImages` is, in each axis, the maximum
of 1 and the base dimension divided by 2 (by 3) rounded up, as an unbounded
natural number. -/
theorem C14_round_up_without_wrap (k : FramebufferImageFlagBits) (flags W H : Nat) :
    (flags &&& k.FB_IMAGE_FLAGS_FRAMEBUF_FLAGS_FORCE_SIZE_HALF ≠ 0 →
      flags &&& k.FB_IMAGE_FLAGS_FRAMEBUF_FLAGS_FORCE_SIZE_THIRD = 0 →
      W + 1 < 2 ^ 32 → H + 1 < 2 ^ 32 →
      CreateImages_extent k flags W H = (max 1 (ceilDiv W 2), max 1 (ceilDiv H 2))) ∧
    (flags &&& k.FB_IMAGE_FLAGS_FRAMEBUF_FLAGS_FORCE_SIZE_HALF = 0 →
      flags &&& k.FB_IMAGE_FLAGS_FRAMEBUF_FLAGS_FORCE_SIZE_THIRD ≠ 0 →
      W + 2 < 2 ^ 32 → H + 2 < 2 ^ 32 →
      CreateImages_extent k flags W H = (max 1 (ceilDiv W 3), max 1 (ceilDiv H 3))) := by
  refine ⟨?_, ?_⟩
  · intro hh ht hW hH
    have h1 : (W + 1) % 2 ^ 32 = W + 1 := Nat.mod_eq_of_lt hW
    have h2 : (H + 1) % 2 ^ 32 = H + 1 := Nat.mod_eq_of_lt hH
    have h3 : W + 2 - 1 = W + 1 := rfl
    have h4 : H + 2 - 1 = H + 1 := rfl
    simp only [CreateImages_extent, hh, ht, ne_eq, not_false_eq_true, not_true_eq_false,
      if_true, if_false, h1, h2, ceilDiv, h3, h4]
  · intro hh ht hW hH
    have h1 : (W + 2) % 2 ^ 32 = W + 2 := Nat.mod_eq_of_lt hW
    have h2 : (H + 2) % 2 ^ 32 = H + 2 := Nat.mod_eq_of_lt hH
    have h3 : W + 3 - 1 = W + 2 := rfl
    have h4 : H + 3 - 1 = H + 2 := rfl
    simp only [CreateImages_extent, hh, ht, ne_eq, not_false_eq_true, not_true_eq_false,
      if_true, if_false, h1, h2, ceilDiv, h3, h4]

/-- Witness for the amended C14: the HALF rule on (1921, 1081) and the THIRD
rule on (100, 100). -/
theorem C14_round_up_without_wrap_witness :
    CreateImages_extent sampleFlagBits 2 1921 1081 = (max 1 (ceilDiv 1921 2), max 1 (ceilDiv 1081 2)) ∧
    CreateImages_extent sampleFlagBits 4 100 100 = (max 1 (ceilDiv 100 3), max 1 (ceilDiv 100 3)) :=
  ⟨(C14_round_up_without_wrap sampleFlagBits 2 1921 1081).1
      (by decide) (by decide) (by decide) (by decide),
    (C14_round_up_without_wrap sampleFlagBits 4 100 100).2
      (by decide) (by decide) (by decide) (by decide)⟩

/-! ## Theorems: descriptors and barriers -/

/-- The writes of `UpdateDescriptors`: for each set `k` below 2 and each slot
`i`, the storage write, and the sampler write unless its binding is invalid. -/
theorem mem_UpdateDescriptors_writes (t : ShFramebuffers) (u : ShFramebuffersSamplers)
    (imageViews : List Nat) (nearestSampler : Nat) (w : VkWriteDescriptorSet) :
    w ∈ (UpdateDescriptors t u imageViews nearestSampler).2 ↔
      ∃ k, k < 2 ∧ ∃ i, i < t.ShFramebuffers_Count ∧
        (w = storageWrite t k i ∨ samplerWrite t u k i = some w) := by
  simp only [UpdateDescriptors, FRAMEBUFFERS_HISTORY_LENGTH, List.mem_flatMap, List.mem_range,
    List.mem_append, List.mem_map, List.mem_filterMap]
  constructor
  · rintro ⟨k, hk, h | h⟩
    · obtain ⟨i, hi, rfl⟩ := h
      exact ⟨k, hk, i, hi, Or.inl rfl⟩
    · obtain ⟨i, hi, h⟩ := h
      exact ⟨k, hk, i, hi, Or.inr h⟩
  · rintro ⟨k, hk, i, hi, h | h⟩
    · exact ⟨k, hk, Or.inl ⟨i, hi, h.symm⟩⟩
    · exact ⟨k, hk, Or.inr ⟨i, hi, h⟩⟩

/-- The storage writes: image `i` goes to binding `b` of set `k` exactly when
`b` is the entry of the table of that set. -/
theorem receivesStorage_iff (t : ShFramebuffers) (u : ShFramebuffersSamplers)
    (imageViews : List Nat) (nearestSampler : Nat) (k i b : Nat) :
    receivesStorage (UpdateDescriptors t u imageViews nearestSampler).2 k i b ↔
      k < 2 ∧ i < t.ShFramebuffers_Count ∧
      b = (if k = 0 then t.ShFramebuffers_Bindings.getD i 0
        else t.ShFramebuffers_BindingsSwapped.getD i 0) := by
  unfold receivesStorage
  rw [mem_UpdateDescriptors_writes]
  constructor
  · rintro ⟨k1, hk1, i1, hi1, h | h⟩
    · simp only [storageWrite, VkWriteDescriptorSet.mk.injEq, true_and, and_true] at h
      obtain ⟨rfl, hb, rfl⟩ := h
      exact ⟨hk1, hi1, hb⟩
    · unfold samplerWrite at h
      split_ifs at h
      simp at h
  · rintro ⟨hk, hi, hb⟩
    exact ⟨k, hk, i, hi, Or.inl (by simp [storageWrite, hb])⟩

/-- The sampler writes: the sampled image `i` goes to binding `b` of set `k`
exactly when `b` is the entry of the sampler table of that set and is not
FB_SAMPLER_INVALID_BINDING. -/
theorem receivesSampler_iff (t : ShFramebuffers) (u : ShFramebuffersSamplers)
    (imageViews : List Nat) (nearestSampler : Nat) (k i b : Nat) :
    receivesSampler t (UpdateDescriptors t u imageViews nearestSampler).2 k i b ↔
      k < 2 ∧ i < t.ShFramebuffers_Count ∧ b = samplerBinding u k i ∧
      b ≠ u.FB_SAMPLER_INVALID_BINDING := by
  unfold receivesSampler
  rw [mem_UpdateDescriptors_writes]
  constructor
  · rintro ⟨k1, hk1, i1, hi1, h | h⟩
    · simp [storageWrite] at h
    · unfold samplerWrite at h
      split_ifs at h with hinv
      simp only [Option.some.injEq, VkWriteDescriptorSet.mk.injEq, true_and, and_true,
        Nat.add_left_cancel_iff] at h
      obtain ⟨rfl, hb, rfl⟩ := h
      exact ⟨hk1, hi1, hb.symm, by rw [← hb]; exact hinv⟩
  · rintro ⟨hk, hi, hb, hne⟩
    refine ⟨k, hk, i, hi, Or.inr ?_⟩
    unfold samplerWrite
    rw [if_neg (by rw [← hb]; exact hne), hb]

/-- The array `imageInfos` of `UpdateDescriptors`: element `i` is the view of
image `i` without a sampler, element `ShFramebuffers_Count + i` is the same
view with the nearest sampler. -/
theorem UpdateDescriptors_imageInfos (t : ShFramebuffers) (u : ShFramebuffersSamplers)
    (imageViews : List Nat) (nearestSampler : Nat) (i : Nat)
    (hi : i < t.ShFramebuffers_Count) :
    (UpdateDescriptors t u imageViews nearestSampler).1[i]? =
      some { sampler := none, imageView := imageViews.getD i 0,
             imageLayout := .VK_IMAGE_LAYOUT_GENERAL } ∧
    (UpdateDescriptors t u imageViews nearestSampler).1[t.ShFramebuffers_Count + i]? =
      some { sampler := some nearestSampler, imageView := imageViews.getD i 0,
             imageLayout := .VK_IMAGE_LAYOUT_GENERAL } := by
  simp only [UpdateDescriptors]
  refine ⟨?_, ?_⟩
  · rw [List.getElem?_append_left (by simpa using hi)]
    simp [List.getElem?_range hi]
  · rw [List.getElem?_append_right (by simp)]
    simp [List.getElem?_range hi]

/-- C15: descriptor binding mirroring in `UpdateDescriptors`. The view of
image `i` is written as a storage image to binding `ShFramebuffers_Bindings[i]`
in descriptor set 0 and to `ShFramebuffers_BindingsSwapped[i]` in set 1, and to
no other binding; likewise as a sampled image with the sampler tables, no
write being made for FB_SAMPLER_INVALID_BINDING. Hence for slots `S` and
`S_prev` with `BindingsSwapped[S] = Bindings[S_prev]` and
`BindingsSwapped[S_prev] = Bindings[S]`, the binding that receives the image of
`S` in set 0 is the binding that receives the image of `S_prev` in set 1, and
vice versa; and the image of a slot whose two bindings agree is written to the
same binding in both sets. -/
theorem C15_binding_mirroring (t : ShFramebuffers) (u : ShFramebuffersSamplers)
    (imageViews : List Nat) (nearestSampler : Nat) :
    (∀ k i b, receivesStorage (UpdateDescriptors t u imageViews nearestSampler).2 k i b ↔
      k < 2 ∧ i < t.ShFramebuffers_Count ∧
      b = (if k = 0 then t.ShFramebuffers_Bindings.getD i 0
        else t.ShFramebuffers_BindingsSwapped.getD i 0)) ∧
    (∀ k i b, receivesSampler t (UpdateDescriptors t u imageViews nearestSampler).2 k i b ↔
      k < 2 ∧ i < t.ShFramebuffers_Count ∧
      b = (if k = 0 then u.ShFramebuffers_Sampler_Bindings.getD i 0
        else u.ShFramebuffers_Sampler_BindingsSwapped.getD i 0) ∧
      b ≠ u.FB_SAMPLER_INVALID_BINDING) ∧
    (∀ i, i < t.ShFramebuffers_Count →
      (UpdateDescriptors t u imageViews nearestSampler).1[i]? =
        some { sampler := none, imageView := imageViews.getD i 0,
               imageLayout := .VK_IMAGE_LAYOUT_GENERAL } ∧
      (UpdateDescriptors t u imageViews nearestSampler).1[t.ShFramebuffers_Count + i]? =
        some { sampler := some nearestSampler, imageView := imageViews.getD i 0,
               imageLayout := .VK_IMAGE_LAYOUT_GENERAL }) ∧
    (∀ S P, S < t.ShFramebuffers_Count → P < t.ShFramebuffers_Count →
      t.ShFramebuffers_BindingsSwapped.getD S 0 = t.ShFramebuffers_Bindings.getD P 0 →
      t.ShFramebuffers_BindingsSwapped.getD P 0 = t.ShFramebuffers_Bindings.getD S 0 →
      ∀ b,
        (receivesStorage (UpdateDescriptors t u imageViews nearestSampler).2 0 S b ↔
          receivesStorage (UpdateDescriptors t u imageViews nearestSampler).2 1 P b) ∧
        (receivesStorage (UpdateDescriptors t u imageViews nearestSampler).2 0 P b ↔
          receivesStorage (UpdateDescriptors t u imageViews nearestSampler).2 1 S b)) ∧
    (∀ S, S < t.ShFramebuffers_Count →
      t.ShFramebuffers_Bindings.getD S 0 = t.ShFramebuffers_BindingsSwapped.getD S 0 →
      ∀ b,
        (receivesStorage (UpdateDescriptors t u imageViews nearestSampler).2 0 S b ↔
          receivesStorage (UpdateDescriptors t u imageViews nearestSampler).2 1 S b)) := by
  refine ⟨fun k i b => receivesStorage_iff t u imageViews nearestSampler k i b,
    fun k i b => receivesSampler_iff t u imageViews nearestSampler k i b,
    fun i hi => UpdateDescriptors_imageInfos t u imageViews nearestSampler i hi, ?_, ?_⟩
  · intro S P hS hP h1 h2 b
    simp only [receivesStorage_iff, hS, hP, true_and, if_true, Nat.one_ne_zero, if_false,
      Nat.lt_add_one, Nat.zero_lt_two, Nat.one_lt_two, h1, h2, and_self]
  · intro S hS h b
    simp only [receivesStorage_iff, hS, true_and, if_true, Nat.one_ne_zero, if_false,
      Nat.zero_lt_two, Nat.one_lt_two, h]

/-- Witness for C15 on the three-slot sample table: slots 1 and 2 are a swap
pair, and binding 1 receives the image of slot 1 in set 0 and the image of
slot 2 in set 1. -/
theorem C15_binding_mirroring_witness :
    receivesStorage (UpdateDescriptors sampleTables sampleSamplers [10, 11, 12] 99).2 0 1 1 ∧
    receivesStorage (UpdateDescriptors sampleTables sampleSamplers [10, 11, 12] 99).2 1 2 1 :=
  have h0 : receivesStorage
      (UpdateDescriptors sampleTables sampleSamplers [10, 11, 12] 99).2 0 1 1 := by decide
  ⟨h0, ((C15_binding_mirroring sampleTables sampleSamplers [10, 11, 12] 99).2.2.2.1 1 2
    (by decide) (by decide) (by decide) (by decide) 1).1.mp h0⟩

/-- The union of the three single-category source stage masks is the source
stage mask of `BarrierType::All`, and each source mask lies inside the
destination mask. -/
theorem barrier_mask_algebra (v : VkBarrierBits) :
    srcAccess v .All =
      srcAccess v .Storage ||| srcAccess v .ColorAttachment ||| srcAccess v .Transfer ∧
    srcStage v .All =
      srcStage v .Storage ||| srcStage v .ColorAttachment ||| srcStage v .Transfer ∧
    (∀ bt, srcAccess v bt &&& dstAccess v = srcAccess v bt) ∧
    (∀ bt, srcStage v bt &&& dstStage v = srcStage v bt) := by
  refine ⟨rfl, ?_, ?_, ?_⟩
  · apply Nat.eq_of_testBit_eq
    intro i
    simp only [srcStage, Nat.testBit_or]
    cases v.VK_PIPELINE_STAGE_2_ALL_GRAPHICS_BIT_KHR.testBit i <;>
      cases v.VK_PIPELINE_STAGE_2_RAY_TRACING_SHADER_BIT_KHR.testBit i <;>
      cases v.VK_PIPELINE_STAGE_2_COMPUTE_SHADER_BIT_KHR.testBit i <;>
      cases v.VK_PIPELINE_STAGE_2_ALL_TRANSFER_BIT_KHR.testBit i <;> rfl
  · intro bt
    apply Nat.eq_of_testBit_eq
    intro i
    cases bt <;> simp only [srcAccess, dstAccess, Nat.testBit_or, Nat.testBit_and] <;>
      cases v.VK_ACCESS_2_SHADER_WRITE_BIT_KHR.testBit i <;>
      cases v.VK_ACCESS_2_SHADER_READ_BIT_KHR.testBit i <;>
      cases v.VK_ACCESS_2_COLOR_ATTACHMENT_WRITE_BIT_KHR.testBit i <;>
      cases v.VK_ACCESS_2_COLOR_ATTACHMENT_READ_BIT_KHR.testBit i <;>
      cases v.VK_ACCESS_2_TRANSFER_WRITE_BIT_KHR.testBit i <;>
      cases v.VK_ACCESS_2_TRANSFER_READ_BIT_KHR.testBit i <;> rfl
  · intro bt
    apply Nat.eq_of_testBit_eq
    intro i
    cases bt <;> simp only [srcStage, dstStage, Nat.testBit_or, Nat.testBit_and] <;>
      cases v.VK_PIPELINE_STAGE_2_ALL_GRAPHICS_BIT_KHR.testBit i <;>
      cases v.VK_PIPELINE_STAGE_2_RAY_TRACING_SHADER_BIT_KHR.testBit i <;>
      cases v.VK_PIPELINE_STAGE_2_COMPUTE_SHADER_BIT_KHR.testBit i <;>
      cases v.VK_PIPELINE_STAGE_2_ALL_TRANSFER_BIT_KHR.testBit i <;> rfl

/-- The barrier that the loop of `BarrierMultiple` writes for one slot. -/
theorem BarrierMultiple_loop_entries (a : Bool) (t : ShFramebuffers) (v : VkBarrierBits)
    (images : List Nat) (frameIndex : Nat) (bt : BarrierType) (slots : List Nat) :
    ∀ bs, BarrierMultiple_loop a t v images frameIndex bt slots = .returned bs →
      bs.length = slots.length ∧
      ∀ (i slot : Nat) (b : VkImageMemoryBarrier2KHR),
        slots[i]? = some slot → bs[i]? = some b →
        (∃ r, FrameIndexToFBIndex a t slot frameIndex = .returned r ∧
          images[r]? = some b.image) ∧
        b.oldLayout = .VK_IMAGE_LAYOUT_GENERAL ∧ b.newLayout = .VK_IMAGE_LAYOUT_GENERAL ∧
        b.srcAccessMask = srcAccess v bt ∧ b.srcStageMask = srcStage v bt ∧
        b.dstAccessMask = dstAccess v ∧ b.dstStageMask = dstStage v := by
  induction slots with
  | nil =>
    intro bs h
    simp only [BarrierMultiple_loop, Exit.returned.injEq] at h
    subst h
    exact ⟨rfl, fun i slot b hs => by simp at hs⟩
  | cons s rest ih =>
    intro bs h
    unfold BarrierMultiple_loop at h
    rcases hF : FrameIndexToFBIndex a t s frameIndex with r | code | _ | _ <;>
      rw [hF] at h <;> simp only at h
    · rcases hI : images[r]? with _ | img <;> rw [hI] at h <;> simp only at h
      · cases h
      · rcases hL : BarrierMultiple_loop a t v images frameIndex bt rest
          with bs1 | code | _ | _ <;> rw [hL] at h <;> simp only [Exit.map] at h
        · simp only [Exit.returned.injEq] at h
          subst h
          obtain ⟨hlen, hrest⟩ := ih bs1 hL
          refine ⟨by simp [hlen], ?_⟩
          intro i slot b hs hb
          cases i with
          | zero =>
            simp only [List.getElem?_cons_zero, Option.some.injEq] at hs hb
            subst hs hb
            exact ⟨⟨r, hF, hI⟩, rfl, rfl, rfl, rfl, rfl, rfl⟩
          | succ j =>
            simp only [List.getElem?_cons_succ] at hs hb
            exact hrest j slot b hs hb
        · cases h
        · cases h
        · cases h
    · cases h
    · cases h
    · cases h

/-- The loop of `BarrierMultiple` returns when every requested slot resolves
to an index inside `images`. -/
theorem BarrierMultiple_loop_returns (a : Bool) (t : ShFramebuffers) (v : VkBarrierBits)
    (images : List Nat) (frameIndex : Nat) (bt : BarrierType) (slots : List Nat)
    (h : ∀ slot ∈ slots, ∃ r, FrameIndexToFBIndex a t slot frameIndex = .returned r ∧
      r < images.length) :
    ∃ bs, BarrierMultiple_loop a t v images frameIndex bt slots = .returned bs := by
  induction slots with
  | nil => exact ⟨[], rfl⟩
  | cons s rest ih =>
    obtain ⟨r, hF, hr⟩ := h s (List.mem_cons_self _ _)
    obtain ⟨bs1, hL⟩ := ih (fun slot hs => h slot (List.mem_cons_of_mem _ hs))
    unfold BarrierMultiple_loop
    rw [hF]
    simp only [List.getElem?_eq_getElem hr, hL, Exit.map]
    exact ⟨_, rfl⟩

/-- C16: barrier masks are a fixed function of the prior-usage category. In
every `BarrierMultiple` call every emitted entry has the destination access
mask shader write | shader read | colour-attachment write | colour-attachment
read | transfer write | transfer read and the destination stage mask
all-graphics | ray-tracing | compute | all-transfer, whatever the category, and
the source masks of its category: Storage is shader write at all-graphics |
ray-tracing | compute, ColorAttachment is colour-attachment write at
all-graphics, Transfer is transfer write at all-transfer, and All is the
bitwise union of those three access masks and of those three stage masks. For
every category the source masks lie bitwise inside the destination masks. The
call emits one entry per requested slot whenever every slot resolves to an
index inside `images`. -/
theorem C16_barrier_masks (a : Bool) (t : ShFramebuffers) (v : VkBarrierBits)
    (images : List Nat) (frameIndex : Nat) (slots : List Nat) (bt : BarrierType) :
    (∀ bs, BarrierMultiple a t v images frameIndex slots bt = .returned bs →
      ∀ b ∈ bs,
        b.dstAccessMask =
          (v.VK_ACCESS_2_SHADER_WRITE_BIT_KHR ||| v.VK_ACCESS_2_SHADER_READ_BIT_KHR |||
            v.VK_ACCESS_2_COLOR_ATTACHMENT_WRITE_BIT_KHR |||
            v.VK_ACCESS_2_COLOR_ATTACHMENT_READ_BIT_KHR |||
            v.VK_ACCESS_2_TRANSFER_WRITE_BIT_KHR ||| v.VK_ACCESS_2_TRANSFER_READ_BIT_KHR) ∧
        b.dstStageMask =
          (v.VK_PIPELINE_STAGE_2_ALL_GRAPHICS_BIT_KHR |||
            v.VK_PIPELINE_STAGE_2_RAY_TRACING_SHADER_BIT_KHR |||
            v.VK_PIPELINE_STAGE_2_COMPUTE_SHADER_BIT_KHR |||
            v.VK_PIPELINE_STAGE_2_ALL_TRANSFER_BIT_KHR) ∧
        b.srcAccessMask = srcAccess v bt ∧ b.srcStageMask = srcStage v bt) ∧
    (srcAccess v .Storage = v.VK_ACCESS_2_SHADER_WRITE_BIT_KHR ∧
      srcStage v .Storage =
        (v.VK_PIPELINE_STAGE_2_ALL_GRAPHICS_BIT_KHR |||
          v.VK_PIPELINE_STAGE_2_RAY_TRACING_SHADER_BIT_KHR |||
          v.VK_PIPELINE_STAGE_2_COMPUTE_SHADER_BIT_KHR)) ∧
    (srcAccess v .ColorAttachment = v.VK_ACCESS_2_COLOR_ATTACHMENT_WRITE_BIT_KHR ∧
      srcStage v .ColorAttachment = v.VK_PIPELINE_STAGE_2_ALL_GRAPHICS_BIT_KHR) ∧
    (srcAccess v .Transfer = v.VK_ACCESS_2_TRANSFER_WRITE_BIT_KHR ∧
      srcStage v .Transfer = v.VK_PIPELINE_STAGE_2_ALL_TRANSFER_BIT_KHR) ∧
    (srcAccess v .All =
        srcAccess v .Storage ||| srcAccess v .ColorAttachment ||| srcAccess v .Transfer ∧
      srcStage v .All =
        srcStage v .Storage ||| srcStage v .ColorAttachment ||| srcStage v .Transfer) ∧
    (∀ category, srcAccess v category &&& dstAccess v = srcAccess v category ∧
      srcStage v category &&& dstStage v = srcStage v category) ∧
    ((∀ slot ∈ slots, ∃ r, FrameIndexToFBIndex a t slot frameIndex = .returned r ∧
        r < images.length) →
      ∃ bs, BarrierMultiple a t v images frameIndex slots bt = .returned bs ∧
        bs.length = slots.length) := by
  obtain ⟨hA, hS, hsubA, hsubS⟩ := barrier_mask_algebra v
  refine ⟨?_, ⟨rfl, rfl⟩, ⟨rfl, rfl⟩, ⟨rfl, rfl⟩, ⟨hA, hS⟩,
    fun c => ⟨hsubA c, hsubS c⟩, ?_⟩
  · intro bs h b hb
    obtain ⟨hlen, hent⟩ := BarrierMultiple_loop_entries a t v images frameIndex bt slots bs h
    obtain ⟨i, hi, hbi⟩ := List.getElem_of_mem hb
    have hi2 : i < slots.length := by omega
    obtain ⟨-, -, -, h1, h2, h3, h4⟩ := hent i slots[i] b
      (List.getElem?_eq_getElem hi2) (by rw [List.getElem?_eq_getElem hi, hbi])
    exact ⟨h3, h4, h1, h2⟩
  · intro hres
    obtain ⟨bs, h⟩ := BarrierMultiple_loop_returns a t v images frameIndex bt slots hres
    exact ⟨bs, h, (BarrierMultiple_loop_entries a t v images frameIndex bt slots bs h).1⟩

/-- Witness for C16: a Transfer barrier on slots 0 and 1 of the sample table at
frame index 1, with the bit values of the Vulkan headers. -/
theorem C16_barrier_masks_witness :
    ∃ bs, BarrierMultiple true sampleTables vulkanBarrierBits [20, 21, 22] 1 [0, 1]
        .Transfer = .returned bs ∧ bs.length = 2 ∧
      bs.map (fun b => (b.srcAccessMask, b.srcStageMask, b.dstAccessMask, b.dstStageMask)) =
        [(0x1000, 0x1000, 0x19E0, 0x209800), (0x1000, 0x1000, 0x19E0, 0x209800)] := by
  obtain ⟨bs, h, hlen⟩ :=
    (C16_barrier_masks true sampleTables vulkanBarrierBits [20, 21, 22] 1 [0, 1]
      .Transfer).2.2.2.2.2.2 (by
      intro slot hs
      simp only [List.mem_cons, List.mem_singleton, List.not_mem_nil, or_false] at hs
      rcases hs with rfl | rfl
      · exact ⟨0, by decide, by decide⟩
      · exact ⟨2, by decide, by decide⟩)
  refine ⟨bs, h, hlen, ?_⟩
  have hd : BarrierMultiple true sampleTables vulkanBarrierBits [20, 21, 22] 1 [0, 1]
      .Transfer =
    .returned
      [{ image := 20, srcAccessMask := 0x1000, dstAccessMask := 0x19E0,
         srcStageMask := 0x1000, dstStageMask := 0x209800,
         oldLayout := .VK_IMAGE_LAYOUT_GENERAL, newLayout := .VK_IMAGE_LAYOUT_GENERAL },
       { image := 22, srcAccessMask := 0x1000, dstAccessMask := 0x19E0,
         srcStageMask := 0x1000, dstStageMask := 0x209800,
         oldLayout := .VK_IMAGE_LAYOUT_GENERAL, newLayout := .VK_IMAGE_LAYOUT_GENERAL }] := by
    decide
  rw [hd] at h
  cases h
  rfl

/-- C17: barriers never change the image layout. For every frame index,
category and list of slots, the entries emitted by `BarrierMultiple` are one
per requested slot, each with `oldLayout` and `newLayout` equal to GENERAL and
with the image `images[FrameIndexToFBIndex(slot, frameIndex)]` of its slot; the
same holds for the single entry of `BarrierOne`. Both calls emit their entries
whenever every requested slot resolves to an index inside `images`. -/
theorem C17_barriers_keep_layout (a : Bool) (t : ShFramebuffers) (v : VkBarrierBits)
    (images : List Nat) (frameIndex : Nat) (slots : List Nat) (bt : BarrierType)
    (framebufferImageIndex : Nat) :
    (∀ bs, BarrierMultiple a t v images frameIndex slots bt = .returned bs →
      bs.length = slots.length ∧
      ∀ (i slot : Nat) (b : VkImageMemoryBarrier2KHR),
        slots[i]? = some slot → bs[i]? = some b →
        b.oldLayout = .VK_IMAGE_LAYOUT_GENERAL ∧ b.newLayout = .VK_IMAGE_LAYOUT_GENERAL ∧
        ∃ r, FrameIndexToFBIndex a t slot frameIndex = .returned r ∧
          images[r]? = some b.image) ∧
    ((∀ slot ∈ slots, ∃ r, FrameIndexToFBIndex a t slot frameIndex = .returned r ∧
        r < images.length) →
      ∃ bs, BarrierMultiple a t v images frameIndex slots bt = .returned bs) ∧
    (∀ bs, BarrierOne a t v images frameIndex framebufferImageIndex = .returned bs →
      ∃ b, bs = [b] ∧
        b.oldLayout = .VK_IMAGE_LAYOUT_GENERAL ∧ b.newLayout = .VK_IMAGE_LAYOUT_GENERAL ∧
        ∃ r, FrameIndexToFBIndex a t framebufferImageIndex frameIndex = .returned r ∧
          images[r]? = some b.image) ∧
    ((∃ r, FrameIndexToFBIndex a t framebufferImageIndex frameIndex = .returned r ∧
        r < images.length) →
      ∃ bs, BarrierOne a t v images frameIndex framebufferImageIndex = .returned bs) := by
  refine ⟨?_, ?_, ?_, ?_⟩
  · intro bs h
    obtain ⟨hlen, hent⟩ := BarrierMultiple_loop_entries a t v images frameIndex bt slots bs h
    refine ⟨hlen, fun i slot b hs hb => ?_⟩
    obtain ⟨hr, h1, h2, -⟩ := hent i slot b hs hb
    exact ⟨h1, h2, hr⟩
  · exact BarrierMultiple_loop_returns a t v images frameIndex bt slots
  · intro bs h
    obtain ⟨hlen, hent⟩ := BarrierMultiple_loop_entries a t v images frameIndex .All
      [framebufferImageIndex] bs h
    match bs, hlen with
    | [b], _ =>
      obtain ⟨hr, h1, h2, -⟩ := hent 0 framebufferImageIndex b rfl rfl
      exact ⟨b, rfl, h1, h2, hr⟩
  · intro hres
    apply BarrierMultiple_loop_returns a t v images frameIndex .All [framebufferImageIndex]
    intro slot hs
    rw [List.mem_singleton] at hs
    subst hs
    exact hres

/-- Witness for C17: slots 0 and 1 of the sample table at frame index 1 get the
barriers on the images 20 and 22, both in the GENERAL layout. -/
theorem C17_barriers_keep_layout_witness :
    ∃ bs, BarrierMultiple true sampleTables vulkanBarrierBits [20, 21, 22] 1 [0, 1]
        .Storage = .returned bs ∧
      bs.map (fun b => (b.image, b.oldLayout, b.newLayout)) =
        [(20, .VK_IMAGE_LAYOUT_GENERAL, .VK_IMAGE_LAYOUT_GENERAL),
         (22, .VK_IMAGE_LAYOUT_GENERAL, .VK_IMAGE_LAYOUT_GENERAL)] := by
  obtain ⟨bs, h⟩ :=
    (C17_barriers_keep_layout true sampleTables vulkanBarrierBits [20, 21, 22] 1 [0, 1]
      .Storage 0).2.1 (by
      intro slot hs
      simp only [List.mem_cons, List.mem_singleton, List.not_mem_nil, or_false] at hs
      rcases hs with rfl | rfl
      · exact ⟨0, by decide, by decide⟩
      · exact ⟨2, by decide, by decide⟩)
  refine ⟨bs, h, ?_⟩
  have hd : BarrierMultiple true sampleTables vulkanBarrierBits [20, 21, 22] 1 [0, 1]
      .Storage =
    .returned
      [{ image := 20, srcAccessMask := 0x40, dstAccessMask := 0x19E0,
         srcStageMask := 0x208800, dstStageMask := 0x209800,
         oldLayout := .VK_IMAGE_LAYOUT_GENERAL, newLayout := .VK_IMAGE_LAYOUT_GENERAL },
       { image := 22, srcAccessMask := 0x40, dstAccessMask := 0x19E0,
         srcStageMask := 0x208800, dstStageMask := 0x209800,
         oldLayout := .VK_IMAGE_LAYOUT_GENERAL, newLayout := .VK_IMAGE_LAYOUT_GENERAL }] := by
    decide
  rw [hd] at h
  cases h
  rfl

/-! ## Theorems: EffectSimple -/

/-- C18: the transition rule of `EffectSimple::Setup`. For every prior state
and every call `Setup(now, isActive, durationIn, durationOut)`: if `isActive`
differs from the stored activation flag, then afterwards `transitionBeginTime`
is `now` and (`transitionType`, `transitionDuration`) is (0, `durationIn`) when
activating and (1, `durationOut`) when deactivating; if `isActive` equals the
stored flag, the three transition fields are unchanged. In all cases the
stored flag becomes `isActive`. -/
theorem C18_setup_transition {T : Type} [Sub T] [LE T] [DecidableRel (fun a b : T => a ≤ b)]
    (e : EffectSimple T) (now : T) (isActive : Bool) (durationIn durationOut : T) :
    (isActive ≠ e.isCurrentlyActive →
      (e.Setup now isActive durationIn durationOut).2.transitionBeginTime = now ∧
      (isActive = true →
        (e.Setup now isActive durationIn durationOut).2.transitionType = 0 ∧
        (e.Setup now isActive durationIn durationOut).2.transitionDuration = durationIn) ∧
      (isActive = false →
        (e.Setup now isActive durationIn durationOut).2.transitionType = 1 ∧
        (e.Setup now isActive durationIn durationOut).2.transitionDuration = durationOut)) ∧
    (isActive = e.isCurrentlyActive →
      (e.Setup now isActive durationIn durationOut).2.transitionType = e.transitionType ∧
      (e.Setup now isActive durationIn durationOut).2.transitionBeginTime =
        e.transitionBeginTime ∧
      (e.Setup now isActive durationIn durationOut).2.transitionDuration =
        e.transitionDuration) ∧
    (e.Setup now isActive durationIn durationOut).2.isCurrentlyActive = isActive := by
  cases isActive <;> cases hw : e.isCurrentlyActive <;>
    simp [EffectSimple.Setup, hw]

/-- Witness for C18: a fresh effect activated at time 5 with durations 2 and 3,
over the integers. -/
theorem C18_setup_transition_witness :
    true ≠ (EffectSimple.construct : EffectSimple Int).isCurrentlyActive ∧
    ((EffectSimple.construct : EffectSimple Int).Setup 5 true 2 3).2.transitionBeginTime = 5 ∧
    ((EffectSimple.construct : EffectSimple Int).Setup 5 true 2 3).2.transitionType = 0 ∧
    ((EffectSimple.construct : EffectSimple Int).Setup 5 true 2 3).2.transitionDuration = 2 :=
  have h := (C18_setup_transition (EffectSimple.construct : EffectSimple Int) 5 true 2 3).1
    (by decide)
  ⟨by decide, h.1, (h.2.1 rfl).1, (h.2.1 rfl).2⟩

/-- The value `Setup` returns, in terms of the state it leaves. -/
theorem Setup_fst {T : Type} [Sub T] [LE T] [DecidableRel (fun a b : T => a ≤ b)]
    (e : EffectSimple T) (now : T) (isActive : Bool) (durationIn durationOut : T) :
    (e.Setup now isActive durationIn durationOut).1 =
      ((e.Setup now isActive durationIn durationOut).2.isCurrentlyActive ||
        (decide ((e.Setup now isActive durationIn durationOut).2.transitionType = 1) &&
          decide (now - (e.Setup now isActive durationIn durationOut).2.transitionBeginTime ≤
            (e.Setup now isActive durationIn durationOut).2.transitionDuration))) :=
  rfl

/-- A fresh effect agrees with the empty history. -/
theorem agrees_construct {T : Type} [Zero T] (durationOut : T) :
    agrees durationOut (EffectSimple.construct : EffectSimple T) (false, none) :=
  ⟨rfl, rfl, rfl⟩

/-- One `Setup` call keeps the state in agreement with the tracked history. -/
theorem agrees_step {T : Type} [Sub T] [LE T] [DecidableRel (fun a b : T => a ≤ b)]
    (durationIn durationOut : T) (e : EffectSimple T) (st : Bool × Option (Bool × T))
    (c : T × Bool) (h : agrees durationOut e st) :
    agrees durationOut (e.Setup c.1 c.2 durationIn durationOut).2 (trackStep st c) := by
  obtain ⟨now, a⟩ := c
  obtain ⟨flag, last⟩ := st
  obtain ⟨hflag, hlast⟩ := h
  simp only at hflag hlast
  cases a <;> cases flag <;>
    rcases last with _ | ⟨_ | _, t⟩ <;>
    simp_all [agrees, trackStep, EffectSimple.Setup]

/-- A history of `Setup` calls keeps the state in agreement with the tracked
history. -/
theorem agrees_run {T : Type} [Sub T] [LE T] [DecidableRel (fun a b : T => a ≤ b)]
    (durationIn durationOut : T) (history : List (T × Bool)) :
    ∀ (e : EffectSimple T) (st : Bool × Option (Bool × T)), agrees durationOut e st →
      agrees durationOut (e.runSetup (fixedCalls durationIn durationOut history))
        (trackChange st history) := by
  induction history with
  | nil => intro e st h; exact h
  | cons c rest ih =>
    intro e st h
    exact ih _ _ (agrees_step durationIn durationOut e st c h)

/-- Tracking a history with one more call at its end. -/
theorem trackChange_append {T : Type} (history : List (T × Bool)) (c : T × Bool) :
    ∀ st : Bool × Option (Bool × T),
      trackChange st (history ++ [c]) = trackStep (trackChange st history) c := by
  induction history with
  | nil => intro st; rfl
  | cons d rest ih => intro st; exact ih (trackStep st d)

/-- After a call the tracked flag is the `isActive` of the call. -/
theorem trackStep_fst {T : Type} (st : Bool × Option (Bool × T)) (c : T × Bool) :
    (trackStep st c).1 = c.2 := by
  unfold trackStep
  by_cases h : c.2 = st.1
  · simp [h]
  · simp [h]

/-- A history without an activation leaves nothing to track. -/
theorem trackChange_inactive {T : Type} (history : List (T × Bool))
    (h : ∀ c ∈ history, c.2 = false) :
    trackChange ((false, none) : Bool × Option (Bool × T)) history = (false, none) := by
  induction history with
  | nil => rfl
  | cons c rest ih =>
    have hc : c.2 = false := h c (List.mem_cons_self _ _)
    have hs : trackStep ((false, none) : Bool × Option (Bool × T)) c = (false, none) := by
      simp [trackStep, hc]
    show trackChange (trackStep (false, none) c) rest = (false, none)
    rw [hs]
    exact ih (fun d hd => h d (List.mem_cons_of_mem _ hd))

/-- The value of a `Setup` call after a history with fixed durations, in terms
of the most recent change of the activation flag. -/
theorem Setup_after_history {T : Type} [Zero T] [Sub T] [LE T]
    [DecidableRel (fun a b : T => a ≤ b)]
    (durationIn durationOut : T) (history : List (T × Bool)) (now : T) (isActive : Bool) :
    (((EffectSimple.construct : EffectSimple T).runSetup
        (fixedCalls durationIn durationOut history)).Setup
        now isActive durationIn durationOut).1 = true ↔
      isActive = true ∨
      ∃ beginTime, lastChange (history ++ [(now, isActive)]) = some (false, beginTime) ∧
        now - beginTime ≤ durationOut := by
  have hag := agrees_run durationIn durationOut history _ _ (agrees_construct durationOut)
  have hstep := agrees_step durationIn durationOut _ _ (now, isActive) hag
  have hfst := trackStep_fst (trackChange ((false, none) : Bool × Option (Bool × T)) history)
    (now, isActive)
  have hlast : lastChange (history ++ [(now, isActive)]) =
      (trackStep (trackChange (false, none) history) (now, isActive)).2 := by
    unfold lastChange
    rw [trackChange_append]
  rw [Setup_fst, hlast]
  obtain ⟨hflag, hrest⟩ := hstep
  simp only at hflag hrest hfst
  rw [hfst] at hflag
  rw [hflag]
  rcases hl : (trackStep (trackChange ((false, none) : Bool × Option (Bool × T)) history)
      (now, isActive)).2 with _ | ⟨_ | _, t⟩
  · rw [hl] at hrest
    simp [hrest.1]
  · rw [hl] at hrest
    obtain ⟨ht, hb, hd, hf⟩ := hrest
    rw [hfst] at hf
    subst hf
    simp [ht, hb, hd]
  · rw [hl] at hrest
    obtain ⟨ht, hf⟩ := hrest
    rw [hfst] at hf
    subst hf
    simp

/-- C19: the should-execute result of `EffectSimple::Setup`, times being exact
numbers. For every sequence of `Setup` calls on a freshly constructed effect
made with fixed `durationIn` and `durationOut`, a call with arguments
(`now`, `isActive`) returns true exactly when `isActive` is true, or the most
recent change of the activation flag (this call included) was a deactivation
at a time `beginTime` with `now - beginTime <= durationOut`. In particular a
never-activated effect queried with `isActive` false returns false, and at the
boundary `now - beginTime = durationOut` the call still returns true. -/
theorem C19_should_execute {T : Type} [Zero T] [Sub T] [Preorder T]
    [DecidableRel (fun a b : T => a ≤ b)]
    (durationIn durationOut : T) (history : List (T × Bool)) (now : T) (isActive : Bool) :
    ((((EffectSimple.construct : EffectSimple T).runSetup
        (fixedCalls durationIn durationOut history)).Setup
        now isActive durationIn durationOut).1 = true ↔
      isActive = true ∨
      ∃ beginTime, lastChange (history ++ [(now, isActive)]) = some (false, beginTime) ∧
        now - beginTime ≤ durationOut) ∧
    ((∀ c ∈ history, c.2 = false) →
      (((EffectSimple.construct : EffectSimple T).runSetup
        (fixedCalls durationIn durationOut history)).Setup
        now false durationIn durationOut).1 = false) ∧
    (∀ beginTime, lastChange (history ++ [(now, false)]) = some (false, beginTime) →
      now - beginTime = durationOut →
      (((EffectSimple.construct : EffectSimple T).runSetup
        (fixedCalls durationIn durationOut history)).Setup
        now false durationIn durationOut).1 = true) := by
  refine ⟨Setup_after_history durationIn durationOut history now isActive, ?_, ?_⟩
  · intro hall
    have hiff := Setup_after_history durationIn durationOut history now false
    have hnone : lastChange (history ++ [(now, false)]) = none := by
      unfold lastChange
      rw [trackChange_append, trackChange_inactive history hall]
      simp [trackStep]
    rw [hnone] at hiff
    cases hv : (((EffectSimple.construct : EffectSimple T).runSetup
        (fixedCalls durationIn durationOut history)).Setup
        now false durationIn durationOut).1
    · rfl
    · have := hiff.mp hv
      simp at this
  · intro beginTime hlast hb
    exact (Setup_after_history durationIn durationOut history now false).mpr
      (Or.inr ⟨beginTime, hlast, le_of_eq hb⟩)

/-- Witness for C19 over the integers, with durations 2 and 3: activated at
time 1 and deactivated at time 10, the effect still executes at time 13 (the
boundary) and no longer at time 14. -/
theorem C19_should_execute_witness :
    lastChange ([((1 : Int), true), (10, false)] ++ [(13, false)]) = some (false, 10) ∧
    (((EffectSimple.construct : EffectSimple Int).runSetup
        (fixedCalls 2 3 [(1, true), (10, false)])).Setup 13 false 2 3).1 = true ∧
    (((EffectSimple.construct : EffectSimple Int).runSetup
        (fixedCalls 2 3 [(1, true), (10, false)])).Setup 14 false 2 3).1 = false :=
  have hl : lastChange ([((1 : Int), true), (10, false)] ++ [(13, false)]) =
      some (false, 10) := by decide
  ⟨hl,
    (C19_should_execute (2 : Int) 3 [(1, true), (10, false)] 13 false).2.2 10 hl (by decide),
    by decide⟩

/-- A call with `isActive` false on an inactive effect changes nothing. -/
theorem Setup_inactive_state {T : Type} [Sub T] [LE T] [DecidableRel (fun a b : T => a ≤ b)]
    (e : EffectSimple T) (now durationIn durationOut : T)
    (h : e.isCurrentlyActive = false) :
    (e.Setup now false durationIn durationOut).2 = e := by
  cases e
  simp only at h
  subst h
  rfl

/-- Calls with `isActive` false leave an inactive effect as it is. -/
theorem runSetup_inactive {T : Type} [Sub T] [LE T] [DecidableRel (fun a b : T => a ≤ b)]
    (later : List (SetupCall T)) (hl : ∀ c ∈ later, c.isActive = false) :
    ∀ e : EffectSimple T, e.isCurrentlyActive = false → e.runSetup later = e := by
  induction later with
  | nil => intro e _; rfl
  | cons c rest ih =>
    intro e he
    have hc : c.isActive = false := hl c (List.mem_cons_self _ _)
    show EffectSimple.runSetup
      (e.Setup c.currentTime c.isActive c.transitionDurationIn c.transitionDurationOut).2 rest = e
    rw [hc, Setup_inactive_state e _ _ _ he]
    exact ih (fun d hd => hl d (List.mem_cons_of_mem _ hd)) e he

/-- After a call the stored activation flag is the `isActive` of the call. -/
theorem Setup_stores_flag {T : Type} [Sub T] [LE T]
    [DecidableRel (fun a b : T => a ≤ b)]
    (e : EffectSimple T) (now : T) (isActive : Bool) (durationIn durationOut : T) :
    (e.Setup now isActive durationIn durationOut).2.isCurrentlyActive = isActive := by
  cases isActive <;> cases hw : e.isCurrentlyActive <;> simp [EffectSimple.Setup, hw]

/-! ## Theorems: EffectSimple, the fade-out tail -/

/-- Rounding leaves every number below `2 ^ 24` as it is. -/
theorem roundSingle_small (m : Nat) (h : m < 2 ^ 24) : roundSingle m = m := by
  have hk : droppedBits m m = 0 := by
    cases m with
    | zero => rfl
    | succ n =>
      unfold droppedBits
      rw [if_pos h]
  have hr : ¬ (2 * (m % 2 ^ 0) > 2 ^ 0 ∨ (2 * (m % 2 ^ 0) = 2 ^ 0 ∧ m / 2 ^ 0 % 2 = 1)) := by
    simp only [pow_zero, Nat.mod_one, Nat.div_one]
    omega
  unfold roundSingle
  simp only [hk]
  rw [if_neg hr]
  simp

/-- The number of dropped bits leaves a significand below `2 ^ 24`, and when
bits are dropped the significand has its top bit set. -/
theorem droppedBits_spec : ∀ (fuel m : Nat), m ≤ fuel →
    m / 2 ^ droppedBits fuel m < 2 ^ 24 ∧
    (droppedBits fuel m = 0 ∨ 2 ^ 23 ≤ m / 2 ^ droppedBits fuel m) := by
  intro fuel
  induction fuel with
  | zero =>
    intro m h
    have h0 : m = 0 := by omega
    subst h0
    simp [droppedBits]
  | succ f ih =>
    intro m h
    unfold droppedBits
    by_cases hm : m < 2 ^ 24
    · rw [if_pos hm]
      simp only [pow_zero, Nat.div_one, true_or, and_true]
      exact hm
    · rw [if_neg hm]
      have h2 : m / 2 ≤ f := by omega
      obtain ⟨h3, h4⟩ := ih (m / 2) h2
      have e : m / 2 ^ (droppedBits f (m / 2) + 1) = m / 2 / 2 ^ droppedBits f (m / 2) := by
        rw [pow_succ, Nat.mul_comm, Nat.div_div_eq_div_mul]
      rw [e]
      refine ⟨h3, Or.inr ?_⟩
      rcases h4 with h4 | h4
      · rw [h4]
        simp only [pow_zero, Nat.div_one]
        omega
      · exact h4

/-- The rounded number lies between the truncated significand and the next
one. -/
theorem roundSingle_bounds (m : Nat) :
    m / 2 ^ droppedBits m m * 2 ^ droppedBits m m ≤ roundSingle m ∧
    roundSingle m ≤ (m / 2 ^ droppedBits m m + 1) * 2 ^ droppedBits m m := by
  unfold roundSingle
  simp only
  split_ifs
  · exact ⟨Nat.mul_le_mul_right _ (Nat.le_succ _), le_rfl⟩
  · exact ⟨le_rfl, Nat.mul_le_mul_right _ (Nat.le_succ _)⟩

/-- Rounding is monotone. -/
theorem roundSingle_mono (a b : Nat) (h : a ≤ b) : roundSingle a ≤ roundSingle b := by
  obtain ⟨ha1, ha2⟩ := droppedBits_spec a a le_rfl
  obtain ⟨hb1, hb2⟩ := droppedBits_spec b b le_rfl
  obtain ⟨hal, hah⟩ := roundSingle_bounds a
  obtain ⟨hbl, hbh⟩ := roundSingle_bounds b
  have hA : 0 < 2 ^ droppedBits a a := Nat.pos_pow_of_pos _ (by norm_num)
  have hB : 0 < 2 ^ droppedBits b b := Nat.pos_pow_of_pos _ (by norm_num)
  rcases Nat.lt_trichotomy (droppedBits a a) (droppedBits b b) with hk | hk | hk
  · have hAB : 2 * 2 ^ droppedBits a a ≤ 2 ^ droppedBits b b := by
      calc 2 * 2 ^ droppedBits a a = 2 ^ (droppedBits a a + 1) := by rw [pow_succ, Nat.mul_comm]
        _ ≤ 2 ^ droppedBits b b := Nat.pow_le_pow_right (by norm_num) hk
    have hq : 2 ^ 23 ≤ b / 2 ^ droppedBits b b := by
      rcases hb2 with h0 | h0
      · omega
      · exact h0
    have h1 : (a / 2 ^ droppedBits a a + 1) * 2 ^ droppedBits a a ≤
        2 ^ 24 * 2 ^ droppedBits a a := Nat.mul_le_mul_right _ ha1
    have h2 : 2 ^ 23 * 2 ^ droppedBits b b ≤ b / 2 ^ droppedBits b b * 2 ^ droppedBits b b :=
      Nat.mul_le_mul_right _ hq
    generalize 2 ^ droppedBits a a = A at *
    generalize 2 ^ droppedBits b b = B at *
    omega
  · rw [← hk] at hb1 hb2 hbl hbh hB
    rcases Nat.lt_or_ge (a / 2 ^ droppedBits a a) (b / 2 ^ droppedBits a a) with hq | hq
    · have h1 : (a / 2 ^ droppedBits a a + 1) * 2 ^ droppedBits a a ≤
          b / 2 ^ droppedBits a a * 2 ^ droppedBits a a := Nat.mul_le_mul_right _ hq
      omega
    · have hq2 : b / 2 ^ droppedBits a a = a / 2 ^ droppedBits a a :=
        le_antisymm hq (Nat.div_le_div_right h)
      have hr : a % 2 ^ droppedBits a a ≤ b % 2 ^ droppedBits a a := by
        have e1 := Nat.div_add_mod a (2 ^ droppedBits a a)
        have e2 := Nat.div_add_mod b (2 ^ droppedBits a a)
        rw [hq2] at e2
        omega
      unfold roundSingle
      simp only
      rw [← hk, hq2]
      have hstep : a / 2 ^ droppedBits a a * 2 ^ droppedBits a a ≤
          (a / 2 ^ droppedBits a a + 1) * 2 ^ droppedBits a a :=
        Nat.mul_le_mul_right _ (Nat.le_succ _)
      split_ifs with c1 c2 c2
      · exact le_rfl
      · exfalso
        apply c2
        rcases c1 with c1 | c1
        · left
          omega
        · rcases Nat.lt_or_ge (2 ^ droppedBits a a) (2 * (b % 2 ^ droppedBits a a)) with c3 | c3
          · left
            exact c3
          · right
            exact ⟨by omega, c1.2⟩
      · exact hstep
      · exact le_rfl
  · exfalso
    have hAB : 2 * 2 ^ droppedBits b b ≤ 2 ^ droppedBits a a := by
      calc 2 * 2 ^ droppedBits b b = 2 ^ (droppedBits b b + 1) := by rw [pow_succ, Nat.mul_comm]
        _ ≤ 2 ^ droppedBits a a := Nat.pow_le_pow_right (by norm_num) hk
    have hq : 2 ^ 23 ≤ a / 2 ^ droppedBits a a := by
      rcases ha2 with h0 | h0
      · omega
      · exact h0
    have h1 : 2 ^ 23 * 2 ^ droppedBits a a ≤ a := (Nat.le_div_iff_mul_le hA).mp hq
    have h2 : b < 2 ^ 24 * 2 ^ droppedBits b b := (Nat.div_lt_iff_lt_mul hB).mp hb1
    generalize 2 ^ droppedBits a a = A at *
    generalize 2 ^ droppedBits b b = B at *
    omega

/-- The subtraction of `IntegralFloat` is monotone in the minuend: a later
time gives a difference that is not smaller. -/
theorem IntegralFloat.sub_mono (a b c : IntegralFloat) (h : a ≤ b) : a - c ≤ b - c := by
  have hab : a.value ≤ b.value := h
  have hx : a.value - c.value ≤ b.value - c.value := Int.sub_le_sub_right hab _
  show (a.value - c.value).sign * (roundSingle (a.value - c.value).natAbs : Int) ≤
    (b.value - c.value).sign * (roundSingle (b.value - c.value).natAbs : Int)
  generalize a.value - c.value = x at hx
  generalize b.value - c.value = y at hx
  rcases lt_trichotomy x 0 with hx0 | hx0 | hx0
  · rw [Int.sign_eq_neg_one_of_neg hx0]
    rcases lt_trichotomy y 0 with hy0 | hy0 | hy0
    · rw [Int.sign_eq_neg_one_of_neg hy0]
      have hm : roundSingle y.natAbs ≤ roundSingle x.natAbs :=
        roundSingle_mono _ _ (by omega)
      omega
    · subst hy0
      simp
    · rw [Int.sign_eq_one_of_pos hy0]
      omega
  · subst hx0
    rcases lt_or_eq_of_le hx with hy0 | hy0
    · rw [Int.sign_eq_one_of_pos hy0]
      simp
    · rw [← hy0]
  · have hy0 : 0 < y := lt_of_lt_of_le hx0 hx
    rw [Int.sign_eq_one_of_pos hx0, Int.sign_eq_one_of_pos hy0]
    have hm : roundSingle x.natAbs ≤ roundSingle y.natAbs :=
      roundSingle_mono _ _ (by omega)
    omega

/-- Fade-out tail expiry in terms of the difference that line 80 computes, for
a time type whose subtraction is monotone in the minuend. -/
theorem fade_out_expiry_computed {T : Type} [Preorder T] [Sub T]
    [DecidableRel (fun a b : T => a ≤ b)]
    (hmono : ∀ a b c : T, a ≤ b → a - c ≤ b - c)
    (e : EffectSimple T) (later : List (SetupCall T))
    (hlater : ∀ c ∈ later, c.isActive = false) :
    (∀ t2 durationIn d now durationIn1 durationOut1,
      e.isCurrentlyActive = true → ¬ (now - t2 ≤ d) →
      (((e.Setup t2 false durationIn d).2.runSetup later).Setup
        now false durationIn1 durationOut1).1 = false) ∧
    (∀ now durationIn durationOut now1 durationIn1 durationOut1,
      (e.Setup now false durationIn durationOut).1 = false → now ≤ now1 →
      (((e.Setup now false durationIn durationOut).2.runSetup later).Setup
        now1 false durationIn1 durationOut1).1 = false) ∧
    (∀ now durationIn durationOut, (e.Setup now true durationIn durationOut).1 = true) := by
  refine ⟨?_, ?_, ?_⟩
  · intro t2 durationIn d now durationIn1 durationOut1 hact hnot
    have hin : (e.Setup t2 false durationIn d).2.isCurrentlyActive = false :=
      (Setup_stores_flag e t2 false durationIn d)
    rw [runSetup_inactive later hlater _ hin, Setup_fst,
      Setup_inactive_state _ now durationIn1 durationOut1 hin, hin]
    have hb : (e.Setup t2 false durationIn d).2.transitionBeginTime = t2 := by
      simp [EffectSimple.Setup, hact]
    have hd : (e.Setup t2 false durationIn d).2.transitionDuration = d := by
      simp [EffectSimple.Setup, hact]
    rw [hb, hd]
    simp [hnot]
  · intro now durationIn durationOut now1 durationIn1 durationOut1 hfalse hle
    have hin : (e.Setup now false durationIn durationOut).2.isCurrentlyActive = false :=
      (Setup_stores_flag e now false durationIn durationOut)
    rw [Setup_fst, hin] at hfalse
    rw [runSetup_inactive later hlater _ hin, Setup_fst,
      Setup_inactive_state _ now1 durationIn1 durationOut1 hin, hin]
    simp only [Bool.false_or, Bool.and_eq_false_imp, decide_eq_true_eq,
      decide_eq_false_iff_not] at hfalse ⊢
    intro ht hle1
    exact hfalse ht (le_trans (hmono _ _ _ hle) hle1)
  · intro now durationIn durationOut
    cases hw : e.isCurrentlyActive <;> simp [EffectSimple.Setup, hw]

/-- Fade-out tail expiry with exact numbers for the times: a reading of
`now > t2 + d` that needs no rounding. -/
theorem fade_out_expiry_exact {T : Type} [LinearOrderedAddCommGroup T]
    (e : EffectSimple T) (later : List (SetupCall T))
    (hlater : ∀ c ∈ later, c.isActive = false) :
    (∀ t2 durationIn d now durationIn1 durationOut1,
      e.isCurrentlyActive = true → t2 + d < now →
      (((e.Setup t2 false durationIn d).2.runSetup later).Setup
        now false durationIn1 durationOut1).1 = false) ∧
    (∀ now durationIn durationOut now1 durationIn1 durationOut1,
      (e.Setup now false durationIn durationOut).1 = false → now ≤ now1 →
      (((e.Setup now false durationIn durationOut).2.runSetup later).Setup
        now1 false durationIn1 durationOut1).1 = false) ∧
    (∀ now durationIn durationOut, (e.Setup now true durationIn durationOut).1 = true) := by
  refine ⟨?_, ?_, ?_⟩
  · intro t2 durationIn d now durationIn1 durationOut1 hact hlt
    have hin : (e.Setup t2 false durationIn d).2.isCurrentlyActive = false :=
      (Setup_stores_flag e t2 false durationIn d)
    rw [runSetup_inactive later hlater _ hin, Setup_fst,
      Setup_inactive_state _ now durationIn1 durationOut1 hin, hin]
    have hb : (e.Setup t2 false durationIn d).2.transitionBeginTime = t2 := by
      simp [EffectSimple.Setup, hact]
    have hd : (e.Setup t2 false durationIn d).2.transitionDuration = d := by
      simp [EffectSimple.Setup, hact]
    rw [hb, hd]
    have hnot : ¬ (now - t2 ≤ d) := by
      rw [sub_le_iff_le_add', not_le]
      exact hlt
    simp [hnot]
  · intro now durationIn durationOut now1 durationIn1 durationOut1 hfalse hle
    have hin : (e.Setup now false durationIn durationOut).2.isCurrentlyActive = false :=
      (Setup_stores_flag e now false durationIn durationOut)
    rw [Setup_fst, hin] at hfalse
    rw [runSetup_inactive later hlater _ hin, Setup_fst,
      Setup_inactive_state _ now1 durationIn1 durationOut1 hin, hin]
    simp only [Bool.false_or, Bool.and_eq_false_imp, decide_eq_true_eq,
      decide_eq_false_iff_not] at hfalse ⊢
    intro ht hle1
    exact hfalse ht (le_trans (sub_le_sub_right hle _) hle1)
  · intro now durationIn durationOut
    cases hw : e.isCurrentlyActive <;> simp [EffectSimple.Setup, hw]

/-- C20 (counterexample): with the times of the source, which are `float`, an
effect activated at time 0 and deactivated at time `t2` = 1 with fade-out
duration `d` = 16777216 still executes at time `now` = 16777218, although
`now > t2 + d`. The three numbers are values of `float`; the difference
`now - t2` = 16777217 is not, it is rounded to 16777216, and the comparison of
line 80 finds `16777216 <= d`. -/
theorem C20_fade_out_outlives_duration :
    IntegralFloat.representable ⟨1⟩ ∧ IntegralFloat.representable ⟨16777216⟩ ∧
    IntegralFloat.representable ⟨16777218⟩ ∧
    (⟨1⟩ : IntegralFloat).value + (⟨16777216⟩ : IntegralFloat).value <
      (⟨16777218⟩ : IntegralFloat).value ∧
    (⟨16777218⟩ - ⟨1⟩ : IntegralFloat) = ⟨16777216⟩ ∧
    ((EffectSimple.construct : EffectSimple IntegralFloat).Setup
      ⟨0⟩ true ⟨2⟩ ⟨16777216⟩).2.isCurrentlyActive = true ∧
    ((((EffectSimple.construct : EffectSimple IntegralFloat).Setup
      ⟨0⟩ true ⟨2⟩ ⟨16777216⟩).2.Setup
      ⟨1⟩ false ⟨2⟩ ⟨16777216⟩).2.Setup
      ⟨16777218⟩ false ⟨2⟩ ⟨16777216⟩).1 = true := by
  decide

/-- C20 (amended): fade-out tail expiry, in two readings of the times.
With the times as the code computes with them (a time type whose subtraction
is monotone in the minuend, as the rounded subtraction of `float` is): after a
deactivating `Setup` call at time `t2` with fade-out duration `d`, every later
call with `isActive` false at which the computed difference `now - t2` is not
`<= d` returns false, the calls in between being calls with `isActive` false;
once a call with `isActive` false has returned false at time `now`, every
further call with `isActive` false at a time not before `now` also returns
false, as long as no call with `isActive` true is made; a call with `isActive`
true returns true in every state, so an effect that stays active keeps
returning true, also past `beginTime + durationIn`. With times that are exact
numbers, the same holds with `now > t2 + d` for the condition on the computed
difference. -/
theorem C20_fade_out_expiry :
    (∀ (T : Type) [Preorder T] [Sub T] [DecidableRel (fun a b : T => a ≤ b)],
      (∀ a b c : T, a ≤ b → a - c ≤ b - c) →
      ∀ (e : EffectSimple T) (later : List (SetupCall T)),
      (∀ c ∈ later, c.isActive = false) →
      (∀ t2 durationIn d now durationIn1 durationOut1,
        e.isCurrentlyActive = true → ¬ (now - t2 ≤ d) →
        (((e.Setup t2 false durationIn d).2.runSetup later).Setup
          now false durationIn1 durationOut1).1 = false) ∧
      (∀ now durationIn durationOut now1 durationIn1 durationOut1,
        (e.Setup now false durationIn durationOut).1 = false → now ≤ now1 →
        (((e.Setup now false durationIn durationOut).2.runSetup later).Setup
          now1 false durationIn1 durationOut1).1 = false) ∧
      (∀ now durationIn durationOut, (e.Setup now true durationIn durationOut).1 = true)) ∧
    (∀ (T : Type) [LinearOrderedAddCommGroup T]
      (e : EffectSimple T) (later : List (SetupCall T)),
      (∀ c ∈ later, c.isActive = false) →
      (∀ t2 durationIn d now durationIn1 durationOut1,
        e.isCurrentlyActive = true → t2 + d < now →
        (((e.Setup t2 false durationIn d).2.runSetup later).Setup
          now false durationIn1 durationOut1).1 = false) ∧
      (∀ now durationIn durationOut now1 durationIn1 durationOut1,
        (e.Setup now false durationIn durationOut).1 = false → now ≤ now1 →
        (((e.Setup now false durationIn durationOut).2.runSetup later).Setup
          now1 false durationIn1 durationOut1).1 = false) ∧
      (∀ now durationIn durationOut, (e.Setup now true durationIn durationOut).1 = true)) :=
  ⟨fun _ _ _ _ hmono e later hlater => fade_out_expiry_computed hmono e later hlater,
   fun _ _ e later hlater => fade_out_expiry_exact e later hlater⟩

/-- Witness for C20. With `float` times: activated at time 0, deactivated at
time 1 with fade-out duration 16777216, queried at time 16777218, the effect
no longer executes at time 16777220, where the computed difference is
16777220. With integer times: activated at time 1, deactivated at time 10 with
fade-out duration 3, queried at times 11 and 12, the effect no longer executes
at time 14. -/
theorem C20_fade_out_expiry_witness :
    (((((EffectSimple.construct : EffectSimple IntegralFloat).Setup
        ⟨0⟩ true ⟨2⟩ ⟨16777216⟩).2.Setup
        ⟨1⟩ false ⟨2⟩ ⟨16777216⟩).2.runSetup
        [{ currentTime := ⟨16777218⟩, isActive := false, transitionDurationIn := ⟨2⟩,
           transitionDurationOut := ⟨16777216⟩ }]).Setup
        ⟨16777220⟩ false ⟨2⟩ ⟨16777216⟩).1 = false ∧
    (((((EffectSimple.construct : EffectSimple Int).Setup 1 true 2 3).2.Setup
        10 false 2 3).2.runSetup
        [{ currentTime := 11, isActive := false, transitionDurationIn := 2,
           transitionDurationOut := 3 },
         { currentTime := 12, isActive := false, transitionDurationIn := 2,
           transitionDurationOut := 3 }]).Setup 14 false 2 3).1 = false :=
  ⟨(C20_fade_out_expiry.1 IntegralFloat IntegralFloat.sub_mono
      ((EffectSimple.construct : EffectSimple IntegralFloat).Setup
        ⟨0⟩ true ⟨2⟩ ⟨16777216⟩).2
      [{ currentTime := ⟨16777218⟩, isActive := false, transitionDurationIn := ⟨2⟩,
         transitionDurationOut := ⟨16777216⟩ }]
      (by decide)).1 ⟨1⟩ ⟨2⟩ ⟨16777216⟩ ⟨16777220⟩ ⟨2⟩ ⟨16777216⟩ (by decide) (by decide),
   (C20_fade_out_expiry.2 Int
      ((EffectSimple.construct : EffectSimple Int).Setup 1 true 2 3).2
      [{ currentTime := 11, isActive := false, transitionDurationIn := 2,
         transitionDurationOut := 3 },
       { currentTime := 12, isActive := false, transitionDurationIn := 2,
         transitionDurationOut := 3 }]
      (by decide)).1 10 2 3 14 2 3 (by decide) (by decide)⟩

/-! ## Theorems: staging writes -/

/-- A 64-bit sum of two 32-bit values does not wrap. -/
theorem add64_of_lt (cursor count : Nat) (h1 : cursor < 2 ^ 32) (h2 : count < 2 ^ 32) :
    (cursor + count) % 2 ^ 64 = cursor + count :=
  Nat.mod_eq_of_lt (by omega)

/-- A submission that passes both capacity comparisons ends inside both
buffers. -/
theorem fits_of_checks (c : RasterizedDataCollector) (info : RgRasterizedGeometryUploadInfo)
    (hcv : c.curVertexCount < 2 ^ 32) (hci : c.curIndexCount < 2 ^ 32)
    (hvc : info.vertexCount < 2 ^ 32) (hic : info.indexCount < 2 ^ 32)
    (hv : ¬ vertexCheckFails c info) (hi : ¬ indexCheckFails c info) :
    (c.curVertexCount + info.vertexCount) * sizeofRasterizerVertex ≤ c.vertexBuffer.GetSize ∧
    (c.curIndexCount + info.indexCount) * sizeofUint32 ≤ c.indexBuffer.GetSize := by
  unfold vertexCheckFails at hv
  unfold indexCheckFails at hi
  rw [add64_of_lt _ _ hcv hvc] at hv
  rw [add64_of_lt _ _ hci hic] at hi
  unfold sizeofRasterizerVertex at hv ⊢
  unfold sizeofUint32 at hi ⊢
  constructor <;> omega

/-- The cursors stay inside the buffers across an `AddGeometry` call. -/
theorem cursorsInside_AddGeometry (x : Externals) (c : RasterizedDataCollector)
    (info : RgRasterizedGeometryUploadInfo)
    (pViewProjection : Option (List Nat)) (pViewport : Option RgViewport)
    (h : cursorsInside c)
    (hvc : info.vertexCount < 2 ^ 32) (hic : info.indexCount < 2 ^ 32)
    (hexit : (AddGeometry x c info pViewProjection pViewport).1 ≠ .undefinedBehaviour) :
    cursorsInside (AddGeometry x c info pViewProjection pViewport).2 := by
  obtain ⟨hcv, hci, hvin, hiin⟩ := h
  rcases AddGeometry_trichotomy x c info pViewProjection pViewport with hs | hu | ⟨hall, hacc⟩
  · rw [hs]
    exact ⟨hcv, hci, hvin, hiin⟩
  · exact absurd hu hexit
  · obtain ⟨hfv, hfi⟩ := fits_of_checks c info hcv hci hvc hic hall.2.2.2.1 hall.2.2.2.2.1
    rw [hacc]
    have hmv : (c.curVertexCount + info.vertexCount) % 2 ^ 32 ≤
        c.curVertexCount + info.vertexCount := Nat.mod_le _ _
    have hmi : (c.curIndexCount + info.indexCount) % 2 ^ 32 ≤
        c.curIndexCount + info.indexCount := Nat.mod_le _ _
    have hlv : (c.curVertexCount + info.vertexCount) % 2 ^ 32 < 2 ^ 32 :=
      Nat.mod_lt _ (by norm_num)
    have hli : (c.curIndexCount + info.indexCount) % 2 ^ 32 < 2 ^ 32 :=
      Nat.mod_lt _ (by norm_num)
    unfold sizeofRasterizerVertex at hfv hvin
    unfold sizeofUint32 at hfi hiin
    refine ⟨hlv, ?_, ?_, ?_⟩
    · show (if useIndices info then (c.curIndexCount + info.indexCount) % 2 ^ 32
        else c.curIndexCount) < 2 ^ 32
      split_ifs
      · exact hli
      · exact hci
    · show (c.curVertexCount + info.vertexCount) % 2 ^ 32 * sizeofRasterizerVertex ≤
        c.vertexBuffer.GetSize
      unfold sizeofRasterizerVertex
      omega
    · show (if useIndices info then (c.curIndexCount + info.indexCount) % 2 ^ 32
        else c.curIndexCount) * sizeofUint32 ≤ c.indexBuffer.GetSize
      unfold sizeofUint32
      split_ifs
      · omega
      · exact hiin

/-- In every reachable state the cursors are inside the buffers. -/
theorem cursorsInside_of_reachable (x : Externals) (c : RasterizedDataCollector)
    (h : Reachable x c) : cursorsInside c := by
  induction h with
  | general maxV maxI _ _ =>
    exact ⟨by norm_num [RasterizedDataCollectorGeneral, RasterizedDataCollector.construct],
      by norm_num [RasterizedDataCollectorGeneral, RasterizedDataCollector.construct],
      by simp [RasterizedDataCollectorGeneral, RasterizedDataCollector.construct],
      by simp [RasterizedDataCollectorGeneral, RasterizedDataCollector.construct]⟩
  | sky maxV maxI _ _ =>
    exact ⟨by norm_num [RasterizedDataCollectorSky, RasterizedDataCollector.construct],
      by norm_num [RasterizedDataCollectorSky, RasterizedDataCollector.construct],
      by simp [RasterizedDataCollectorSky, RasterizedDataCollector.construct],
      by simp [RasterizedDataCollectorSky, RasterizedDataCollector.construct]⟩
  | clear c _ ih =>
    obtain ⟨h1, h2, -, -, -, -, -, -⟩ := Clear_eq c
    exact ⟨by rw [h1]; norm_num, by rw [h2]; norm_num, by rw [h1]; simp, by rw [h2]; simp⟩
  | add c _ info pViewProjection pViewport hvc hic hexit ih =>
    exact cursorsInside_AddGeometry x c info pViewProjection pViewport ih hvc hic hexit

/-- C9 (amended): a submission is accepted exactly when both cursors stay
strictly below capacity. For 32-bit cursors and counts and a submission that
passes every other check (the assertions when they are compiled in, the sky
and `pArrays` checks, a render type the collector handles, a source that is
not null): if `curVertexCount + vertexCount` is below the vertex capacity and
`curIndexCount + indexCount` is below the index capacity (capacity = staging
buffer size divided by element size), `AddGeometry` returns with the accepted
state and one more `DrawInfo` in the bucket of the render type; if either sum
reaches or exceeds its capacity, an exact fill included, the submission is
dropped with the collector unchanged (a return, or `assert(0)` when assertions
are compiled in). -/
theorem C9_accepted_iff_below_capacity (x : Externals) (c : RasterizedDataCollector)
    (info : RgRasterizedGeometryUploadInfo)
    (pViewProjection : Option (List Nat)) (pViewport : Option RgViewport)
    (hcv : c.curVertexCount < 2 ^ 32) (hci : c.curIndexCount < 2 ^ 32)
    (hvc : info.vertexCount < 2 ^ 32) (hic : info.indexCount < 2 ^ 32)
    (hasserts : x.assertsEnabled = true → layoutAssertsHold info ∧ depthAssertsHold x info)
    (hsky : skyCheckPasses info pViewProjection pViewport)
    (harr : arraysChecksPass info)
    (hh : handles c info.renderType)
    (hsrc : info.pArrays.isSome = true ∨ info.pStructs.isSome = true) :
    (c.curVertexCount + info.vertexCount < c.vertexBuffer.GetSize / sizeofRasterizerVertex ∧
      c.curIndexCount + info.indexCount < c.indexBuffer.GetSize / sizeofUint32 →
      AddGeometry x c info pViewProjection pViewport =
        (.returned (), acceptedState x c info pViewProjection pViewport) ∧
      bucketOf (AddGeometry x c info pViewProjection pViewport).2 info.renderType =
        bucketOf c info.renderType ++ [acceptedDrawInfo x c info pViewProjection pViewport]) ∧
    (c.vertexBuffer.GetSize / sizeofRasterizerVertex ≤ c.curVertexCount + info.vertexCount ∨
      c.indexBuffer.GetSize / sizeofUint32 ≤ c.curIndexCount + info.indexCount →
      AddGeometry x c info pViewProjection pViewport =
        (if x.assertsEnabled then .assertFailed else .returned (), c)) := by
  have hv64 := add64_of_lt _ _ hcv hvc
  have hi64 := add64_of_lt _ _ hci hic
  constructor
  · rintro ⟨hv, hi⟩
    have hpass : passesAllChecks x c info pViewProjection pViewport := by
      refine ⟨hasserts, hsky, harr, ?_, ?_, hh, hsrc⟩
      · unfold vertexCheckFails
        rw [hv64]
        exact not_le.mpr hv
      · unfold indexCheckFails
        rw [hi64]
        exact not_le.mpr hi
    have h := AddGeometry_accepted x c info pViewProjection pViewport hpass
    refine ⟨h, ?_⟩
    rw [h]
    exact bucketOf_acceptedState x c info pViewProjection pViewport hh
  · intro hcap
    apply AddGeometry_capacity x c info pViewProjection pViewport hasserts hsky harr
    rcases hcap with hv | hi
    · left
      unfold vertexCheckFails
      rw [hv64]
      exact hv
    · right
      unfold indexCheckFails
      rw [hi64]
      exact hi

/-- Witness for C9: 63 vertices into a fresh general collector of vertex
capacity 64 are accepted. -/
theorem C9_accepted_iff_below_capacity_witness :
    AddGeometry (sampleExternals false) (RasterizedDataCollectorGeneral 64 64)
      (sampleInfo RG_RASTERIZED_GEOMETRY_RENDER_TYPE_DEFAULT 63 0 0) none none =
      (.returned (), acceptedState (sampleExternals false) (RasterizedDataCollectorGeneral 64 64)
        (sampleInfo RG_RASTERIZED_GEOMETRY_RENDER_TYPE_DEFAULT 63 0 0) none none) :=
  ((C9_accepted_iff_below_capacity (sampleExternals false) (RasterizedDataCollectorGeneral 64 64)
    (sampleInfo RG_RASTERIZED_GEOMETRY_RENDER_TYPE_DEFAULT 63 0 0) none none
    (by decide) (by decide) (by decide) (by decide) (by decide) (by decide) (by decide)
    (by decide) (by decide)).1 ⟨by decide, by decide⟩).1

end RTGL1
